import Mathlib

/-!
# SpartanEngine: the Vulkan command list

A shallow embedding of `Runtime/RHI/Vulkan/Vulkan_CommandList.cpp` together with the helpers of
`Runtime/RHI/Vulkan/Vulkan_Common.h` it calls (`error::check_result`, `error::assert_result`,
`fence::wait_reset`, `debug_marker::begin/end`).

* Native handles and object pointers (`void*`) are natural numbers, `nullptr` is `0`.
* Every call that leaves the command list (a Vulkan entry point, a method of the pipeline, of the
  pipeline cache or of the swap chain, a `LOG_ERROR`) is appended to a trace, in program order.
  What such a call answers is an input of the embedded function (the `*Env` structures).
* A failed `SPARTAN_ASSERT`, dereferencing a null member pointer and indexing a `std::vector`
  past its end stop the execution with a `Fault`; the world at that moment is kept.
-/

namespace Spartan

/-- A native handle or object pointer (`void*`). -/
abbrev Ptr := Nat

/-- The null pointer. -/
abbrev nullptr : Ptr := 0

/-- A `VkResult` code. -/
abbrev VkResult := Int

/-- The code `VK_SUCCESS`. -/
abbrev VK_SUCCESS : VkResult := 0

/-- The enum `RHI_Cmd_List_State` of `RHI_CommandList.h`. -/
inductive RHI_Cmd_List_State where
  | RHI_Cmd_List_Idle
  | RHI_Cmd_List_Idle_Sync_Cpu_To_Gpu
  | RHI_Cmd_List_Recording
  | RHI_Cmd_List_Ended
  deriving DecidableEq, Repr

open RHI_Cmd_List_State

/-- The fields of `RHI_PipelineState` that the command list reads; `rest` stands for the
remaining fields of the description (states, formats, topology), which it only hands on to the
pipeline cache. -/
structure RHI_PipelineState where
  shader_vertex : Ptr
  swap_chain : Ptr
  rest : Nat
  deriving DecidableEq, Repr

/-- A viewport as passed to `SetViewport`; each field is the bit pattern of a `float`. -/
structure RHI_Viewport where
  x : Nat
  y : Nat
  width : Nat
  height : Nat
  depth_min : Nat
  depth_max : Nat
  deriving DecidableEq, Repr

/-- A `Math::Rectangle` as passed to `SetScissorRectangle`; each field is the bit pattern of a
`float`. -/
structure Rectangle where
  x : Nat
  y : Nat
  width : Nat
  height : Nat
  deriving DecidableEq, Repr

/-- The index types `SetBufferIndex` chooses between. -/
inductive VkIndexType where
  | VK_INDEX_TYPE_UINT16
  | VK_INDEX_TYPE_UINT32
  deriving DecidableEq, Repr

/-- The messages handed to `LOG_ERROR`. -/
inductive LogMsg where
  /-- The text "Previous command list is still being used". -/
  | previous_still_used
  /-- The text "Can't record command". -/
  | cant_record
  /-- The text "Invalid pipeline". -/
  | invalid_pipeline
  /-- The text "RHI_CommandList::End() must be called before calling
  RHI_CommandList::Submit()". -/
  | end_before_submit
  /-- The text `to_string(result)` logged by `check_result`. -/
  | vk_result (result : VkResult)
  deriving DecidableEq, Repr

/-- The calls that leave the command list, in the order the code makes them. A call whose
answer the code inspects carries that answer (`result`). -/
inductive Ev where
  | LOG_ERROR (msg : LogMsg)
  | vkWaitForFences (fence : Ptr) (result : VkResult)
  | vkResetFences (fence : Ptr) (result : VkResult)
  | vkResetCommandPool (cmd_pool : Ptr) (result : VkResult)
  | OnCommandListConsumed (pipeline : Ptr)
  | GetPipeline (pipeline_state : RHI_PipelineState)
  | AcquireNextImage (swap_chain : Ptr) (result : Bool)
  | SetSemaphoreRenderFinished (swap_chain : Ptr) (semaphore : Ptr)
  | vkBeginCommandBuffer (cmd_buffer : Ptr) (result : VkResult)
  | vkCmdBeginRenderPass (cmd_buffer : Ptr) (render_pass : Ptr) (framebuffer : Ptr)
      (width : Nat) (height : Nat)
  | vkCmdBindPipeline (cmd_buffer : Ptr) (pipeline : Ptr)
  | vkCmdDebugMarkerBegin (cmd_buffer : Ptr) (name : String)
  | vkCmdEndRenderPass (cmd_buffer : Ptr)
  | vkEndCommandBuffer (cmd_buffer : Ptr) (result : VkResult)
  | vkCmdDebugMarkerEnd (cmd_buffer : Ptr)
  | GetDescriptorPendingUpdate (pipeline : Ptr)
  | vkCmdBindDescriptorSets (cmd_buffer : Ptr) (layout : Ptr) (firstSet : Nat)
      (descriptor_set : Ptr)
  | vkCmdDraw (cmd_buffer : Ptr) (vertexCount : Nat) (instanceCount : Nat) (firstVertex : Nat)
      (firstInstance : Nat)
  | vkCmdDrawIndexed (cmd_buffer : Ptr) (indexCount : Nat) (instanceCount : Nat)
      (firstIndex : Nat) (vertexOffset : Nat) (firstInstance : Nat)
  | vkCmdSetViewport (cmd_buffer : Ptr) (viewport : RHI_Viewport)
  /-- The call `vkCmdSetScissor` with the `VkRect2D` the code builds from `scissor`: offset
  `static_cast<int32_t>` of `x` and `y`, extent `static_cast<uint32_t>` of `width` and
  `height`. These conversions from `float` are not computed: the event names the rectangle
  they are applied to. -/
  | vkCmdSetScissor (cmd_buffer : Ptr) (scissor : Rectangle)
  | vkCmdBindVertexBuffers (cmd_buffer : Ptr) (buffer : Ptr) (offset : Nat)
  | vkCmdBindIndexBuffer (cmd_buffer : Ptr) (buffer : Ptr) (offset : Nat)
      (indexType : VkIndexType)
  | Pipeline_SetConstantBuffer (pipeline : Ptr) (slot : Nat) (constant_buffer : Ptr)
  | Pipeline_SetSampler (pipeline : Ptr) (slot : Nat) (sampler : Ptr)
  | Pipeline_SetTexture (pipeline : Ptr) (slot : Nat) (texture : Ptr)
  | vkQueueSubmit (wait_semaphore : Ptr) (cmd_buffer : Ptr) (signal_semaphore : Ptr)
      (fence : Ptr) (result : VkResult)
  | vkCreateCommandPool (result : VkResult)
  | vkAllocateCommandBuffers (cmd_pool : Ptr) (result : VkResult)
  | vkCreateSemaphore (result : VkResult)
  | vkCreateFence (result : VkResult)
  deriving DecidableEq, Repr

/-- The data members of `RHI_CommandList` that the Vulkan implementation uses. -/
structure RHI_CommandList where
  m_pipeline_state : RHI_PipelineState
  m_cmd_buffers : List Ptr
  m_semaphores_cmd_list_consumed : List Ptr
  m_fences_in_flight : List Ptr
  m_pipeline : Ptr
  m_cmd_pool : Ptr
  m_buffer_index : Nat
  m_cmd_state : RHI_Cmd_List_State
  deriving DecidableEq, Repr

/-- The command list together with the trace of the calls it has made so far. -/
structure World where
  cl : RHI_CommandList
  trace : List Ev
  deriving DecidableEq, Repr

/-- The ways an execution stops without returning. -/
inductive Fault where
  /-- A `SPARTAN_ASSERT` whose condition is false. -/
  | assertion_failed
  /-- A member function called through a null pointer. -/
  | null_dereference
  /-- `operator[]` of a `std::vector` with an index that is not below its size. -/
  | index_out_of_range
  deriving DecidableEq, Repr

/-- The result of running a member function: it returned `a`, or it stopped with a fault. -/
inductive Res (α : Type) where
  | ok (a : α) (w : World)
  | fault (f : Fault) (w : World)
  deriving DecidableEq, Repr

/-- The world in which an execution ended, whether it returned or not. -/
def Res.world {α : Type} : Res α → World
  | .ok _ w => w
  | .fault _ w => w

/-- A member function: from the world before the call to its result. -/
abbrev Exec (α : Type) := World → Res α

/-- Return `a` without touching the world. -/
def Exec.ret {α : Type} (a : α) : Exec α := fun w => .ok a w

/-- Sequencing: a fault of the first part ends the execution. -/
def Exec.seq {α β : Type} (x : Exec α) (f : α → Exec β) : Exec β := fun w =>
  match x w with
  | .ok a w1 => f a w1
  | .fault e w1 => .fault e w1

instance : Monad Exec where
  pure := Exec.ret
  bind := Exec.seq

/-- Append a call to the trace. -/
def emit (e : Ev) : Exec Unit := fun w => .ok () { w with trace := w.trace ++ [e] }

/-- Read the data members. -/
def members : Exec RHI_CommandList := fun w => .ok w.cl w

/-- Assign data members. -/
def assign (f : RHI_CommandList → RHI_CommandList) : Exec Unit := fun w =>
  .ok () { w with cl := f w.cl }

/-- The macro `SPARTAN_ASSERT`: the condition has been evaluated, a false one stops the run. -/
def SPARTAN_ASSERT (condition : Bool) : Exec Unit := fun w =>
  if condition then .ok () w else .fault .assertion_failed w

/-- The macro `LOG_ERROR`. -/
def LOG_ERROR (msg : LogMsg) : Exec Unit := emit (.LOG_ERROR msg)

/-- The access `v[i]` of a `std::vector`. -/
def at_index (v : List Ptr) (i : Nat) : Exec Ptr := fun w =>
  match v[i]? with
  | some p => .ok p w
  | none => .fault .index_out_of_range w

/-- The access `p->` through a member pointer. -/
def deref (p : Ptr) : Exec Unit := fun w =>
  if p = nullptr then .fault .null_dereference w else .ok () w

/-- The macro `CMD_BUFFER`: `m_cmd_buffers[m_buffer_index]`. -/
def CMD_BUFFER : Exec Ptr := do
  let c ← members
  at_index c.m_cmd_buffers c.m_buffer_index

/-- The macro `FENCE_CMD_BUFFER_CONSUMED`: `m_fences_in_flight[m_buffer_index]`. -/
def FENCE_CMD_BUFFER_CONSUMED : Exec Ptr := do
  let c ← members
  at_index c.m_fences_in_flight c.m_buffer_index

/-- The macro `SEMAPHORE_CMD_BUFFER_CONSUMED`:
`m_semaphores_cmd_list_consumed[m_buffer_index]`. -/
def SEMAPHORE_CMD_BUFFER_CONSUMED : Exec Ptr := do
  let c ← members
  at_index c.m_semaphores_cmd_list_consumed c.m_buffer_index

namespace Vulkan_Common

/-- The helper `error::check_result`. -/
def check_result (result : VkResult) : Exec Bool :=
  if result = VK_SUCCESS then pure true
  else do
    LOG_ERROR (.vk_result result)
    pure false

/-- The helper `error::assert_result`. -/
def assert_result (result : VkResult) : Exec Unit :=
  SPARTAN_ASSERT (decide (result = VK_SUCCESS))

/-- The helper `fence::wait_reset`; `wait` and `reset` are what `vkWaitForFences` and
`vkResetFences` answer. -/
def wait_reset (fence_in : Ptr) (wait : VkResult) (reset : VkResult) : Exec Unit := do
  emit (.vkWaitForFences fence_in wait)
  SPARTAN_ASSERT (decide (wait = VK_SUCCESS))
  emit (.vkResetFences fence_in reset)
  SPARTAN_ASSERT (decide (reset = VK_SUCCESS))

end Vulkan_Common

/-- What the collaborators answer during one call of `Begin`. -/
structure BeginEnv where
  /-- The result of `vkWaitForFences`. -/
  wait_for_fences : VkResult
  /-- The result of `vkResetFences`. -/
  reset_fences : VkResult
  /-- The result of `vkResetCommandPool`. -/
  reset_command_pool : VkResult
  /-- The pointer `m_rhi_pipeline_cache->GetPipeline(m_pipeline_state).get()`. -/
  cache_pipeline : Ptr
  /-- The result of `swap_chain->AcquireNextImage()`. -/
  acquire_next_image : Bool
  /-- The value of `swap_chain->GetImageIndex()`. -/
  image_index : Nat
  /-- The result of `vkBeginCommandBuffer`. -/
  begin_command_buffer : VkResult
  /-- The value of `swap_chain->GetRenderPass()`. -/
  render_pass : Ptr
  /-- The value of `swap_chain->GetFrameBuffer()`. -/
  frame_buffer : Ptr
  /-- The value of `swap_chain->GetWidth()`. -/
  width : Nat
  /-- The value of `swap_chain->GetHeight()`. -/
  height : Nat
  /-- The handle `m_pipeline->GetPipeline()`. -/
  vk_pipeline : Ptr
  /-- Whether `DEBUG` is defined and `debug_marker::active` is set. -/
  debug_marker : Bool
  deriving DecidableEq, Repr

/-- What the collaborators answer during one call of `End`. -/
structure EndEnv where
  /-- The result of `vkEndCommandBuffer`. -/
  end_command_buffer : VkResult
  /-- Whether `DEBUG` is defined and `debug_marker::active` is set. -/
  debug_marker : Bool
  deriving DecidableEq, Repr

/-- What the bound pipeline answers during one call of `Draw` or `DrawIndexed`. -/
structure DrawEnv where
  /-- The pointer `m_pipeline->GetDescriptorPendingUpdate()`. -/
  descriptor_pending_update : Ptr
  /-- The handle `m_pipeline->GetPipelineLayout()`. -/
  pipeline_layout : Ptr
  deriving DecidableEq, Repr

/-- What the collaborators answer during one call of `Submit`. -/
structure SubmitEnv where
  /-- The value of `swap_chain->GetImageIndex()`. -/
  image_index : Nat
  /-- The value of `swap_chain->GetSemaphoreImageAcquired()`. -/
  semaphore_image_acquired : Ptr
  /-- The result of `vkQueueSubmit`. -/
  queue_submit : VkResult
  deriving DecidableEq, Repr

/-- A vertex buffer argument: the handle `buffer->GetResource()`. -/
structure RHI_VertexBuffer where
  resource : Ptr
  deriving DecidableEq, Repr

/-- An index buffer argument: the handle `buffer->GetResource()` and `buffer->Is16Bit()`. -/
structure RHI_IndexBuffer where
  resource : Ptr
  is_16bit : Bool
  deriving DecidableEq, Repr

namespace RHI_CommandList

/-- The block "Sync CPU to GPU" at the top of `Begin`. -/
def Begin_sync (env : BeginEnv) : Exec Unit := do
  let c ← members
  if c.m_cmd_state = RHI_Cmd_List_Idle_Sync_Cpu_To_Gpu then do
    let fence ← FENCE_CMD_BUFFER_CONSUMED
    Vulkan_Common.wait_reset fence env.wait_for_fences env.reset_fences
    emit (.vkResetCommandPool c.m_cmd_pool env.reset_command_pool)
    Vulkan_Common.assert_result env.reset_command_pool
    deref c.m_pipeline
    emit (.OnCommandListConsumed c.m_pipeline)
    assign fun c => { c with m_cmd_state := RHI_Cmd_List_Idle }
  else pure ()

/-- The part of `Begin` after the vertex-shader check: from the pipeline-cache lookup on. -/
def Begin_record (pass_name : String) (env : BeginEnv) : Exec Unit := do
  let c ← members
  emit (.GetPipeline c.m_pipeline_state)
  assign fun c => { c with m_pipeline := env.cache_pipeline }
  -- Acquire next swap chain image and update buffer index
  deref c.m_pipeline_state.swap_chain
  emit (.AcquireNextImage c.m_pipeline_state.swap_chain env.acquire_next_image)
  SPARTAN_ASSERT env.acquire_next_image
  assign fun c => { c with m_buffer_index := env.image_index }
  -- Let the swapchain know when the this command list is submitted and consumed
  let semaphore ← SEMAPHORE_CMD_BUFFER_CONSUMED
  emit (.SetSemaphoreRenderFinished c.m_pipeline_state.swap_chain semaphore)
  -- Begin command buffer
  let cmd_buffer ← CMD_BUFFER
  emit (.vkBeginCommandBuffer cmd_buffer env.begin_command_buffer)
  let begun ← Vulkan_Common.check_result env.begin_command_buffer
  if !begun then pure ()
  else do
    -- Begin render pass
    emit (.vkCmdBeginRenderPass cmd_buffer env.render_pass env.frame_buffer env.width env.height)
    -- Bind pipeline
    let c ← members
    deref c.m_pipeline
    if env.vk_pipeline ≠ nullptr then do
      emit (.vkCmdBindPipeline cmd_buffer env.vk_pipeline)
      -- At this point, it's safe to allow for command recording
      assign fun c => { c with m_cmd_state := RHI_Cmd_List_Recording }
      -- Debug marker - Begin
      if env.debug_marker then emit (.vkCmdDebugMarkerBegin cmd_buffer pass_name) else pure ()
    else
      LOG_ERROR .invalid_pipeline

/-- The member function `RHI_CommandList::Begin`. -/
def Begin (pass_name : String) (env : BeginEnv) : Exec Unit := do
  -- Sync CPU to GPU
  Begin_sync env
  let c ← members
  if c.m_cmd_state ≠ RHI_Cmd_List_Idle then
    LOG_ERROR .previous_still_used
  else if c.m_pipeline_state.shader_vertex = nullptr then
    pure ()
  else
    Begin_record pass_name env

/-- The member function `RHI_CommandList::End`. -/
def End (env : EndEnv) : Exec Unit := do
  let c ← members
  if c.m_cmd_state ≠ RHI_Cmd_List_Recording then
    LOG_ERROR .cant_record
  else do
    let cmd_buffer ← CMD_BUFFER
    emit (.vkCmdEndRenderPass cmd_buffer)
    emit (.vkEndCommandBuffer cmd_buffer env.end_command_buffer)
    let ended ← Vulkan_Common.check_result env.end_command_buffer
    if ended then assign fun c => { c with m_cmd_state := RHI_Cmd_List_Ended } else pure ()
    -- Debug marker - End
    if env.debug_marker then emit (.vkCmdDebugMarkerEnd cmd_buffer) else pure ()

/-- The block "Update descriptor set (if needed)" shared by `Draw` and `DrawIndexed`. -/
def update_descriptor_set (env : DrawEnv) : Exec Unit := do
  let c ← members
  deref c.m_pipeline
  emit (.GetDescriptorPendingUpdate c.m_pipeline)
  if env.descriptor_pending_update ≠ nullptr then do
    -- Bind descriptor set
    let cmd_buffer ← CMD_BUFFER
    emit (.vkCmdBindDescriptorSets cmd_buffer env.pipeline_layout 0
      env.descriptor_pending_update)
  else pure ()

/-- The member function `RHI_CommandList::Draw`. -/
def Draw (vertex_count : Nat) (env : DrawEnv) : Exec Unit := do
  let c ← members
  if c.m_cmd_state ≠ RHI_Cmd_List_Recording then
    LOG_ERROR .cant_record
  else do
    update_descriptor_set env
    let cmd_buffer ← CMD_BUFFER
    emit (.vkCmdDraw cmd_buffer vertex_count 1 0 0)

/-- The member function `RHI_CommandList::DrawIndexed`. -/
def DrawIndexed (index_count : Nat) (index_offset : Nat) (vertex_offset : Nat)
    (env : DrawEnv) : Exec Unit := do
  let c ← members
  if c.m_cmd_state ≠ RHI_Cmd_List_Recording then
    LOG_ERROR .cant_record
  else do
    update_descriptor_set env
    let cmd_buffer ← CMD_BUFFER
    emit (.vkCmdDrawIndexed cmd_buffer index_count 1 index_offset vertex_offset 0)

/-- The member function `RHI_CommandList::SetViewport`. -/
def SetViewport (viewport : RHI_Viewport) : Exec Unit := do
  let c ← members
  if c.m_cmd_state ≠ RHI_Cmd_List_Recording then
    LOG_ERROR .cant_record
  else do
    let cmd_buffer ← CMD_BUFFER
    emit (.vkCmdSetViewport cmd_buffer viewport)

/-- The member function `RHI_CommandList::SetScissorRectangle`. -/
def SetScissorRectangle (scissor_rectangle : Rectangle) : Exec Unit := do
  let c ← members
  if c.m_cmd_state ≠ RHI_Cmd_List_Recording then
    LOG_ERROR .cant_record
  else do
    let cmd_buffer ← CMD_BUFFER
    -- vk_scissor: the static_cast of each field of scissor_rectangle, see `Ev.vkCmdSetScissor`
    emit (.vkCmdSetScissor cmd_buffer scissor_rectangle)

/-- The member functions `SetPrimitiveTopology`, `SetInputLayout`, `SetDepthStencilState`,
`SetRasterizerState`, `SetBlendState`, `SetShaderVertex`, `SetShaderPixel`, `SetRenderTargets`,
`ClearRenderTarget` and `ClearDepthStencil`: their bodies are the comment "part of pipeline". -/
def part_of_pipeline : Exec Unit := pure ()

/-- The member function `RHI_CommandList::SetBufferVertex`. -/
def SetBufferVertex (buffer : RHI_VertexBuffer) : Exec Unit := do
  let c ← members
  if c.m_cmd_state ≠ RHI_Cmd_List_Recording then
    LOG_ERROR .cant_record
  else do
    let cmd_buffer ← CMD_BUFFER
    emit (.vkCmdBindVertexBuffers cmd_buffer buffer.resource 0)

/-- The member function `RHI_CommandList::SetBufferIndex`. -/
def SetBufferIndex (buffer : RHI_IndexBuffer) : Exec Unit := do
  let c ← members
  if c.m_cmd_state ≠ RHI_Cmd_List_Recording then
    LOG_ERROR .cant_record
  else do
    let cmd_buffer ← CMD_BUFFER
    emit (.vkCmdBindIndexBuffer cmd_buffer buffer.resource 0
      (if buffer.is_16bit then .VK_INDEX_TYPE_UINT16 else .VK_INDEX_TYPE_UINT32))

/-- The member function `RHI_CommandList::SetConstantBuffer`. -/
def SetConstantBuffer (slot : Nat) (scope : Nat) (constant_buffer : Ptr) : Exec Unit := do
  let c ← members
  if c.m_cmd_state ≠ RHI_Cmd_List_Recording then
    LOG_ERROR .cant_record
  else do
    -- Set
    let _ := scope
    deref c.m_pipeline
    emit (.Pipeline_SetConstantBuffer c.m_pipeline slot constant_buffer)

/-- The member function `RHI_CommandList::SetSampler`. -/
def SetSampler (slot : Nat) (sampler : Ptr) : Exec Unit := do
  let c ← members
  if c.m_cmd_state ≠ RHI_Cmd_List_Recording then
    LOG_ERROR .cant_record
  else do
    -- Set
    deref c.m_pipeline
    emit (.Pipeline_SetSampler c.m_pipeline slot sampler)

/-- The member function `RHI_CommandList::SetTexture`; `black_texture` is what
`m_renderer->GetBlackTexture()` answers. -/
def SetTexture (slot : Nat) (texture : Ptr) (black_texture : Ptr) : Exec Unit := do
  let c ← members
  if c.m_cmd_state ≠ RHI_Cmd_List_Recording then
    LOG_ERROR .cant_record
  else do
    -- Null textures are allowed, and they are replaced with a black texture here
    let texture := if texture = nullptr then black_texture else texture
    -- Set
    deref c.m_pipeline
    emit (.Pipeline_SetTexture c.m_pipeline slot texture)

/-- The member function `RHI_CommandList::Submit`. -/
def Submit (env : SubmitEnv) : Exec Bool := do
  let c ← members
  if c.m_cmd_state ≠ RHI_Cmd_List_Ended then do
    LOG_ERROR .end_before_submit
    pure false
  else do
    -- Ensure that the swap chain buffer index is what the command list thinks it is
    deref c.m_pipeline_state.swap_chain
    SPARTAN_ASSERT (decide (c.m_buffer_index = env.image_index))
    -- Prepare semaphores
    let signal_semaphore ← SEMAPHORE_CMD_BUFFER_CONSUMED
    let cmd_buffer ← CMD_BUFFER
    let fence ← FENCE_CMD_BUFFER_CONSUMED
    emit (.vkQueueSubmit env.semaphore_image_acquired cmd_buffer signal_semaphore fence
      env.queue_submit)
    let submitted ← Vulkan_Common.check_result env.queue_submit
    if !submitted then pure false
    else do
      -- Wait for fence on the next Begin(), if we force it now, perfomance will not be as good
      assign fun c => { c with m_cmd_state := RHI_Cmd_List_Idle_Sync_Cpu_To_Gpu }
      pure true

/-- The accessor `GetPipelineState` followed by the caller's assignments to the description it
returns: the description is cleared and then holds what the caller wrote. -/
def GetPipelineState (assigned : RHI_PipelineState) : Exec Unit :=
  assign fun c => { c with m_pipeline_state := assigned }

end RHI_CommandList

/-! ## Call sequences and what is read off a trace -/

/-- One call of the public interface, with its arguments and with what the collaborators answer
during it. -/
inductive Op where
  | Begin (pass_name : String) (env : BeginEnv)
  | End (env : EndEnv)
  | Draw (vertex_count : Nat) (env : DrawEnv)
  | DrawIndexed (index_count : Nat) (index_offset : Nat) (vertex_offset : Nat) (env : DrawEnv)
  | SetViewport (viewport : RHI_Viewport)
  | SetScissorRectangle (scissor_rectangle : Rectangle)
  | SetBufferVertex (buffer : RHI_VertexBuffer)
  | SetBufferIndex (buffer : RHI_IndexBuffer)
  | SetConstantBuffer (slot : Nat) (scope : Nat) (constant_buffer : Ptr)
  | SetSampler (slot : Nat) (sampler : Ptr)
  | SetTexture (slot : Nat) (texture : Ptr) (black_texture : Ptr)
  | part_of_pipeline
  | Submit (env : SubmitEnv)
  | GetPipelineState (assigned : RHI_PipelineState)
  deriving DecidableEq, Repr

/-- Run one call; the boolean `Submit` returns is dropped. -/
def Op.run : Op → Exec Unit
  | .Begin pass_name env => RHI_CommandList.Begin pass_name env
  | .End env => RHI_CommandList.End env
  | .Draw vertex_count env => RHI_CommandList.Draw vertex_count env
  | .DrawIndexed index_count index_offset vertex_offset env =>
      RHI_CommandList.DrawIndexed index_count index_offset vertex_offset env
  | .SetViewport viewport => RHI_CommandList.SetViewport viewport
  | .SetScissorRectangle scissor_rectangle =>
      RHI_CommandList.SetScissorRectangle scissor_rectangle
  | .SetBufferVertex buffer => RHI_CommandList.SetBufferVertex buffer
  | .SetBufferIndex buffer => RHI_CommandList.SetBufferIndex buffer
  | .SetConstantBuffer slot scope constant_buffer =>
      RHI_CommandList.SetConstantBuffer slot scope constant_buffer
  | .SetSampler slot sampler => RHI_CommandList.SetSampler slot sampler
  | .SetTexture slot texture black_texture =>
      RHI_CommandList.SetTexture slot texture black_texture
  | .part_of_pipeline => RHI_CommandList.part_of_pipeline
  | .Submit env => fun w =>
      match RHI_CommandList.Submit env w with
      | .ok _ w1 => .ok () w1
      | .fault f w1 => .fault f w1
  | .GetPipelineState assigned => RHI_CommandList.GetPipelineState assigned

/-- The calls `Draw`, `DrawIndexed`, `SetViewport`, `SetScissorRectangle`, `SetBufferVertex`,
`SetBufferIndex`, `SetConstantBuffer`, `SetSampler` and `SetTexture`. -/
def Op.is_recording_call : Op → Bool
  | .Draw _ _ => true
  | .DrawIndexed _ _ _ _ => true
  | .SetViewport _ => true
  | .SetScissorRectangle _ => true
  | .SetBufferVertex _ => true
  | .SetBufferIndex _ => true
  | .SetConstantBuffer _ _ _ => true
  | .SetSampler _ _ => true
  | .SetTexture _ _ _ => true
  | _ => false

/-- Run a sequence of calls, one after the other; a fault ends the run. -/
def run_all : List Op → Exec Unit
  | [] => fun w => .ok () w
  | op :: ops => fun w =>
      match op.run w with
      | .ok _ w1 => run_all ops w1
      | .fault f w1 => .fault f w1

/-- The calls an execution appended to the trace of the world it started in. -/
def events_of {α : Type} (x : Exec α) (w : World) : List Ev :=
  (x w).world.trace.drop w.trace.length

/-- Whether a call is a `LOG_ERROR`. -/
def Ev.is_error : Ev → Bool
  | .LOG_ERROR _ => true
  | _ => false

/-- The command buffer a device instruction is recorded into (every `vkCmd*` call, and the
`vkBeginCommandBuffer`/`vkEndCommandBuffer` that open and close the recording). -/
def Ev.recorded_into : Ev → Option Ptr
  | .vkBeginCommandBuffer cmd_buffer _ => some cmd_buffer
  | .vkCmdBeginRenderPass cmd_buffer _ _ _ _ => some cmd_buffer
  | .vkCmdBindPipeline cmd_buffer _ => some cmd_buffer
  | .vkCmdDebugMarkerBegin cmd_buffer _ => some cmd_buffer
  | .vkCmdEndRenderPass cmd_buffer => some cmd_buffer
  | .vkEndCommandBuffer cmd_buffer _ => some cmd_buffer
  | .vkCmdDebugMarkerEnd cmd_buffer => some cmd_buffer
  | .vkCmdBindDescriptorSets cmd_buffer _ _ _ => some cmd_buffer
  | .vkCmdDraw cmd_buffer _ _ _ _ => some cmd_buffer
  | .vkCmdDrawIndexed cmd_buffer _ _ _ _ _ => some cmd_buffer
  | .vkCmdSetViewport cmd_buffer _ => some cmd_buffer
  | .vkCmdSetScissor cmd_buffer _ => some cmd_buffer
  | .vkCmdBindVertexBuffers cmd_buffer _ _ => some cmd_buffer
  | .vkCmdBindIndexBuffer cmd_buffer _ _ _ => some cmd_buffer
  | _ => none

/-- The pipeline a binding call (`SetConstantBuffer`, `SetSampler`, `SetTexture` of
`RHI_Pipeline`) is forwarded to. -/
def Ev.forwarded_to : Ev → Option Ptr
  | .Pipeline_SetConstantBuffer pipeline _ _ => some pipeline
  | .Pipeline_SetSampler pipeline _ _ => some pipeline
  | .Pipeline_SetTexture pipeline _ _ => some pipeline
  | _ => none

/-- A recording call succeeded from `w`: it returned, changed no data member, reported no error,
and recorded an instruction into the command buffer of the active slot or forwarded a binding
to the bound pipeline. -/
def Succeeded (w : World) (r : Res Unit) : Prop :=
  ∃ evs : List Ev, r = .ok () { w with trace := w.trace ++ evs } ∧
    (∀ e ∈ evs, e.is_error = false) ∧
    ∃ e ∈ evs, (e.recorded_into.isSome = true ∧
        e.recorded_into = w.cl.m_cmd_buffers[w.cl.m_buffer_index]?) ∨
      e.forwarded_to = some w.cl.m_pipeline

/-- A recording call was refused from `w`: it returned after a single `LOG_ERROR`
("Can't record command"), with every data member and the rest of the trace as before. -/
def Refused (w : World) (r : Res Unit) : Prop :=
  r = .ok () { w with trace := w.trace ++ [.LOG_ERROR .cant_record] }

/-- One step of following the fences through a trace: `pending` holds the fences handed to a
`vkQueueSubmit` the device accepted that no successful `vkWaitForFences` has waited on since.
A `vkBeginCommandBuffer` while a fence is pending gives `none`. -/
def Ev.track (pending : List Ptr) : Ev → Option (List Ptr)
  | .vkQueueSubmit _ _ _ fence result =>
      if result = VK_SUCCESS then some (fence :: pending) else some pending
  | .vkWaitForFences fence result =>
      if result = VK_SUCCESS then some (pending.filter fun p => decide (p ≠ fence))
      else some pending
  | .vkBeginCommandBuffer _ _ => if pending = [] then some [] else none
  | _ => some pending

/-- Follow the fences through a whole trace, starting from `pending`. -/
def track : List Ptr → List Ev → Option (List Ptr)
  | pending, [] => some pending
  | pending, e :: t =>
      match e.track pending with
      | some pending1 => track pending1 t
      | none => none

/-- The data-member part of the invariant of a command list driven through its interface: in
`Recording` and `Ended` the active slot has a command buffer and a pipeline is bound. -/
def Slot_bound (c : RHI_CommandList) : Prop :=
  (c.m_cmd_state = RHI_Cmd_List_Recording ∨ c.m_cmd_state = RHI_Cmd_List_Ended) →
    c.m_buffer_index < c.m_cmd_buffers.length ∧ c.m_pipeline ≠ nullptr

/-- The fences that may still be pending in a given state: the fence of the active slot in
`Idle_Sync_Cpu_To_Gpu`, none in any other state. -/
def allowed_pending (c : RHI_CommandList) : List Ptr :=
  if c.m_cmd_state = RHI_Cmd_List_Idle_Sync_Cpu_To_Gpu then
    (c.m_fences_in_flight[c.m_buffer_index]?).toList
  else []

/-- The invariant of a world reached through the interface: the trace never opens a command
buffer while a fence is pending, and the fences pending at its end are allowed by the state. -/
def Fences_confirmed (w : World) : Prop :=
  ∃ pending, track [] w.trace = some pending ∧ pending ⊆ allowed_pending w.cl

/-- The invariant of every world reached through the interface. -/
def Inv (w : World) : Prop :=
  Slot_bound w.cl ∧ Fences_confirmed w

/-! ## The scenario with two frames in flight -/

/-- A freshly constructed command list with two frames in flight (slot 0 holds `c0`, `s0`, `f0`,
slot 1 holds `c1`, `s1`, `f1`), whose pipeline state names a vertex shader and a swap chain. -/
def two_frames_in_flight (c0 c1 s0 s1 f0 f1 cmd_pool shader swap_chain : Ptr) : World :=
  { cl :=
      { m_pipeline_state := { shader_vertex := shader, swap_chain := swap_chain, rest := 0 }
        m_cmd_buffers := [c0, c1]
        m_semaphores_cmd_list_consumed := [s0, s1]
        m_fences_in_flight := [f0, f1]
        m_pipeline := nullptr
        m_cmd_pool := cmd_pool
        m_buffer_index := 0
        m_cmd_state := RHI_Cmd_List_Idle }
    trace := [] }

/-- What the collaborators answer to a `Begin` when every device call succeeds, the swap chain
assigns `image_index`, and the cache hands out `pipeline` with the native handle
`vk_pipeline`. -/
def begin_ok (image_index : Nat) (pipeline vk_pipeline : Ptr) : BeginEnv :=
  { wait_for_fences := VK_SUCCESS
    reset_fences := VK_SUCCESS
    reset_command_pool := VK_SUCCESS
    cache_pipeline := pipeline
    acquire_next_image := true
    image_index := image_index
    begin_command_buffer := VK_SUCCESS
    render_pass := 0
    frame_buffer := 0
    width := 0
    height := 0
    vk_pipeline := vk_pipeline
    debug_marker := false }

/-- A command list with two slots, slot 0 active, the pipeline `7` bound, a vertex shader and a
swap chain named by its pipeline state, in the state `state`. -/
def sample_world (state : RHI_Cmd_List_State) : World :=
  { cl :=
      { m_pipeline_state := { shader_vertex := 1, swap_chain := 2, rest := 0 }
        m_cmd_buffers := [100, 101]
        m_semaphores_cmd_list_consumed := [200, 201]
        m_fences_in_flight := [300, 301]
        m_pipeline := 7
        m_cmd_pool := 50
        m_buffer_index := 0
        m_cmd_state := state }
    trace := [] }

/-- One frame run as `Begin`, draw, `End`, `Submit`, every device call succeeding, on the slot
`image_index` the swap chain assigns. -/
def frame (image_index : Nat) (pipeline vk_pipeline : Ptr) : List Op :=
  [ .Begin "" (begin_ok image_index pipeline vk_pipeline),
    .Draw 3 { descriptor_pending_update := nullptr, pipeline_layout := 0 },
    .End { end_command_buffer := VK_SUCCESS, debug_marker := false },
    .Submit { image_index := image_index, semaphore_image_acquired := 0,
              queue_submit := VK_SUCCESS } ]

/-- The world after the `Begin` of a first pass on slot 0 of the command list
`two_frames_in_flight 100 101 200 201 300 301 50 1 2`, the cache handing out the pipeline `7`
with the native handle `70`. -/
def first_pass_world : World :=
  { cl :=
      { m_pipeline_state := { shader_vertex := 1, swap_chain := 2, rest := 0 }
        m_cmd_buffers := [100, 101]
        m_semaphores_cmd_list_consumed := [200, 201]
        m_fences_in_flight := [300, 301]
        m_pipeline := 7
        m_cmd_pool := 50
        m_buffer_index := 0
        m_cmd_state := RHI_Cmd_List_Recording }
    trace := [.GetPipeline { shader_vertex := 1, swap_chain := 2, rest := 0 },
      .AcquireNextImage 2 true,
      .SetSemaphoreRenderFinished 2 200,
      .vkBeginCommandBuffer 100 VK_SUCCESS,
      .vkCmdBeginRenderPass 100 0 0 0 0,
      .vkCmdBindPipeline 100 70] }

/-! ## The setters whose body is empty -/

namespace RHI_CommandList

/-- The member function `RHI_CommandList::SetPrimitiveTopology`. -/
def SetPrimitiveTopology (primitive_topology : Nat) : Exec Unit := do
  -- part of pipeline
  let _ := primitive_topology
  pure ()

/-- The member function `RHI_CommandList::SetInputLayout`. -/
def SetInputLayout (input_layout : Ptr) : Exec Unit := do
  -- part of pipeline
  let _ := input_layout
  pure ()

/-- The member function `RHI_CommandList::SetDepthStencilState`. -/
def SetDepthStencilState (depth_stencil_state : Ptr) : Exec Unit := do
  -- part of pipeline
  let _ := depth_stencil_state
  pure ()

/-- The member function `RHI_CommandList::SetRasterizerState`. -/
def SetRasterizerState (rasterizer_state : Ptr) : Exec Unit := do
  -- part of pipeline
  let _ := rasterizer_state
  pure ()

/-- The member function `RHI_CommandList::SetBlendState`. -/
def SetBlendState (blend_state : Ptr) : Exec Unit := do
  -- part of pipeline
  let _ := blend_state
  pure ()

/-- The member function `RHI_CommandList::SetShaderVertex`. -/
def SetShaderVertex (shader : Ptr) : Exec Unit := do
  -- part of pipeline
  let _ := shader
  pure ()

/-- The member function `RHI_CommandList::SetShaderPixel`. -/
def SetShaderPixel (shader : Ptr) : Exec Unit := do
  -- part of pipeline
  let _ := shader
  pure ()

/-- The member function `RHI_CommandList::SetRenderTargets`. -/
def SetRenderTargets (render_targets : Ptr) (render_target_count : Nat) (depth_stencil : Ptr) :
    Exec Unit := do
  -- part of pipeline
  let _ := (render_targets, render_target_count, depth_stencil)
  pure ()

/-- The member function `RHI_CommandList::ClearRenderTarget`; the four components of `color`
are bit patterns of `float`. -/
def ClearRenderTarget (render_target : Ptr) (color : Nat × Nat × Nat × Nat) : Exec Unit := do
  -- part of pipeline
  let _ := (render_target, color)
  pure ()

/-- The member function `RHI_CommandList::ClearDepthStencil`; `depth` is the bit pattern of a
`float`. -/
def ClearDepthStencil (depth_stencil : Ptr) (flags : Nat) (depth : Nat) (stencil : Nat) :
    Exec Unit := do
  -- part of pipeline
  let _ := (depth_stencil, flags, depth, stencil)
  pure ()

end RHI_CommandList

/-- One call of a pipeline-state setter of the public interface, with its arguments. -/
inductive Pipeline_setter where
  | SetPrimitiveTopology (primitive_topology : Nat)
  | SetInputLayout (input_layout : Ptr)
  | SetDepthStencilState (depth_stencil_state : Ptr)
  | SetRasterizerState (rasterizer_state : Ptr)
  | SetBlendState (blend_state : Ptr)
  | SetShaderVertex (shader : Ptr)
  | SetShaderPixel (shader : Ptr)
  | SetRenderTargets (render_targets : Ptr) (render_target_count : Nat) (depth_stencil : Ptr)
  | ClearRenderTarget (render_target : Ptr) (color : Nat × Nat × Nat × Nat)
  | ClearDepthStencil (depth_stencil : Ptr) (flags : Nat) (depth : Nat) (stencil : Nat)
  deriving DecidableEq, Repr

/-- Run one pipeline-state setter. -/
def Pipeline_setter.run : Pipeline_setter → Exec Unit
  | .SetPrimitiveTopology primitive_topology =>
      RHI_CommandList.SetPrimitiveTopology primitive_topology
  | .SetInputLayout input_layout => RHI_CommandList.SetInputLayout input_layout
  | .SetDepthStencilState depth_stencil_state =>
      RHI_CommandList.SetDepthStencilState depth_stencil_state
  | .SetRasterizerState rasterizer_state => RHI_CommandList.SetRasterizerState rasterizer_state
  | .SetBlendState blend_state => RHI_CommandList.SetBlendState blend_state
  | .SetShaderVertex shader => RHI_CommandList.SetShaderVertex shader
  | .SetShaderPixel shader => RHI_CommandList.SetShaderPixel shader
  | .SetRenderTargets render_targets render_target_count depth_stencil =>
      RHI_CommandList.SetRenderTargets render_targets render_target_count depth_stencil
  | .ClearRenderTarget render_target color =>
      RHI_CommandList.ClearRenderTarget render_target color
  | .ClearDepthStencil depth_stencil flags depth stencil =>
      RHI_CommandList.ClearDepthStencil depth_stencil flags depth stencil

/-- The device instructions among a list of calls: the calls recorded into a command buffer. -/
def instructions (evs : List Ev) : List Ev :=
  evs.filter fun e => e.recorded_into.isSome

/-- Whether a call is a `vkCmdBindDescriptorSets`. -/
def Ev.is_descriptor_bind : Ev → Bool
  | .vkCmdBindDescriptorSets _ _ _ _ => true
  | _ => false

/-! ## The pipeline's binding table -/

/-- Modelled from the spec: the dirty flag of the resource-binding table of `RHI_Pipeline`,
whose source is not part of the repository sources at hand. Section 4.3: binding calls "mark
the Pipeline's resource-binding table dirty. The dirty table is resolved into a concrete
binding object once, lazily, at the first draw call that needs it, and is cached until any
binding changes again." One step: a binding call on `pipeline` sets the flag, the query
`GetDescriptorPendingUpdate` on `pipeline` resolves the table and clears it. -/
def Ev.table_dirty (pipeline : Ptr) (dirty : Bool) : Ev → Bool
  | .Pipeline_SetConstantBuffer p _ _ => if p = pipeline then true else dirty
  | .Pipeline_SetSampler p _ _ => if p = pipeline then true else dirty
  | .Pipeline_SetTexture p _ _ => if p = pipeline then true else dirty
  | .GetDescriptorPendingUpdate p => if p = pipeline then false else dirty
  | _ => dirty

/-- Modelled from the spec: whether the binding table of `pipeline` is dirty after the calls
of a trace (see `Ev.table_dirty`), starting from `dirty`. -/
def table_dirty (pipeline : Ptr) : Bool → List Ev → Bool
  | dirty, [] => dirty
  | dirty, e :: t => table_dirty pipeline (e.table_dirty pipeline dirty) t

/-- Modelled from the spec: the bound pipeline answers a draw as section 4.3 describes, that
is, `GetDescriptorPendingUpdate` hands out a descriptor set exactly when the binding table of
the bound pipeline is dirty after the calls made so far. -/
def Pipeline_as_specified (env : DrawEnv) (w : World) : Prop :=
  env.descriptor_pending_update ≠ nullptr ↔ table_dirty w.cl.m_pipeline false w.trace = true

/-! ## Construction -/

/-- What the device answers while the constructor sets up one slot. -/
structure SlotEnv where
  /-- The result of `vkAllocateCommandBuffers`. -/
  allocate_command_buffers : VkResult
  /-- The handle `vkAllocateCommandBuffers` writes. -/
  cmd_buffer : Ptr
  /-- The result of `vkCreateSemaphore`. -/
  create_semaphore : VkResult
  /-- The handle `vkCreateSemaphore` writes. -/
  semaphore : Ptr
  /-- The result of `vkCreateFence`. -/
  create_fence : VkResult
  /-- The handle `vkCreateFence` writes. -/
  fence : Ptr
  deriving DecidableEq, Repr

/-- What the device answers during the constructor. -/
structure ConstructEnv where
  /-- The result of `vkCreateCommandPool`. -/
  create_command_pool : VkResult
  /-- The handle `vkCreateCommandPool` writes. -/
  cmd_pool : Ptr
  /-- The value of `m_rhi_device->GetContextRhi()->max_frames_in_flight`. -/
  max_frames_in_flight : Nat
  /-- The answers for the slot `i`. -/
  slot : Nat → SlotEnv

namespace Vulkan_Common

/-- The helper `semaphore::create`. -/
def semaphore_create (result : VkResult) (semaphore_out : Ptr) : Exec Ptr := do
  emit (.vkCreateSemaphore result)
  SPARTAN_ASSERT (decide (result = VK_SUCCESS))
  pure semaphore_out

/-- The helper `fence::create`. -/
def fence_create (result : VkResult) (fence_out : Ptr) : Exec Ptr := do
  emit (.vkCreateFence result)
  SPARTAN_ASSERT (decide (result = VK_SUCCESS))
  pure fence_out

/-- The helper `command::create_pool`. -/
def create_pool (result : VkResult) : Exec Bool := do
  emit (.vkCreateCommandPool result)
  check_result result

/-- The helper `command::create_buffer`. -/
def create_buffer (cmd_pool : Ptr) (result : VkResult) : Exec Bool := do
  emit (.vkAllocateCommandBuffers cmd_pool result)
  check_result result

end Vulkan_Common

namespace RHI_CommandList

/-- The data members before the body of the constructor runs: the default member initializers
of `RHI_CommandList.h`, empty vectors and a cleared pipeline state. -/
def initial : RHI_CommandList :=
  { m_pipeline_state := { shader_vertex := nullptr, swap_chain := nullptr, rest := 0 }
    m_cmd_buffers := []
    m_semaphores_cmd_list_consumed := []
    m_fences_in_flight := []
    m_pipeline := nullptr
    m_cmd_pool := nullptr
    m_buffer_index := 0
    m_cmd_state := RHI_Cmd_List_Idle }

/-- One iteration of the loop of the constructor, for the slot `i`. -/
def construct_slot (i : Nat) (env : SlotEnv) : Exec Unit := do
  let c ← members
  let _ ← at_index c.m_cmd_buffers i
  let created ← Vulkan_Common.create_buffer c.m_cmd_pool env.allocate_command_buffers
  if created then do
    assign fun c => { c with m_cmd_buffers := c.m_cmd_buffers.set i env.cmd_buffer }
    let semaphore ← Vulkan_Common.semaphore_create env.create_semaphore env.semaphore
    assign fun c => { c with
      m_semaphores_cmd_list_consumed := c.m_semaphores_cmd_list_consumed ++ [semaphore] }
    let fence ← Vulkan_Common.fence_create env.create_fence env.fence
    assign fun c => { c with m_fences_in_flight := c.m_fences_in_flight ++ [fence] }
  else pure ()

/-- The loop of the constructor over the slots still to set up. -/
def construct_slots (slot : Nat → SlotEnv) : List Nat → Exec Unit
  | [] => pure ()
  | i :: rest => do
      construct_slot i (slot i)
      construct_slots slot rest

/-- The constructor `RHI_CommandList::RHI_CommandList`. -/
def construct (env : ConstructEnv) : Exec Unit := do
  let _ ← Vulkan_Common.create_pool env.create_command_pool
  assign fun c => { c with m_cmd_pool := env.cmd_pool }
  let frames_in_flight := env.max_frames_in_flight
  assign fun c => { c with m_cmd_buffers := List.replicate frames_in_flight nullptr }
  construct_slots env.slot (List.range frames_in_flight)

end RHI_CommandList

/-- The world in which the constructor starts. -/
def before_construction : World :=
  { cl := RHI_CommandList.initial, trace := [] }

/-- The device answers of a construction with two frames in flight in which the allocation of
the command buffer of slot 0 fails with `VK_ERROR_OUT_OF_HOST_MEMORY` (-1) and everything else
succeeds; slot 1 is handed the command buffer `101`, the semaphore `201` and the fence `301`. -/
def slot0_allocation_fails : ConstructEnv :=
  { create_command_pool := VK_SUCCESS
    cmd_pool := 50
    max_frames_in_flight := 2
    slot := fun i =>
      { allocate_command_buffers := if i = 0 then -1 else VK_SUCCESS
        cmd_buffer := 100 + i
        create_semaphore := VK_SUCCESS
        semaphore := 200 + i
        create_fence := VK_SUCCESS
        fence := 300 + i } }

/-! ## Cycles of Begin, End, Submit -/

/-- One cycle `Begin`, `End`, `Submit` in which every device call succeeds, on the slot
`image_index` the swap chain assigns. -/
def cycle (image_index : Nat) (pipeline vk_pipeline : Ptr) : List Op :=
  [ .Begin "" (begin_ok image_index pipeline vk_pipeline),
    .End { end_command_buffer := VK_SUCCESS, debug_marker := false },
    .Submit { image_index := image_index, semaphore_image_acquired := 0,
              queue_submit := VK_SUCCESS } ]

/-- Consecutive cycles, one for each slot the swap chain assigns in turn. -/
def cycles (pipeline vk_pipeline : Ptr) : List Nat → List Op
  | [] => []
  | image_index :: rest =>
      cycle image_index pipeline vk_pipeline ++ cycles pipeline vk_pipeline rest

/-! ## Textures

`RHI_Texture::SetLayout` of `Vulkan_Texture.cpp`. The declarations of `RHI_Texture.h`, the
enumeration `RHI_Image_Layout`, the macro `SP_ASSERT` and the helper
`vulkan_utility::image::set_layout` are not part of the sources at hand: the data members the
code reads are fields, what the member functions `HasPerMipViews`, `IsSrv`, ... answer is a
field, a failed `SP_ASSERT` stops the run, and the call of `set_layout` is an event. -/

/-- The layouts `Vulkan_Texture.cpp` names; `other` stands for the enumerators it does not
name, by their value. -/
inductive RHI_Image_Layout where
  | General
  | Preinitialized
  | Color_Attachment_Optimal
  | Depth_Stencil_Attachment_Optimal
  | Shader_Read_Only_Optimal
  | Transfer_Dst_Optimal
  | other (value : Nat)
  deriving DecidableEq, Repr

/-- The data members of `RHI_Texture` that `Vulkan_Texture.cpp` reads and writes. `m_layout` is
the array of per-mip tags; its length is the size of the array, and an access at or past it is
out of range. -/
structure RHI_Texture where
  m_mip_count : Nat
  m_array_length : Nat
  m_layout : List RHI_Image_Layout
  /-- What `HasPerMipViews()` answers. -/
  HasPerMipViews : Bool
  /-- What `IsSrv()` answers. -/
  IsSrv : Bool
  /-- What `IsUav()` answers. -/
  IsUav : Bool
  /-- What `IsRenderTargetColor()` answers. -/
  IsRenderTargetColor : Bool
  /-- What `IsRenderTargetDepthStencil()` answers. -/
  IsRenderTargetDepthStencil : Bool
  deriving DecidableEq, Repr

/-- The calls `Vulkan_Texture.cpp` makes that record into a command buffer. -/
inductive Texture_Ev where
  /-- The call `vulkan_utility::image::set_layout(cmd_buffer, this, mip_start, mip_range,
  array_length, layout_old, layout_new)`. -/
  | set_layout (cmd_buffer : Ptr) (mip_start : Nat) (mip_range : Nat) (array_length : Nat)
      (layout_old : RHI_Image_Layout) (layout_new : RHI_Image_Layout)
  /-- The macro `LOG_ERROR` with its text. -/
  | LOG_ERROR (text : String)
  /-- The macro `LOG_WARNING` with its text. -/
  | LOG_WARNING (text : String)
  /-- The call `vulkan_utility::image::create(this)` and its answer. -/
  | image_create (result : Bool)
  /-- The call `vulkan_utility::buffer::create` of the staging buffer. -/
  | buffer_create
  /-- The call `vulkan_utility::buffer::destroy` of the staging buffer. -/
  | buffer_destroy
  /-- The call `vulkan_utility::command_buffer_immediate::begin` and the handle it answers. -/
  | command_buffer_immediate_begin (cmd_buffer : Ptr)
  /-- The call `vulkan_utility::command_buffer_immediate::end` and its answer. -/
  | command_buffer_immediate_end (result : Bool)
  | vkCmdCopyBufferToImage (cmd_buffer : Ptr) (layout : RHI_Image_Layout)
  /-- The call `vulkan_utility::image::view::create(..., array_index, array_length, mip_index,
  mip_count, ...)` and its answer. -/
  | view_create (array_index : Nat) (array_length : Nat) (mip_index : Nat) (mip_count : Nat)
      (result : Bool)
  | set_debug_name
  deriving DecidableEq, Repr

/-- A texture, the counter `m_rhi_pipeline_barriers` of the profiler and the calls made so
far. -/
structure Texture_World where
  texture : RHI_Texture
  m_rhi_pipeline_barriers : Nat
  trace : List Texture_Ev
  deriving DecidableEq, Repr

/-- How a member function of `RHI_Texture` that returns `void` ends: it returns, or the run
stops at a fault; either way with the world as it is then. -/
inductive Texture_Res where
  | ok (w : Texture_World)
  | fault (f : Fault) (w : Texture_World)
  deriving DecidableEq, Repr

/-- The world at the end of the run. -/
def Texture_Res.world : Texture_Res → Texture_World
  | .ok w => w
  | .fault _ w => w

/-- The conversion of an integer value to `uint32_t`. -/
def to_uint32 (i : Int) : Nat := (i % 4294967296).toNat

/-- The difference `a - b` of two `uint32_t`. -/
def uint32_sub (a b : Nat) : Nat := to_uint32 ((a : Int) - (b : Int))

/-- The sum `a + b` of two `uint32_t`. -/
def uint32_add (a b : Nat) : Nat := to_uint32 ((a : Int) + (b : Int))

namespace RHI_Texture

/-- The loop `for (mip_index = mip_start; mip_index < mip_range; mip_index++)` of the check
"already set", with `count` iterations to go: the first `mip_index` whose tag is not
`new_layout` (the `break`), or none (`all_set`). -/
def SetLayout_first_unset (m_layout : List RHI_Image_Layout) (new_layout : RHI_Image_Layout) :
    (mip_index : Nat) → (count : Nat) → Except Fault (Option Nat)
  | _, 0 => .ok none
  | mip_index, count + 1 =>
      match m_layout[mip_index]? with
      | none => .error .index_out_of_range
      | some layout =>
          if layout ≠ new_layout then .ok (some mip_index)
          else SetLayout_first_unset m_layout new_layout (mip_index + 1) count

/-- The loop `for (i = mip_start; i < mip_start + mip_range; i++) m_layout[i] = new_layout`,
with `count` iterations to go. -/
def SetLayout_update (new_layout : RHI_Image_Layout) :
    (i : Nat) → (count : Nat) → Texture_World → Texture_Res
  | _, 0, w => .ok w
  | i, count + 1, w =>
      if i < w.texture.m_layout.length then
        SetLayout_update new_layout (i + 1) count
          { w with texture := { w.texture with m_layout := w.texture.m_layout.set i new_layout } }
      else .fault .index_out_of_range w

/-- The part of `SetLayout` after the check "already set": the memory barrier, when a command
list is given, and the update of the tags. `GetResource_CommandBuffer` is what the accessor of
the command list answers. -/
def SetLayout_transition (GetResource_CommandBuffer : RHI_CommandList → Ptr)
    (new_layout : RHI_Image_Layout) (cmd_list : Option RHI_CommandList)
    (mip_start mip_range : Nat) (w : Texture_World) : Texture_Res :=
  let update := SetLayout_update new_layout mip_start (uint32_add mip_start mip_range - mip_start)
  match cmd_list with
  | some c =>
      match w.texture.m_layout[mip_start]? with
      | none => .fault .index_out_of_range w
      | some layout_old =>
          update
            { w with
              trace := w.trace ++
                [.set_layout (GetResource_CommandBuffer c) mip_start mip_range
                  w.texture.m_array_length layout_old new_layout]
              m_rhi_pipeline_barriers := w.m_rhi_pipeline_barriers + 1 }
  | none => update w

/-- The member function `RHI_Texture::SetLayout(new_layout, cmd_list, mip, ranged)`; a null
`cmd_list` is `none`. -/
def SetLayout (GetResource_CommandBuffer : RHI_CommandList → Ptr)
    (new_layout : RHI_Image_Layout) (cmd_list : Option RHI_CommandList) (mip : Int)
    (ranged : Bool) (w : Texture_World) : Texture_Res :=
  let m_mip_count := w.texture.m_mip_count
  let mip_specified := decide (mip ≠ -1)
  let mip_start := if mip_specified then to_uint32 mip else 0
  let mip_remaining := uint32_sub m_mip_count mip_start
  let mip_range := if ranged then (if mip_specified then mip_remaining else m_mip_count) else 1
  -- Verify the texture has per mip views (if a specific mip was requested)
  if mip_specified && !w.texture.HasPerMipViews then .fault .assertion_failed w
  -- Verify that we didn't do anything wrong in the above calculations
  else if ¬ mip_remaining ≤ m_mip_count then .fault .assertion_failed w
  -- Check if already set
  else if mip_specified && !ranged then
    match w.texture.m_layout[mip_start]? with
    | none => .fault .index_out_of_range w
    | some layout =>
        if layout = new_layout then .ok w
        else SetLayout_transition GetResource_CommandBuffer new_layout cmd_list mip_start
          mip_range w
  else
    match SetLayout_first_unset w.texture.m_layout new_layout mip_start
        (mip_range - mip_start) with
    | .error f => .fault f w
    | .ok none => .ok w
    | .ok (some mip_index) =>
        let mip_start := mip_index
        let mip_remaining := uint32_sub m_mip_count mip_start
        let mip_range :=
          if ranged then (if mip_specified then mip_remaining else m_mip_count)
          else mip_remaining
        SetLayout_transition GetResource_CommandBuffer new_layout cmd_list mip_start
          mip_range w

end RHI_Texture

/-- The mips a call `SetLayout(new_layout, cmd_list, mip, ranged)` asks for: all mips when no
mip is given (`mip = -1`); from the given mip to the last one when `ranged`; the given mip alone
otherwise. The given mip is taken as the code takes it, converted to `uint32_t`. -/
def in_requested_range (t : RHI_Texture) (mip : Int) (ranged : Bool) (i : Nat) : Bool :=
  if mip = -1 then decide (i < t.m_mip_count)
  else if ranged then decide (to_uint32 mip ≤ i ∧ i < t.m_mip_count)
  else decide (i = to_uint32 mip)

/-- The accessor `GetResource_CommandBuffer` as the handle of the active slot, null when the
slot does not exist. -/
def active_cmd_buffer (c : RHI_CommandList) : Ptr :=
  c.m_cmd_buffers.getD c.m_buffer_index nullptr

/-- A texture of four mips with per-mip views, every mip in `Shader_Read_Only_Optimal`, before
any call. -/
def sampled_texture : Texture_World :=
  { texture :=
      { m_mip_count := 4
        m_array_length := 1
        m_layout := List.replicate 4 .Shader_Read_Only_Optimal
        HasPerMipViews := true
        IsSrv := true
        IsUav := false
        IsRenderTargetColor := false
        IsRenderTargetDepthStencil := false }
    m_rhi_pipeline_barriers := 0
    trace := [] }

/-! ## Creation of a texture

`GetAppropriateLayout`, `copy_to_staging_buffer`, `stage` and `RHI_Texture::CreateResourceGpu`
of `Vulkan_Texture.cpp`. The helpers of `vulkan_utility` are not part of the sources at hand:
their calls are events and their answers are inputs. The regions and the bytes
`copy_to_staging_buffer` computes and copies do not bear on the layouts and are left out. -/

/-- How a member function of `RHI_Texture` that returns a value ends. -/
inductive Texture_Out (α : Type) where
  | ok (value : α) (w : Texture_World)
  | fault (f : Fault) (w : Texture_World)
  deriving DecidableEq, Repr

/-- The world at the end of the run. -/
def Texture_Out.world {α : Type} : Texture_Out α → Texture_World
  | .ok _ w => w
  | .fault _ w => w

/-- A piece of code of `Vulkan_Texture.cpp` producing an `α`. -/
def Texture_Exec (α : Type) : Type := Texture_World → Texture_Out α

/-- Return a value, the world unchanged. -/
def Texture_Exec.ret {α : Type} (a : α) : Texture_Exec α := fun w => .ok a w

/-- Sequencing: a fault of the first part ends the execution. -/
def Texture_Exec.seq {α β : Type} (x : Texture_Exec α) (f : α → Texture_Exec β) :
    Texture_Exec β := fun w =>
  match x w with
  | .ok a w1 => f a w1
  | .fault e w1 => .fault e w1

instance : Monad Texture_Exec where
  pure := Texture_Exec.ret
  bind := Texture_Exec.seq

/-- A member function returning `void`, run as a piece of code. -/
def Texture_Exec.of_res (f : Texture_World → Texture_Res) : Texture_Exec Unit := fun w =>
  match f w with
  | .ok w1 => .ok () w1
  | .fault e w1 => .fault e w1

namespace RHI_Texture

/-- Append a call to the trace. -/
def emit (e : Texture_Ev) : Texture_Exec Unit := fun w =>
  .ok () { w with trace := w.trace ++ [e] }

/-- Read the data members of the texture. -/
def members : Texture_Exec RHI_Texture := fun w => .ok w.texture w

/-- The macro `SP_ASSERT`: the condition has been evaluated, a false one stops the run. -/
def SP_ASSERT (condition : Bool) : Texture_Exec Unit := fun w =>
  if condition then .ok () w else .fault .assertion_failed w

/-- The access `m_layout[mip]` for reading, also behind `GetLayout(mip)`. -/
def GetLayout (mip : Nat) : Texture_Exec RHI_Image_Layout := fun w =>
  match w.texture.m_layout[mip]? with
  | some layout => .ok layout w
  | none => .fault .index_out_of_range w

/-- The function `GetAppropriateLayout`. -/
def GetAppropriateLayout (texture : RHI_Texture) : RHI_Image_Layout :=
  let target_layout := RHI_Image_Layout.Preinitialized
  let target_layout :=
    if texture.IsRenderTargetColor then RHI_Image_Layout.Color_Attachment_Optimal
    else if texture.IsRenderTargetDepthStencil then
      RHI_Image_Layout.Depth_Stencil_Attachment_Optimal
    else target_layout
  let target_layout := if texture.IsUav then RHI_Image_Layout.General else target_layout
  let target_layout :=
    if texture.IsSrv then RHI_Image_Layout.Shader_Read_Only_Optimal else target_layout
  target_layout

/-- The function `copy_to_staging_buffer`; `HasData` is what `texture->HasData()` answers. -/
def copy_to_staging_buffer (HasData : Bool) : Texture_Exec Bool := do
  if !HasData then do
    emit (.LOG_WARNING "No data to stage")
    pure true
  else do
    -- Create staging buffer
    emit .buffer_create
    pure true

end RHI_Texture

/-- What the helpers answer during one call of `stage`. -/
structure StageEnv where
  /-- The handle `command_buffer_immediate::begin` answers. -/
  cmd_buffer : Ptr
  /-- What `command_buffer_immediate::end` answers. -/
  command_buffer_immediate_end : Bool
  deriving DecidableEq, Repr

/-- What the device and the helpers answer during one call of `CreateResourceGpu`. -/
structure CreateEnv where
  /-- The member `m_rhi_device`. -/
  m_rhi_device : Ptr
  /-- The value of `m_rhi_device->GetContextRhi()->device`. -/
  device : Ptr
  /-- What `vulkan_utility::image::create(this)` answers. -/
  image_create : Bool
  /-- What `HasData()` answers. -/
  HasData : Bool
  /-- The answers during `stage(this)`. -/
  stage : StageEnv
  /-- The handle `command_buffer_immediate::begin` answers. -/
  cmd_buffer : Ptr
  /-- What `command_buffer_immediate::end` answers. -/
  command_buffer_immediate_end : Bool
  /-- What `view::create` answers for the shader resource view. -/
  view_srv : Bool
  /-- What `view::create` answers for the shader resource view of the mip `i`. -/
  view_srv_mip : Nat → Bool
  /-- What `view::create` answers for the render target view of the array slice `i`. -/
  view_render_target : Nat → Bool
  /-- What `view::create` answers for the depth-stencil view of the array slice `i`. -/
  view_depth_stencil : Nat → Bool

namespace RHI_Texture

/-- The function `stage`. -/
def stage (env : StageEnv) (HasData : Bool) : Texture_Exec Bool := do
  -- Copy the texture's data to a staging buffer
  let copied ← copy_to_staging_buffer HasData
  if !copied then pure false
  else do
    -- Copy the staging buffer into the image
    emit (.command_buffer_immediate_begin env.cmd_buffer)
    if env.cmd_buffer ≠ nullptr then do
      -- Optimal layout for images which are the destination of a transfer format
      let layout := RHI_Image_Layout.Transfer_Dst_Optimal
      -- Insert memory barrier
      let texture ← members
      let layout_old ← GetLayout 0
      emit (.set_layout env.cmd_buffer 0 texture.m_mip_count texture.m_array_length layout_old
        layout)
      -- Copy the staging buffer to the image
      emit (.vkCmdCopyBufferToImage env.cmd_buffer layout)
      -- End/flush
      emit (.command_buffer_immediate_end env.command_buffer_immediate_end)
      if !env.command_buffer_immediate_end then pure false
      else do
        -- Free staging buffer
        emit .buffer_destroy
        -- Update texture layout
        Texture_Exec.of_res (SetLayout (fun _ => nullptr) layout none (-1) true)
        pure true
    else pure true

/-- The loop of `CreateResourceGpu` over the mips still to get a shader resource view. -/
def CreateResourceGpu_views_srv_mip (answer : Nat → Bool) (array_length : Nat) :
    List Nat → Texture_Exec Bool
  | [] => pure true
  | i :: rest => do
      emit (.view_create 0 array_length i 1 (answer i))
      if !answer i then pure false
      else CreateResourceGpu_views_srv_mip answer array_length rest

/-- The loop of `CreateResourceGpu` over the array slices still to get render target views. -/
def CreateResourceGpu_views_render_target (env : CreateEnv) (texture : RHI_Texture) :
    List Nat → Texture_Exec Bool
  | [] => pure true
  | i :: rest => do
      let color ←
        if texture.IsRenderTargetColor then do
          emit (.view_create i 1 0 1 (env.view_render_target i))
          pure (env.view_render_target i)
        else pure true
      if !color then pure false
      else do
        let depth ←
          if texture.IsRenderTargetDepthStencil then do
            emit (.view_create i 1 0 1 (env.view_depth_stencil i))
            pure (env.view_depth_stencil i)
          else pure true
        if !depth then pure false
        else CreateResourceGpu_views_render_target env texture rest

/-- The block "Create image views" of `CreateResourceGpu` and its final `return true`. -/
def CreateResourceGpu_views (env : CreateEnv) : Texture_Exec Bool := do
  let texture ← members
  -- Shader resource views
  let srv ←
    if texture.IsSrv then do
      emit (.view_create 0 texture.m_array_length 0 texture.m_mip_count env.view_srv)
      if !env.view_srv then pure false
      else if texture.HasPerMipViews then
        CreateResourceGpu_views_srv_mip env.view_srv_mip texture.m_array_length
          (List.range texture.m_mip_count)
      else pure true
    else pure true
  if !srv then pure false
  else do
    -- Render target views
    let render_target ←
      CreateResourceGpu_views_render_target env texture (List.range texture.m_array_length)
    if !render_target then pure false
    else do
      -- Name the image and image view(s)
      emit .set_debug_name
      pure true

/-- The block "Transition to target layout" of `CreateResourceGpu` and what follows it. -/
def CreateResourceGpu_transition (env : CreateEnv) : Texture_Exec Bool := do
  emit (.command_buffer_immediate_begin env.cmd_buffer)
  if env.cmd_buffer ≠ nullptr then do
    let texture ← members
    let target_layout := GetAppropriateLayout texture
    -- Transition to the final layout
    let layout_old ← GetLayout 0
    emit (.set_layout env.cmd_buffer 0 texture.m_mip_count texture.m_array_length layout_old
      target_layout)
    -- Flush
    emit (.command_buffer_immediate_end env.command_buffer_immediate_end)
    if !env.command_buffer_immediate_end then do
      emit (.LOG_ERROR "Failed to end command buffer")
      pure false
    else do
      -- Update this texture with the new layout
      Texture_Exec.of_res (SetLayout_update target_layout 0 texture.m_mip_count)
      CreateResourceGpu_views env
  else CreateResourceGpu_views env

/-- The member function `RHI_Texture::CreateResourceGpu`. -/
def CreateResourceGpu (env : CreateEnv) : Texture_Exec Bool := do
  SP_ASSERT (decide (env.m_rhi_device ≠ nullptr))
  SP_ASSERT (decide (env.device ≠ nullptr))
  -- Create image
  emit (.image_create env.image_create)
  if !env.image_create then do
    emit (.LOG_ERROR "Failed to create image")
    pure false
  else do
    -- If the texture has any data, stage it
    let staged ← if env.HasData then stage env.stage env.HasData else pure true
    if !staged then do
      emit (.LOG_ERROR "Failed to stage")
      pure false
    else CreateResourceGpu_transition env

end RHI_Texture

/-- A texture of four mips that has just been declared: shader-readable, with per-mip views,
no mip transitioned yet (the layout is one `Vulkan_Texture.cpp` does not name). -/
def declared_texture : Texture_World :=
  { texture :=
      { m_mip_count := 4
        m_array_length := 1
        m_layout := List.replicate 4 (.other 0)
        HasPerMipViews := true
        IsSrv := true
        IsUav := false
        IsRenderTargetColor := false
        IsRenderTargetDepthStencil := false }
    m_rhi_pipeline_barriers := 0
    trace := [] }

/-- The answers of a creation without data in which every call succeeds;
`command_buffer_immediate::begin` answers `cmd_buffer`. -/
def create_ok (cmd_buffer : Ptr) : CreateEnv :=
  { m_rhi_device := 1
    device := 2
    image_create := true
    HasData := false
    stage := { cmd_buffer := cmd_buffer, command_buffer_immediate_end := true }
    cmd_buffer := cmd_buffer
    command_buffer_immediate_end := true
    view_srv := true
    view_srv_mip := fun _ => true
    view_render_target := fun _ => true
    view_depth_stencil := fun _ => true }

/-- A texture with per-mip views, shader-readable, one mip for each of `tags`, before any
call. -/
def texture_with (tags : List RHI_Image_Layout) : Texture_World :=
  { texture :=
      { m_mip_count := tags.length
        m_array_length := 1
        m_layout := tags
        HasPerMipViews := true
        IsSrv := true
        IsUav := false
        IsRenderTargetColor := false
        IsRenderTargetDepthStencil := false }
    m_rhi_pipeline_barriers := 0
    trace := [] }

/-! ## The gearbox

`gearbox::update` and `gearbox::get_torque` of `Car.cpp`. A `float` is its bit pattern; the
arithmetic and the comparisons of `float` are left open, so that what is proved holds for every
way of rounding and for every value of the speed, infinities and NaN included. -/

/-- The operations on `float` the gearbox uses. -/
structure Float_ops where
  mul : Nat → Nat → Nat
  div : Nat → Nat → Nat
  gt : Nat → Nat → Bool
  lt : Nat → Nat → Bool

namespace tuning

/-- The constant `torque_max = 350`. -/
def torque_max : Nat := 0x43af0000

/-- The constant `wheel_radius = 0.6f`. -/
def wheel_radius : Nat := 0x3f19999a

/-- The constant `engine_max_rpm = 6500.0f`. -/
def engine_max_rpm : Nat := 0x45cb2000

/-- The constant `engine_idle_rpm = 800.0f`. -/
def engine_idle_rpm : Nat := 0x44480000

/-- The array `gear_ratios[] = { 3.5f, 2.25f, 1.6f, 1.15f, 0.9f, 0.75f }`. -/
def gear_ratios : List Nat :=
  [0x40600000, 0x40100000, 0x3fcccccd, 0x3f933333, 0x3f666666, 0x3f400000]

/-- The constant `final_drive_ratio = 3.5f`. -/
def final_drive_ratio : Nat := 0x40600000

end tuning

/-- The constant `Math::Helper::PI`. -/
def PI : Nat := 0x40490fdb

/-- The conversion of an integer value to `size_t`. -/
def to_size_t (i : Int) : Nat := (i % 18446744073709551616).toNat

/-- The static variables of the namespace `gearbox`. -/
structure gearbox where
  current_gear : Int
  engine_rpm : Nat
  deriving DecidableEq, Repr

namespace gearbox

/-- The static initializers: `current_gear = 1`, `engine_rpm = tuning::engine_idle_rpm`. -/
def initial : gearbox :=
  { current_gear := 1, engine_rpm := tuning.engine_idle_rpm }

/-- The read `tuning::gear_ratios[index]` with an `int` index. -/
def gear_ratio_at (index : Int) : Except Fault Nat :=
  if index < 0 then .error .index_out_of_range
  else
    match tuning.gear_ratios[index.toNat]? with
    | some ratio => .ok ratio
    | none => .error .index_out_of_range

/-- The function `gearbox::update`. -/
def update (fl : Float_ops) (speed_mps : Nat) (g : gearbox) : Except Fault gearbox := do
  -- compute engine rpm based on vehicle speed and current gear ratio
  let ratio ← gear_ratio_at (g.current_gear - 1)
  let engine_rpm :=
    fl.mul
      (fl.mul (fl.mul speed_mps (fl.mul ratio tuning.final_drive_ratio))
        (fl.div 0x3f800000 (fl.mul (fl.mul tuning.wheel_radius PI) 0x40000000)))
      0x42700000
  -- automatic gear shifting logic based on rpm thresholds
  if fl.gt engine_rpm tuning.engine_max_rpm &&
      decide (to_size_t g.current_gear < tuning.gear_ratios.length) then
    pure { current_gear := g.current_gear + 1, engine_rpm := engine_rpm }
  else if fl.lt engine_rpm tuning.engine_idle_rpm && decide (g.current_gear > 1) then
    pure { current_gear := g.current_gear - 1, engine_rpm := engine_rpm }
  else
    pure { current_gear := g.current_gear, engine_rpm := engine_rpm }

/-- The function `gearbox::get_torque`. -/
def get_torque (fl : Float_ops) (throttle_input : Nat) (g : gearbox) : Except Fault Nat := do
  let ratio ← gear_ratio_at (g.current_gear - 1)
  pure (fl.mul (fl.mul tuning.torque_max throttle_input) (fl.mul ratio tuning.final_drive_ratio))

/-- Consecutive calls of `update`, one for each speed. -/
def updates (fl : Float_ops) : List Nat → gearbox → Except Fault gearbox
  | [], g => .ok g
  | speed_mps :: rest, g =>
      match update fl speed_mps g with
      | .ok g1 => updates fl rest g1
      | .error f => .error f

end gearbox

open RHI_CommandList

/-! ## Running the embedding -/

@[simp]
theorem exec_bind {α β : Type} (x : Exec α) (f : α → Exec β) (w : World) :
    (x >>= f) w = Exec.seq x f w := rfl

@[simp]
theorem exec_pure {α : Type} (a : α) (w : World) : (pure a : Exec α) w = .ok a w := rfl

theorem events_of_ok {α : Type} (x : Exec α) (w : World) (a : α) (cl : RHI_CommandList)
    (evs : List Ev) (h : x w = .ok a { cl := cl, trace := w.trace ++ evs }) :
    events_of x w = evs := by
  simp [events_of, h, Res.world]

theorem events_of_fault {α : Type} (x : Exec α) (w : World) (f : Fault) (cl : RHI_CommandList)
    (evs : List Ev) (h : x w = .fault f { cl := cl, trace := w.trace ++ evs }) :
    events_of x w = evs := by
  simp [events_of, h, Res.world]

/-! ## Submit -/

theorem Submit_not_Ended (env : SubmitEnv) (w : World)
    (h : w.cl.m_cmd_state ≠ RHI_Cmd_List_Ended) :
    Submit env w = .ok false { w with trace := w.trace ++ [.LOG_ERROR .end_before_submit] } := by
  simp [Submit, Exec.seq, members, h, LOG_ERROR, emit]

theorem Submit_Ended (env : SubmitEnv) (w : World) (cmd_buffer semaphore fence : Ptr)
    (h : w.cl.m_cmd_state = RHI_Cmd_List_Ended)
    (hswap : w.cl.m_pipeline_state.swap_chain ≠ nullptr)
    (hsync : w.cl.m_buffer_index = env.image_index)
    (hc : w.cl.m_cmd_buffers[w.cl.m_buffer_index]? = some cmd_buffer)
    (hs : w.cl.m_semaphores_cmd_list_consumed[w.cl.m_buffer_index]? = some semaphore)
    (hf : w.cl.m_fences_in_flight[w.cl.m_buffer_index]? = some fence) :
    Submit env w =
      if env.queue_submit = VK_SUCCESS then
        .ok true { cl := { w.cl with m_cmd_state := RHI_Cmd_List_Idle_Sync_Cpu_To_Gpu },
                   trace := w.trace ++
                     [.vkQueueSubmit env.semaphore_image_acquired cmd_buffer semaphore fence
                        env.queue_submit] }
      else
        .ok false { w with trace := w.trace ++
                     [.vkQueueSubmit env.semaphore_image_acquired cmd_buffer semaphore fence
                        env.queue_submit,
                      .LOG_ERROR (.vk_result env.queue_submit)] } := by
  by_cases hq : env.queue_submit = VK_SUCCESS
  · simp [Submit, Exec.seq, members, h, LOG_ERROR, emit, deref, hswap, SPARTAN_ASSERT,
      SEMAPHORE_CMD_BUFFER_CONSUMED, CMD_BUFFER, FENCE_CMD_BUFFER_CONSUMED, at_index,
      ← hsync, hc, hs, hf, Vulkan_Common.check_result, hq, assign]
  · simp [Submit, Exec.seq, members, h, LOG_ERROR, emit, deref, hswap, SPARTAN_ASSERT,
      SEMAPHORE_CMD_BUFFER_CONSUMED, CMD_BUFFER, FENCE_CMD_BUFFER_CONSUMED, at_index,
      ← hsync, hc, hs, hf, Vulkan_Common.check_result, hq, assign]

/-! ## Begin and End -/

theorem Begin_sync_other (env : BeginEnv) (w : World)
    (h : w.cl.m_cmd_state ≠ RHI_Cmd_List_Idle_Sync_Cpu_To_Gpu) :
    Begin_sync env w = .ok () w := by
  simp [Begin_sync, Exec.seq, members, h]

theorem Begin_sync_pending (env : BeginEnv) (w : World) (fence : Ptr)
    (h : w.cl.m_cmd_state = RHI_Cmd_List_Idle_Sync_Cpu_To_Gpu)
    (hf : w.cl.m_fences_in_flight[w.cl.m_buffer_index]? = some fence)
    (hp : w.cl.m_pipeline ≠ nullptr)
    (hwait : env.wait_for_fences = VK_SUCCESS) (hreset : env.reset_fences = VK_SUCCESS)
    (hpool : env.reset_command_pool = VK_SUCCESS) :
    Begin_sync env w = .ok ()
      { cl := { w.cl with m_cmd_state := RHI_Cmd_List_Idle },
        trace := w.trace ++ [.vkWaitForFences fence VK_SUCCESS, .vkResetFences fence VK_SUCCESS,
          .vkResetCommandPool w.cl.m_cmd_pool VK_SUCCESS,
          .OnCommandListConsumed w.cl.m_pipeline] } := by
  simp [Begin_sync, Exec.seq, members, h, FENCE_CMD_BUFFER_CONSUMED, at_index, hf,
    Vulkan_Common.wait_reset, Vulkan_Common.assert_result, emit, SPARTAN_ASSERT, hwait, hreset,
    hpool, deref, hp, assign]

theorem Begin_busy (pass_name : String) (env : BeginEnv) (w : World)
    (h : w.cl.m_cmd_state = RHI_Cmd_List_Recording ∨ w.cl.m_cmd_state = RHI_Cmd_List_Ended) :
    Begin pass_name env w =
      .ok () { w with trace := w.trace ++ [.LOG_ERROR .previous_still_used] } := by
  rcases h with h | h <;>
    simp [Begin, Exec.seq, Begin_sync, members, h, LOG_ERROR, emit]

theorem Begin_Idle (pass_name : String) (env : BeginEnv) (w : World)
    (h : w.cl.m_cmd_state = RHI_Cmd_List_Idle) :
    Begin pass_name env w =
      if w.cl.m_pipeline_state.shader_vertex = nullptr then .ok () w
      else Begin_record pass_name env w := by
  by_cases hs : w.cl.m_pipeline_state.shader_vertex = nullptr <;>
    simp [Begin, Exec.seq, Begin_sync, members, h, hs]

theorem End_not_Recording (env : EndEnv) (w : World)
    (h : w.cl.m_cmd_state ≠ RHI_Cmd_List_Recording) :
    End env w = .ok () { w with trace := w.trace ++ [.LOG_ERROR .cant_record] } := by
  simp [End, Exec.seq, members, h, LOG_ERROR, emit]

theorem End_Recording (env : EndEnv) (w : World) (cmd_buffer : Ptr)
    (h : w.cl.m_cmd_state = RHI_Cmd_List_Recording)
    (hc : w.cl.m_cmd_buffers[w.cl.m_buffer_index]? = some cmd_buffer) :
    End env w = .ok ()
      { cl := if env.end_command_buffer = VK_SUCCESS then
                { w.cl with m_cmd_state := RHI_Cmd_List_Ended } else w.cl,
        trace := w.trace ++ [.vkCmdEndRenderPass cmd_buffer,
          .vkEndCommandBuffer cmd_buffer env.end_command_buffer] ++
          (if env.end_command_buffer = VK_SUCCESS then []
           else [.LOG_ERROR (.vk_result env.end_command_buffer)]) ++
          (if env.debug_marker then [.vkCmdDebugMarkerEnd cmd_buffer] else []) } := by
  by_cases hq : env.end_command_buffer = VK_SUCCESS <;> by_cases hd : env.debug_marker = true <;>
    simp [End, Exec.seq, members, h, LOG_ERROR, emit, CMD_BUFFER, at_index, hc,
      Vulkan_Common.check_result, hq, hd, assign]

/-! ## Following the fences through a trace -/

theorem track_append (t u : List Ev) (p : List Ptr) :
    track p (t ++ u) = (track p t).bind fun q => track q u := by
  induction t generalizing p with
  | nil => simp [track]
  | cons e t ih =>
    simp only [List.cons_append, track]
    cases he : e.track p with
    | none => simp
    | some q => simpa using ih q

theorem filter_ne_of_subset_singleton (p : List Ptr) (f : Ptr) (h : p ⊆ [f]) :
    p.filter (fun x => decide (x ≠ f)) = [] := by
  rw [List.filter_eq_nil_iff]
  intro a ha
  have := h ha
  simp at this
  simp [this]

/-- A fence that is pending and is not waited on stays pending. -/
theorem track_keeps (t : List Ev) (p q : List Ptr) (f : Ptr) (h : track p t = some q)
    (hf : f ∈ p) (hw : Ev.vkWaitForFences f VK_SUCCESS ∉ t) : f ∈ q := by
  induction t generalizing p with
  | nil => simp [track] at h; exact h ▸ hf
  | cons e t ih =>
    simp only [track] at h
    cases he : e.track p with
    | none => simp [he] at h
    | some p1 =>
      rw [he] at h
      refine ih p1 h ?_ (fun hmem => hw (List.mem_cons_of_mem _ hmem))
      cases e <;> simp only [Ev.track] at he
      case vkWaitForFences fence result =>
        by_cases hr : result = VK_SUCCESS
        · simp only [hr, if_true, Option.some.injEq] at he
          subst he
          simp only [List.mem_filter, hf, true_and, decide_eq_true_eq]
          intro hEq
          exact hw (by simp [hEq, hr])
        · simp only [hr, if_false, Option.some.injEq] at he
          exact he ▸ hf
      case vkQueueSubmit ws c ss fence result =>
        by_cases hr : result = VK_SUCCESS
        · simp only [hr, if_true, Option.some.injEq] at he
          subst he
          exact List.mem_cons_of_mem _ hf
        · simp only [hr, if_false, Option.some.injEq] at he
          exact he ▸ hf
      case vkBeginCommandBuffer c r =>
        by_cases hp : p = []
        · simp [hp] at hf
        · simp [hp] at he
      all_goals (simp only [Option.some.injEq] at he; exact he ▸ hf)

/-- In a trace that `track` accepts, a command buffer is opened only when no fence is pending. -/
theorem track_before_begin (pre post : List Ev) (cmd_buffer : Ptr) (r0 : VkResult)
    (p q : List Ptr)
    (h : track p (pre ++ Ev.vkBeginCommandBuffer cmd_buffer r0 :: post) = some q) :
    track p pre = some [] := by
  rw [track_append] at h
  cases hp : track p pre with
  | none => simp [hp] at h
  | some r =>
    simp only [hp, Option.some_bind, track, Ev.track] at h
    by_cases hr : r = []
    · simp [hr]
    · simp [hr] at h

/-- In a trace that `track` accepts, every fence handed to a submission has been waited on
before the next command buffer is opened. -/
theorem track_waited (t : List Ev) (q : List Ptr) (h : track [] t = some q)
    (pre post a b : List Ev) (cmd_buffer ws c ss f : Ptr) (r0 : VkResult)
    (ht : t = pre ++ Ev.vkBeginCommandBuffer cmd_buffer r0 :: post)
    (hpre : pre = a ++ Ev.vkQueueSubmit ws c ss f VK_SUCCESS :: b) :
    Ev.vkWaitForFences f VK_SUCCESS ∈ b := by
  subst ht
  have h1 := track_before_begin pre post cmd_buffer r0 [] q h
  subst hpre
  rw [track_append] at h1
  cases ha : track [] a with
  | none => simp [ha] at h1
  | some r =>
    simp only [ha, Option.some_bind, track, Ev.track] at h1
    by_contra hw
    have := track_keeps b (f :: r) [] f h1 (by simp) hw
    simp at this

/-! ## The recording calls -/

theorem update_descriptor_set_ok (env : DrawEnv) (w : World) (cmd_buffer : Ptr)
    (hc : w.cl.m_cmd_buffers[w.cl.m_buffer_index]? = some cmd_buffer)
    (hp : w.cl.m_pipeline ≠ nullptr) :
    update_descriptor_set env w = .ok ()
      { w with trace := w.trace ++ (.GetDescriptorPendingUpdate w.cl.m_pipeline ::
          if env.descriptor_pending_update ≠ nullptr then
            [.vkCmdBindDescriptorSets cmd_buffer env.pipeline_layout 0
              env.descriptor_pending_update]
          else []) } := by
  by_cases hd : env.descriptor_pending_update = nullptr <;>
    simp [update_descriptor_set, Exec.seq, members, deref, hp, emit, CMD_BUFFER, at_index, hc, hd]

theorem Draw_Recording (vertex_count : Nat) (env : DrawEnv) (w : World) (cmd_buffer : Ptr)
    (h : w.cl.m_cmd_state = RHI_Cmd_List_Recording)
    (hc : w.cl.m_cmd_buffers[w.cl.m_buffer_index]? = some cmd_buffer)
    (hp : w.cl.m_pipeline ≠ nullptr) :
    Draw vertex_count env w = .ok ()
      { w with trace := w.trace ++ (.GetDescriptorPendingUpdate w.cl.m_pipeline ::
          (if env.descriptor_pending_update ≠ nullptr then
            [.vkCmdBindDescriptorSets cmd_buffer env.pipeline_layout 0
              env.descriptor_pending_update]
          else []) ++ [.vkCmdDraw cmd_buffer vertex_count 1 0 0]) } := by
  simp [Draw, Exec.seq, members, h, update_descriptor_set_ok env w cmd_buffer hc hp, CMD_BUFFER,
    at_index, hc, emit]

theorem DrawIndexed_Recording (index_count index_offset vertex_offset : Nat) (env : DrawEnv)
    (w : World) (cmd_buffer : Ptr)
    (h : w.cl.m_cmd_state = RHI_Cmd_List_Recording)
    (hc : w.cl.m_cmd_buffers[w.cl.m_buffer_index]? = some cmd_buffer)
    (hp : w.cl.m_pipeline ≠ nullptr) :
    DrawIndexed index_count index_offset vertex_offset env w = .ok ()
      { w with trace := w.trace ++ (.GetDescriptorPendingUpdate w.cl.m_pipeline ::
          (if env.descriptor_pending_update ≠ nullptr then
            [.vkCmdBindDescriptorSets cmd_buffer env.pipeline_layout 0
              env.descriptor_pending_update]
          else []) ++
          [.vkCmdDrawIndexed cmd_buffer index_count 1 index_offset vertex_offset 0]) } := by
  simp [DrawIndexed, Exec.seq, members, h, update_descriptor_set_ok env w cmd_buffer hc hp,
    CMD_BUFFER, at_index, hc, emit]

theorem SetViewport_Recording (viewport : RHI_Viewport) (w : World) (cmd_buffer : Ptr)
    (h : w.cl.m_cmd_state = RHI_Cmd_List_Recording)
    (hc : w.cl.m_cmd_buffers[w.cl.m_buffer_index]? = some cmd_buffer) :
    SetViewport viewport w = .ok ()
      { w with trace := w.trace ++ [.vkCmdSetViewport cmd_buffer viewport] } := by
  simp [SetViewport, Exec.seq, members, h, CMD_BUFFER, at_index, hc, emit]

theorem SetScissorRectangle_Recording (scissor_rectangle : Rectangle) (w : World)
    (cmd_buffer : Ptr) (h : w.cl.m_cmd_state = RHI_Cmd_List_Recording)
    (hc : w.cl.m_cmd_buffers[w.cl.m_buffer_index]? = some cmd_buffer) :
    SetScissorRectangle scissor_rectangle w = .ok ()
      { w with trace := w.trace ++ [.vkCmdSetScissor cmd_buffer scissor_rectangle] } := by
  simp [SetScissorRectangle, Exec.seq, members, h, CMD_BUFFER, at_index, hc, emit]

theorem SetBufferVertex_Recording (buffer : RHI_VertexBuffer) (w : World) (cmd_buffer : Ptr)
    (h : w.cl.m_cmd_state = RHI_Cmd_List_Recording)
    (hc : w.cl.m_cmd_buffers[w.cl.m_buffer_index]? = some cmd_buffer) :
    SetBufferVertex buffer w = .ok ()
      { w with trace := w.trace ++ [.vkCmdBindVertexBuffers cmd_buffer buffer.resource 0] } := by
  simp [SetBufferVertex, Exec.seq, members, h, CMD_BUFFER, at_index, hc, emit]

theorem SetBufferIndex_Recording (buffer : RHI_IndexBuffer) (w : World) (cmd_buffer : Ptr)
    (h : w.cl.m_cmd_state = RHI_Cmd_List_Recording)
    (hc : w.cl.m_cmd_buffers[w.cl.m_buffer_index]? = some cmd_buffer) :
    SetBufferIndex buffer w = .ok ()
      { w with trace := w.trace ++ [.vkCmdBindIndexBuffer cmd_buffer buffer.resource 0
          (if buffer.is_16bit then .VK_INDEX_TYPE_UINT16 else .VK_INDEX_TYPE_UINT32)] } := by
  simp [SetBufferIndex, Exec.seq, members, h, CMD_BUFFER, at_index, hc, emit]

theorem SetConstantBuffer_Recording (slot scope : Nat) (constant_buffer : Ptr) (w : World)
    (h : w.cl.m_cmd_state = RHI_Cmd_List_Recording) (hp : w.cl.m_pipeline ≠ nullptr) :
    SetConstantBuffer slot scope constant_buffer w = .ok ()
      { w with trace := w.trace ++
          [.Pipeline_SetConstantBuffer w.cl.m_pipeline slot constant_buffer] } := by
  simp [SetConstantBuffer, Exec.seq, members, h, deref, hp, emit]

theorem SetSampler_Recording (slot : Nat) (sampler : Ptr) (w : World)
    (h : w.cl.m_cmd_state = RHI_Cmd_List_Recording) (hp : w.cl.m_pipeline ≠ nullptr) :
    SetSampler slot sampler w = .ok ()
      { w with trace := w.trace ++ [.Pipeline_SetSampler w.cl.m_pipeline slot sampler] } := by
  simp [SetSampler, Exec.seq, members, h, deref, hp, emit]

theorem SetTexture_Recording (slot : Nat) (texture black_texture : Ptr) (w : World)
    (h : w.cl.m_cmd_state = RHI_Cmd_List_Recording) (hp : w.cl.m_pipeline ≠ nullptr) :
    SetTexture slot texture black_texture w = .ok ()
      { w with trace := w.trace ++ [.Pipeline_SetTexture w.cl.m_pipeline slot
          (if texture = nullptr then black_texture else texture)] } := by
  simp [SetTexture, Exec.seq, members, h, deref, hp, emit]

/-- Outside `Recording` each of the nine recording calls is refused. -/
theorem recording_call_refused (op : Op) (w : World) (hop : op.is_recording_call = true)
    (h : w.cl.m_cmd_state ≠ RHI_Cmd_List_Recording) : Refused w (op.run w) := by
  cases op <;> simp [Op.is_recording_call] at hop <;>
    simp [Refused, Op.run, Draw, DrawIndexed, SetViewport, SetScissorRectangle, SetBufferVertex,
      SetBufferIndex, SetConstantBuffer, SetSampler, SetTexture, Exec.seq, members, h,
      LOG_ERROR, emit]

/-- In `Recording`, with a command buffer in the active slot and a pipeline bound, each of the
nine recording calls returns after appending calls that are no errors, that touch no fence and
open no command buffer, and one of which records into the active command buffer or goes to the
bound pipeline. -/
theorem recording_call_recorded (op : Op) (w : World) (cmd_buffer : Ptr)
    (hop : op.is_recording_call = true)
    (h : w.cl.m_cmd_state = RHI_Cmd_List_Recording)
    (hc : w.cl.m_cmd_buffers[w.cl.m_buffer_index]? = some cmd_buffer)
    (hp : w.cl.m_pipeline ≠ nullptr) :
    ∃ evs : List Ev, op.run w = .ok () { w with trace := w.trace ++ evs } ∧
      (∀ e ∈ evs, e.is_error = false) ∧
      (∃ e ∈ evs, (e.recorded_into.isSome = true ∧ e.recorded_into = some cmd_buffer) ∨
        e.forwarded_to = some w.cl.m_pipeline) ∧
      ∀ p, track p evs = some p := by
  cases op <;> simp [Op.is_recording_call] at hop
  case Draw vertex_count env =>
    refine ⟨_, Draw_Recording vertex_count env w cmd_buffer h hc hp, ?_, ?_, ?_⟩ <;>
      by_cases hd : env.descriptor_pending_update = nullptr <;>
      simp [hd, Ev.is_error, Ev.recorded_into, Ev.forwarded_to, track, Ev.track]
  case DrawIndexed index_count index_offset vertex_offset env =>
    refine ⟨_, DrawIndexed_Recording index_count index_offset vertex_offset env w cmd_buffer
      h hc hp, ?_, ?_, ?_⟩ <;>
      by_cases hd : env.descriptor_pending_update = nullptr <;>
      simp [hd, Ev.is_error, Ev.recorded_into, Ev.forwarded_to, track, Ev.track]
  case SetViewport viewport =>
    refine ⟨_, SetViewport_Recording viewport w cmd_buffer h hc, ?_, ?_, ?_⟩ <;>
      simp [Ev.is_error, Ev.recorded_into, Ev.forwarded_to, track, Ev.track]
  case SetScissorRectangle r =>
    refine ⟨_, SetScissorRectangle_Recording r w cmd_buffer h hc, ?_, ?_, ?_⟩ <;>
      simp [Ev.is_error, Ev.recorded_into, Ev.forwarded_to, track, Ev.track]
  case SetBufferVertex b =>
    refine ⟨_, SetBufferVertex_Recording b w cmd_buffer h hc, ?_, ?_, ?_⟩ <;>
      simp [Ev.is_error, Ev.recorded_into, Ev.forwarded_to, track, Ev.track]
  case SetBufferIndex b =>
    refine ⟨_, SetBufferIndex_Recording b w cmd_buffer h hc, ?_, ?_, ?_⟩ <;>
      simp [Ev.is_error, Ev.recorded_into, Ev.forwarded_to, track, Ev.track]
  case SetConstantBuffer slot scope cb =>
    refine ⟨_, SetConstantBuffer_Recording slot scope cb w h hp, ?_, ?_, ?_⟩ <;>
      simp [Ev.is_error, Ev.recorded_into, Ev.forwarded_to, track, Ev.track]
  case SetSampler slot sampler =>
    refine ⟨_, SetSampler_Recording slot sampler w h hp, ?_, ?_, ?_⟩ <;>
      simp [Ev.is_error, Ev.recorded_into, Ev.forwarded_to, track, Ev.track]
  case SetTexture slot texture black =>
    refine ⟨_, SetTexture_Recording slot texture black w h hp, ?_, ?_, ?_⟩ <;>
      simp [Ev.is_error, Ev.recorded_into, Ev.forwarded_to, track, Ev.track]

/-! ## Begin, from the pipeline-cache lookup on -/

/-- The calls `Begin_record` makes before it opens the command buffer. -/
theorem Begin_record_eq (pass_name : String) (env : BeginEnv) (w : World) :
    Begin_record pass_name env w =
      if w.cl.m_pipeline_state.swap_chain = nullptr then
        .fault .null_dereference
          { cl := { w.cl with m_pipeline := env.cache_pipeline },
            trace := w.trace ++ [.GetPipeline w.cl.m_pipeline_state] }
      else if env.acquire_next_image = false then
        .fault .assertion_failed
          { cl := { w.cl with m_pipeline := env.cache_pipeline },
            trace := w.trace ++ [.GetPipeline w.cl.m_pipeline_state,
              .AcquireNextImage w.cl.m_pipeline_state.swap_chain false] }
      else
        match w.cl.m_semaphores_cmd_list_consumed[env.image_index]? with
        | none =>
          .fault .index_out_of_range
            { cl := { w.cl with m_pipeline := env.cache_pipeline,
                                m_buffer_index := env.image_index },
              trace := w.trace ++ [.GetPipeline w.cl.m_pipeline_state,
                .AcquireNextImage w.cl.m_pipeline_state.swap_chain true] }
        | some semaphore =>
          match w.cl.m_cmd_buffers[env.image_index]? with
          | none =>
            .fault .index_out_of_range
              { cl := { w.cl with m_pipeline := env.cache_pipeline,
                                  m_buffer_index := env.image_index },
                trace := w.trace ++ [.GetPipeline w.cl.m_pipeline_state,
                  .AcquireNextImage w.cl.m_pipeline_state.swap_chain true,
                  .SetSemaphoreRenderFinished w.cl.m_pipeline_state.swap_chain semaphore] }
          | some cmd_buffer =>
            if env.begin_command_buffer ≠ VK_SUCCESS then
              .ok ()
                { cl := { w.cl with m_pipeline := env.cache_pipeline,
                                    m_buffer_index := env.image_index },
                  trace := w.trace ++ [.GetPipeline w.cl.m_pipeline_state,
                    .AcquireNextImage w.cl.m_pipeline_state.swap_chain true,
                    .SetSemaphoreRenderFinished w.cl.m_pipeline_state.swap_chain semaphore,
                    .vkBeginCommandBuffer cmd_buffer env.begin_command_buffer,
                    .LOG_ERROR (.vk_result env.begin_command_buffer)] }
            else if env.cache_pipeline = nullptr then
              .fault .null_dereference
                { cl := { w.cl with m_pipeline := env.cache_pipeline,
                                    m_buffer_index := env.image_index },
                  trace := w.trace ++ [.GetPipeline w.cl.m_pipeline_state,
                    .AcquireNextImage w.cl.m_pipeline_state.swap_chain true,
                    .SetSemaphoreRenderFinished w.cl.m_pipeline_state.swap_chain semaphore,
                    .vkBeginCommandBuffer cmd_buffer VK_SUCCESS,
                    .vkCmdBeginRenderPass cmd_buffer env.render_pass env.frame_buffer env.width
                      env.height] }
            else if env.vk_pipeline = nullptr then
              .ok ()
                { cl := { w.cl with m_pipeline := env.cache_pipeline,
                                    m_buffer_index := env.image_index },
                  trace := w.trace ++ [.GetPipeline w.cl.m_pipeline_state,
                    .AcquireNextImage w.cl.m_pipeline_state.swap_chain true,
                    .SetSemaphoreRenderFinished w.cl.m_pipeline_state.swap_chain semaphore,
                    .vkBeginCommandBuffer cmd_buffer VK_SUCCESS,
                    .vkCmdBeginRenderPass cmd_buffer env.render_pass env.frame_buffer env.width
                      env.height,
                    .LOG_ERROR .invalid_pipeline] }
            else
              .ok ()
                { cl := { w.cl with m_pipeline := env.cache_pipeline,
                                    m_buffer_index := env.image_index,
                                    m_cmd_state := RHI_Cmd_List_Recording },
                  trace := w.trace ++ ([.GetPipeline w.cl.m_pipeline_state,
                    .AcquireNextImage w.cl.m_pipeline_state.swap_chain true,
                    .SetSemaphoreRenderFinished w.cl.m_pipeline_state.swap_chain semaphore,
                    .vkBeginCommandBuffer cmd_buffer VK_SUCCESS,
                    .vkCmdBeginRenderPass cmd_buffer env.render_pass env.frame_buffer env.width
                      env.height,
                    .vkCmdBindPipeline cmd_buffer env.vk_pipeline] ++
                    if env.debug_marker then [.vkCmdDebugMarkerBegin cmd_buffer pass_name]
                    else []) } := by
  by_cases hswap : w.cl.m_pipeline_state.swap_chain = nullptr
  · simp [Begin_record, Exec.seq, members, emit, assign, deref, hswap]
  by_cases hacq : env.acquire_next_image = false
  · simp [Begin_record, Exec.seq, members, emit, assign, deref, hswap, SPARTAN_ASSERT, hacq]
  simp only [Bool.not_eq_false] at hacq
  cases hs : w.cl.m_semaphores_cmd_list_consumed[env.image_index]? with
  | none =>
    simp [Begin_record, Exec.seq, members, emit, assign, deref, hswap, SPARTAN_ASSERT, hacq,
      SEMAPHORE_CMD_BUFFER_CONSUMED, at_index, hs]
  | some semaphore =>
    cases hc : w.cl.m_cmd_buffers[env.image_index]? with
    | none =>
      simp [Begin_record, Exec.seq, members, emit, assign, deref, hswap, SPARTAN_ASSERT, hacq,
        SEMAPHORE_CMD_BUFFER_CONSUMED, CMD_BUFFER, at_index, hs, hc]
    | some cmd_buffer =>
      by_cases hb : env.begin_command_buffer = VK_SUCCESS
      swap
      · simp [Begin_record, Exec.seq, members, emit, assign, deref, hswap, SPARTAN_ASSERT, hacq,
          SEMAPHORE_CMD_BUFFER_CONSUMED, CMD_BUFFER, at_index, hs, hc,
          Vulkan_Common.check_result, hb, LOG_ERROR]
      by_cases hcp : env.cache_pipeline = nullptr
      · simp [Begin_record, Exec.seq, members, emit, assign, deref, hswap, SPARTAN_ASSERT, hacq,
          SEMAPHORE_CMD_BUFFER_CONSUMED, CMD_BUFFER, at_index, hs, hc,
          Vulkan_Common.check_result, hb, LOG_ERROR, hcp]
      by_cases hvk : env.vk_pipeline = nullptr
      · simp [Begin_record, Exec.seq, members, emit, assign, deref, hswap, SPARTAN_ASSERT, hacq,
          SEMAPHORE_CMD_BUFFER_CONSUMED, CMD_BUFFER, at_index, hs, hc,
          Vulkan_Common.check_result, hb, LOG_ERROR, hcp, hvk]
      by_cases hd : env.debug_marker = true <;>
        simp [Begin_record, Exec.seq, members, emit, assign, deref, hswap, SPARTAN_ASSERT, hacq,
          SEMAPHORE_CMD_BUFFER_CONSUMED, CMD_BUFFER, at_index, hs, hc,
          Vulkan_Common.check_result, hb, LOG_ERROR, hcp, hvk, hd]

/-! ## The invariant of the call sequences -/

theorem Inv_of_nil (w : World) (h : track [] w.trace = some []) (hsb : Slot_bound w.cl) :
    Inv w :=
  ⟨hsb, [], h, by simp⟩

theorem lt_length_of_getElem? (v : List Ptr) (i : Nat) (p : Ptr) (h : v[i]? = some p) :
    i < v.length := by
  by_contra hlt
  rw [List.getElem?_eq_none (by omega)] at h
  cases h

theorem Begin_record_inv (pass_name : String) (env : BeginEnv) (w : World)
    (h : w.cl.m_cmd_state = RHI_Cmd_List_Idle) (ht : track [] w.trace = some []) :
    Inv (Begin_record pass_name env w).world := by
  rw [Begin_record_eq]
  by_cases hswap : w.cl.m_pipeline_state.swap_chain = nullptr
  · simp only [hswap, if_true]
    exact Inv_of_nil _ (by simp [Res.world, track_append, ht, track, Ev.track])
      (by simp [Res.world, Slot_bound, h])
  by_cases hacq : env.acquire_next_image = false
  · simp only [hswap, hacq, if_true, if_false]
    exact Inv_of_nil _ (by simp [Res.world, track_append, ht, track, Ev.track])
      (by simp [Res.world, Slot_bound, h])
  simp only [hswap, hacq, if_false]
  cases hs : w.cl.m_semaphores_cmd_list_consumed[env.image_index]? with
  | none =>
    exact Inv_of_nil _ (by simp [Res.world, track_append, ht, track, Ev.track])
      (by simp [Res.world, Slot_bound, h])
  | some semaphore =>
    cases hc : w.cl.m_cmd_buffers[env.image_index]? with
    | none =>
      exact Inv_of_nil _ (by simp [Res.world, track_append, ht, track, Ev.track])
        (by simp [Res.world, Slot_bound, h])
    | some cmd_buffer =>
      have hlt := lt_length_of_getElem? _ _ _ hc
      by_cases hb : env.begin_command_buffer = VK_SUCCESS
      swap
      · simp only [ne_eq, hb, not_false_eq_true, if_true]
        exact Inv_of_nil _ (by simp [Res.world, track_append, ht, track, Ev.track])
          (by simp [Res.world, Slot_bound, h])
      by_cases hcp : env.cache_pipeline = nullptr
      · simp only [ne_eq, hb, not_true_eq_false, hcp, if_true, if_false]
        exact Inv_of_nil _ (by simp [Res.world, track_append, ht, track, Ev.track])
          (by simp [Res.world, Slot_bound, h])
      by_cases hvk : env.vk_pipeline = nullptr
      · simp only [ne_eq, hb, not_true_eq_false, hcp, hvk, if_true, if_false]
        exact Inv_of_nil _ (by simp [Res.world, track_append, ht, track, Ev.track])
          (by simp [Res.world, Slot_bound, h])
      simp only [ne_eq, hb, not_true_eq_false, hcp, hvk, if_false]
      refine Inv_of_nil _ ?_ (by simp [Res.world, Slot_bound, hlt, hcp])
      by_cases hd : env.debug_marker = true <;>
        simp [Res.world, track_append, ht, track, Ev.track, hd]

theorem Begin_Idle_inv (pass_name : String) (env : BeginEnv) (w : World)
    (h : w.cl.m_cmd_state = RHI_Cmd_List_Idle) (ht : track [] w.trace = some []) :
    Inv (Begin pass_name env w).world := by
  rw [Begin_Idle pass_name env w h]
  split_ifs
  · exact Inv_of_nil _ ht (by simp [Res.world, Slot_bound, h])
  · exact Begin_record_inv pass_name env w h ht

theorem Inv_pending_nil (w : World) (hinv : Inv w)
    (h : w.cl.m_cmd_state ≠ RHI_Cmd_List_Idle_Sync_Cpu_To_Gpu) : track [] w.trace = some [] := by
  obtain ⟨_, p, hp, hsub⟩ := hinv
  simp only [allowed_pending, h, if_false, List.subset_nil] at hsub
  rw [hp, hsub]

/-- The sync block of `Begin`, outcome by outcome. -/
theorem Begin_sync_eq (env : BeginEnv) (w : World)
    (h : w.cl.m_cmd_state = RHI_Cmd_List_Idle_Sync_Cpu_To_Gpu) :
    Begin_sync env w =
      match w.cl.m_fences_in_flight[w.cl.m_buffer_index]? with
      | none => .fault .index_out_of_range w
      | some fence =>
        if env.wait_for_fences ≠ VK_SUCCESS then
          .fault .assertion_failed
            { w with trace := w.trace ++ [.vkWaitForFences fence env.wait_for_fences] }
        else if env.reset_fences ≠ VK_SUCCESS then
          .fault .assertion_failed
            { w with trace := w.trace ++ [.vkWaitForFences fence VK_SUCCESS,
                .vkResetFences fence env.reset_fences] }
        else if env.reset_command_pool ≠ VK_SUCCESS then
          .fault .assertion_failed
            { w with trace := w.trace ++ [.vkWaitForFences fence VK_SUCCESS,
                .vkResetFences fence VK_SUCCESS,
                .vkResetCommandPool w.cl.m_cmd_pool env.reset_command_pool] }
        else if w.cl.m_pipeline = nullptr then
          .fault .null_dereference
            { w with trace := w.trace ++ [.vkWaitForFences fence VK_SUCCESS,
                .vkResetFences fence VK_SUCCESS,
                .vkResetCommandPool w.cl.m_cmd_pool VK_SUCCESS] }
        else
          .ok ()
            { cl := { w.cl with m_cmd_state := RHI_Cmd_List_Idle },
              trace := w.trace ++ [.vkWaitForFences fence VK_SUCCESS,
                .vkResetFences fence VK_SUCCESS,
                .vkResetCommandPool w.cl.m_cmd_pool VK_SUCCESS,
                .OnCommandListConsumed w.cl.m_pipeline] } := by
  cases hf : w.cl.m_fences_in_flight[w.cl.m_buffer_index]? with
  | none => simp [Begin_sync, Exec.seq, members, h, FENCE_CMD_BUFFER_CONSUMED, at_index, hf]
  | some fence =>
    by_cases hwait : env.wait_for_fences = VK_SUCCESS
    swap
    · simp [Begin_sync, Exec.seq, members, h, FENCE_CMD_BUFFER_CONSUMED, at_index, hf,
        Vulkan_Common.wait_reset, emit, SPARTAN_ASSERT, hwait]
    by_cases hreset : env.reset_fences = VK_SUCCESS
    swap
    · simp [Begin_sync, Exec.seq, members, h, FENCE_CMD_BUFFER_CONSUMED, at_index, hf,
        Vulkan_Common.wait_reset, emit, SPARTAN_ASSERT, hwait, hreset]
    by_cases hpool : env.reset_command_pool = VK_SUCCESS
    swap
    · simp [Begin_sync, Exec.seq, members, h, FENCE_CMD_BUFFER_CONSUMED, at_index, hf,
        Vulkan_Common.wait_reset, emit, SPARTAN_ASSERT, hwait, hreset,
        Vulkan_Common.assert_result, hpool]
    by_cases hp : w.cl.m_pipeline = nullptr <;>
      simp [Begin_sync, Exec.seq, members, h, FENCE_CMD_BUFFER_CONSUMED, at_index, hf,
        Vulkan_Common.wait_reset, emit, SPARTAN_ASSERT, hwait, hreset,
        Vulkan_Common.assert_result, hpool, deref, hp, assign]

/-- The sync block returns only in state `Idle`, when it ran. -/
theorem Begin_sync_returns_Idle (env : BeginEnv) (w w1 : World) (a : Unit)
    (h : w.cl.m_cmd_state = RHI_Cmd_List_Idle_Sync_Cpu_To_Gpu)
    (hs : Begin_sync env w = .ok a w1) : w1.cl.m_cmd_state = RHI_Cmd_List_Idle := by
  rw [Begin_sync_eq env w h] at hs
  split at hs
  · cases hs
  · split_ifs at hs
    simp only [Res.ok.injEq, true_and] at hs
    rw [← hs]

/-- From `Idle_Sync_Cpu_To_Gpu`, `Begin` is the sync block followed by `Begin` from `Idle`. -/
theorem Begin_after_sync (pass_name : String) (env : BeginEnv) (w : World)
    (h : w.cl.m_cmd_state = RHI_Cmd_List_Idle_Sync_Cpu_To_Gpu) :
    Begin pass_name env w =
      match Begin_sync env w with
      | .ok _ w1 => Begin pass_name env w1
      | .fault f w1 => .fault f w1 := by
  cases hs : Begin_sync env w with
  | fault f w1 => simp [Begin, Exec.seq, hs]
  | ok a w1 =>
    have hw1 := Begin_sync_returns_Idle env w w1 a h hs
    simp [Begin, Exec.seq, hs, Begin_sync_other env w1 (by simp [hw1])]

theorem Begin_sync_inv (env : BeginEnv) (w : World) (hinv : Inv w)
    (h : w.cl.m_cmd_state = RHI_Cmd_List_Idle_Sync_Cpu_To_Gpu) :
    match Begin_sync env w with
    | .ok _ w1 => w1.cl.m_cmd_state = RHI_Cmd_List_Idle ∧ track [] w1.trace = some []
    | .fault _ w1 => Inv w1 := by
  rw [Begin_sync_eq env w h]
  obtain ⟨hsb, p, hp, hsub⟩ := hinv
  cases hf : w.cl.m_fences_in_flight[w.cl.m_buffer_index]? with
  | none => exact ⟨hsb, p, hp, hsub⟩
  | some fence =>
    simp only [allowed_pending, h, if_true, hf, Option.toList] at hsub
    have hfil := filter_ne_of_subset_singleton p fence hsub
    simp only [ne_eq, decide_not] at hfil
    have hsb1 : ∀ t, Slot_bound ({ w with trace := t } : World).cl := fun _ => hsb
    by_cases hwait : env.wait_for_fences = VK_SUCCESS
    swap
    · simp only [ne_eq, hwait, not_false_eq_true, if_true]
      refine ⟨hsb, p, ?_, ?_⟩
      · simp [track_append, hp, track, Ev.track, hwait]
      · simp [allowed_pending, h, hf, hsub]
    by_cases hreset : env.reset_fences = VK_SUCCESS
    swap
    · simp only [ne_eq, hwait, hreset, not_true_eq_false, not_false_eq_true, if_true, if_false]
      exact Inv_of_nil _ (by simp [track_append, hp, track, Ev.track, hfil]) hsb
    by_cases hpool : env.reset_command_pool = VK_SUCCESS
    swap
    · simp only [ne_eq, hwait, hreset, hpool, not_true_eq_false, not_false_eq_true, if_true,
        if_false]
      exact Inv_of_nil _ (by simp [track_append, hp, track, Ev.track, hfil]) hsb
    by_cases hpl : w.cl.m_pipeline = nullptr
    · simp only [ne_eq, hwait, hreset, hpool, hpl, not_true_eq_false, if_true, if_false]
      exact Inv_of_nil _ (by simp [track_append, hp, track, Ev.track, hfil]) hsb
    · simp only [ne_eq, hwait, hreset, hpool, hpl, not_true_eq_false, if_false]
      exact ⟨trivial, by simp [track_append, hp, track, Ev.track, hfil]⟩

theorem Begin_inv (pass_name : String) (env : BeginEnv) (w : World) (hinv : Inv w) :
    Inv (Begin pass_name env w).world := by
  cases hst : w.cl.m_cmd_state with
  | RHI_Cmd_List_Idle =>
    exact Begin_Idle_inv pass_name env w hst (Inv_pending_nil w hinv (by simp [hst]))
  | RHI_Cmd_List_Idle_Sync_Cpu_To_Gpu =>
    rw [Begin_after_sync pass_name env w hst]
    have := Begin_sync_inv env w hinv hst
    cases hs : Begin_sync env w with
    | ok a w1 =>
      rw [hs] at this
      exact Begin_Idle_inv pass_name env w1 this.1 this.2
    | fault f w1 =>
      rw [hs] at this
      exact this
  | RHI_Cmd_List_Recording =>
    rw [Begin_busy pass_name env w (Or.inl hst)]
    obtain ⟨hsb, p, hp, hsub⟩ := hinv
    exact ⟨hsb, p, by simp [Res.world, track_append, hp, track, Ev.track], hsub⟩
  | RHI_Cmd_List_Ended =>
    rw [Begin_busy pass_name env w (Or.inr hst)]
    obtain ⟨hsb, p, hp, hsub⟩ := hinv
    exact ⟨hsb, p, by simp [Res.world, track_append, hp, track, Ev.track], hsub⟩

theorem getElem?_of_lt (v : List Ptr) (i : Nat) (h : i < v.length) : ∃ p, v[i]? = some p :=
  ⟨v[i], List.getElem?_eq_getElem h⟩

theorem End_inv (env : EndEnv) (w : World) (hinv : Inv w) : Inv (End env w).world := by
  obtain ⟨hsb, p, hp, hsub⟩ := hinv
  by_cases h : w.cl.m_cmd_state = RHI_Cmd_List_Recording
  · obtain ⟨hlt, hpl⟩ := hsb (Or.inl h)
    obtain ⟨cmd_buffer, hc⟩ := getElem?_of_lt _ _ hlt
    rw [End_Recording env w cmd_buffer h hc]
    simp [allowed_pending, h] at hsub
    subst hsub
    refine Inv_of_nil _ ?_ ?_
    · by_cases hq : env.end_command_buffer = VK_SUCCESS <;>
        by_cases hd : env.debug_marker = true <;>
        simp [Res.world, track_append, hp, track, Ev.track, hq, hd]
    · by_cases hq : env.end_command_buffer = VK_SUCCESS
      · simp [Res.world, hq, Slot_bound, hlt, hpl]
      · simpa [Res.world, hq] using hsb
  · rw [End_not_Recording env w h]
    exact ⟨hsb, p, by simp [Res.world, track_append, hp, track, Ev.track], hsub⟩

/-- In `Ended`, `Submit` stops before any call when the swap chain is missing, the indices
differ, or the active slot has no semaphore or no fence. -/
theorem Submit_Ended_fault (env : SubmitEnv) (w : World) (cmd_buffer : Ptr)
    (h : w.cl.m_cmd_state = RHI_Cmd_List_Ended)
    (hc : w.cl.m_cmd_buffers[w.cl.m_buffer_index]? = some cmd_buffer)
    (hbad : w.cl.m_pipeline_state.swap_chain = nullptr ∨
      w.cl.m_buffer_index ≠ env.image_index ∨
      w.cl.m_semaphores_cmd_list_consumed[w.cl.m_buffer_index]? = none ∨
      w.cl.m_fences_in_flight[w.cl.m_buffer_index]? = none) :
    ∃ f, Submit env w = .fault f w := by
  by_cases hswap : w.cl.m_pipeline_state.swap_chain = nullptr
  · exact ⟨.null_dereference, by simp [Submit, Exec.seq, members, h, deref, hswap]⟩
  by_cases hsync : w.cl.m_buffer_index = env.image_index
  swap
  · exact ⟨.assertion_failed,
      by simp [Submit, Exec.seq, members, h, deref, hswap, SPARTAN_ASSERT, hsync]⟩
  cases hs : w.cl.m_semaphores_cmd_list_consumed[w.cl.m_buffer_index]? with
  | none =>
    exact ⟨.index_out_of_range, by
      simp [Submit, Exec.seq, members, h, deref, hswap, SPARTAN_ASSERT, ← hsync,
        SEMAPHORE_CMD_BUFFER_CONSUMED, at_index, hs]⟩
  | some semaphore =>
    cases hf : w.cl.m_fences_in_flight[w.cl.m_buffer_index]? with
    | none =>
      exact ⟨.index_out_of_range, by
        simp [Submit, Exec.seq, members, h, deref, hswap, SPARTAN_ASSERT, ← hsync,
          SEMAPHORE_CMD_BUFFER_CONSUMED, CMD_BUFFER, FENCE_CMD_BUFFER_CONSUMED, at_index, hs,
          hc, hf]⟩
    | some fence =>
      rcases hbad with h1 | h1 | h1 | h1
      · exact absurd h1 hswap
      · exact absurd hsync h1
      · rw [hs] at h1
        cases h1
      · rw [hf] at h1
        cases h1

theorem Submit_inv (env : SubmitEnv) (w : World) (hinv : Inv w) :
    Inv (Submit env w).world := by
  obtain ⟨hsb, p, hp, hsub⟩ := hinv
  by_cases h : w.cl.m_cmd_state = RHI_Cmd_List_Ended
  swap
  · rw [Submit_not_Ended env w h]
    exact ⟨hsb, p, by simp [Res.world, track_append, hp, track, Ev.track], hsub⟩
  obtain ⟨hlt, hpl⟩ := hsb (Or.inr h)
  obtain ⟨cmd_buffer, hc⟩ := getElem?_of_lt _ _ hlt
  simp [allowed_pending, h] at hsub
  subst hsub
  by_cases hbad : w.cl.m_pipeline_state.swap_chain = nullptr ∨
      w.cl.m_buffer_index ≠ env.image_index ∨
      w.cl.m_semaphores_cmd_list_consumed[w.cl.m_buffer_index]? = none ∨
      w.cl.m_fences_in_flight[w.cl.m_buffer_index]? = none
  · obtain ⟨f, hf⟩ := Submit_Ended_fault env w cmd_buffer h hc hbad
    rw [hf]
    exact Inv_of_nil _ hp hsb
  · simp only [not_or, ne_eq, not_not] at hbad
    obtain ⟨hswap, hsync, hs, hf⟩ := hbad
    obtain ⟨semaphore, hs⟩ := Option.ne_none_iff_exists'.mp hs
    obtain ⟨fence, hf⟩ := Option.ne_none_iff_exists'.mp hf
    rw [Submit_Ended env w cmd_buffer semaphore fence h hswap hsync hc hs hf]
    by_cases hq : env.queue_submit = VK_SUCCESS
    · simp only [hq, if_true]
      refine ⟨by simp [Res.world, Slot_bound], [fence], ?_, ?_⟩
      · simp [Res.world, track_append, hp, track, Ev.track]
      · simp [Res.world, allowed_pending, hf]
    · simp only [hq, if_false]
      exact Inv_of_nil _ (by simp [Res.world, track_append, hp, track, Ev.track, hq]) hsb

theorem recording_call_inv (op : Op) (w : World) (hinv : Inv w)
    (hop : op.is_recording_call = true) : Inv (op.run w).world := by
  by_cases h : w.cl.m_cmd_state = RHI_Cmd_List_Recording
  · obtain ⟨hsb, p, hp, hsub⟩ := hinv
    obtain ⟨hlt, hpl⟩ := hsb (Or.inl h)
    obtain ⟨cmd_buffer, hc⟩ := getElem?_of_lt _ _ hlt
    obtain ⟨evs, hrun, _, _, htr⟩ := recording_call_recorded op w cmd_buffer hop h hc hpl
    rw [hrun]
    exact ⟨hsb, p, by simp [Res.world, track_append, hp, htr], hsub⟩
  · have := recording_call_refused op w hop h
    rw [Refused] at this
    rw [this]
    obtain ⟨hsb, p, hp, hsub⟩ := hinv
    exact ⟨hsb, p, by simp [Res.world, track_append, hp, track, Ev.track], hsub⟩

theorem Op_run_inv (op : Op) (w : World) (hinv : Inv w) : Inv (op.run w).world := by
  cases op
  case Begin pass_name env => exact Begin_inv pass_name env w hinv
  case End env => exact End_inv env w hinv
  case part_of_pipeline => exact hinv
  case Submit env =>
    have := Submit_inv env w hinv
    simp only [Op.run]
    cases hs : Submit env w <;> simpa [hs, Res.world] using this
  case GetPipelineState assigned =>
    obtain ⟨hsb, p, hp, hsub⟩ := hinv
    exact ⟨hsb, p, hp, hsub⟩
  all_goals exact recording_call_inv _ w hinv rfl

theorem run_all_inv (ops : List Op) (w : World) (hinv : Inv w) :
    Inv (run_all ops w).world := by
  induction ops generalizing w with
  | nil => exact hinv
  | cons op ops ih =>
    have h1 := Op_run_inv op w hinv
    simp only [run_all]
    cases hs : op.run w with
    | ok a w1 =>
      rw [hs] at h1
      exact ih w1 h1
    | fault f w1 =>
      rw [hs] at h1
      exact h1

/-- A command list in `Idle` that has made no call yet satisfies the invariant. -/
theorem Inv_initial (w : World) (h : w.cl.m_cmd_state = RHI_Cmd_List_Idle) (ht : w.trace = []) :
    Inv w :=
  Inv_of_nil w (by simp [ht, track]) (by simp [Slot_bound, h])

/-! ## Frames in which every device call succeeds -/

theorem run_all_append (xs ys : List Op) (w : World) :
    run_all (xs ++ ys) w =
      match run_all xs w with
      | .ok _ w1 => run_all ys w1
      | .fault f w1 => .fault f w1 := by
  induction xs generalizing w with
  | nil => simp [run_all]
  | cons op xs ih =>
    simp only [List.cons_append, run_all]
    cases op.run w with
    | ok a w1 => exact ih w1
    | fault f w1 => rfl

/-- The calls of a `Begin` that starts in `Idle` and in which every device call succeeds. -/
theorem Begin_ok_Idle (pass_name : String) (image_index : Nat) (pipeline vk_pipeline : Ptr)
    (w : World) (semaphore cmd_buffer : Ptr)
    (h : w.cl.m_cmd_state = RHI_Cmd_List_Idle)
    (hshader : w.cl.m_pipeline_state.shader_vertex ≠ nullptr)
    (hswap : w.cl.m_pipeline_state.swap_chain ≠ nullptr)
    (hs : w.cl.m_semaphores_cmd_list_consumed[image_index]? = some semaphore)
    (hc : w.cl.m_cmd_buffers[image_index]? = some cmd_buffer)
    (hp : pipeline ≠ nullptr) (hvk : vk_pipeline ≠ nullptr) :
    Begin pass_name (begin_ok image_index pipeline vk_pipeline) w = .ok ()
      { cl := { w.cl with m_pipeline := pipeline, m_buffer_index := image_index,
                          m_cmd_state := RHI_Cmd_List_Recording },
        trace := w.trace ++ [.GetPipeline w.cl.m_pipeline_state,
          .AcquireNextImage w.cl.m_pipeline_state.swap_chain true,
          .SetSemaphoreRenderFinished w.cl.m_pipeline_state.swap_chain semaphore,
          .vkBeginCommandBuffer cmd_buffer VK_SUCCESS,
          .vkCmdBeginRenderPass cmd_buffer 0 0 0 0,
          .vkCmdBindPipeline cmd_buffer vk_pipeline] } := by
  rw [Begin_Idle pass_name _ w h, Begin_record_eq]
  simp [hshader, hswap, begin_ok, hs, hc, hp, hvk]

/-- The calls of a `Begin` that starts in `Idle_Sync_Cpu_To_Gpu` and in which every device call
succeeds: the sync block, then the calls of a `Begin` from `Idle`. -/
theorem Begin_ok_Sync (pass_name : String) (image_index : Nat) (pipeline vk_pipeline : Ptr)
    (w : World) (fence semaphore cmd_buffer : Ptr)
    (h : w.cl.m_cmd_state = RHI_Cmd_List_Idle_Sync_Cpu_To_Gpu)
    (hf : w.cl.m_fences_in_flight[w.cl.m_buffer_index]? = some fence)
    (hbound : w.cl.m_pipeline ≠ nullptr)
    (hshader : w.cl.m_pipeline_state.shader_vertex ≠ nullptr)
    (hswap : w.cl.m_pipeline_state.swap_chain ≠ nullptr)
    (hs : w.cl.m_semaphores_cmd_list_consumed[image_index]? = some semaphore)
    (hc : w.cl.m_cmd_buffers[image_index]? = some cmd_buffer)
    (hp : pipeline ≠ nullptr) (hvk : vk_pipeline ≠ nullptr) :
    Begin pass_name (begin_ok image_index pipeline vk_pipeline) w = .ok ()
      { cl := { w.cl with m_pipeline := pipeline, m_buffer_index := image_index,
                          m_cmd_state := RHI_Cmd_List_Recording },
        trace := w.trace ++ [.vkWaitForFences fence VK_SUCCESS,
          .vkResetFences fence VK_SUCCESS,
          .vkResetCommandPool w.cl.m_cmd_pool VK_SUCCESS,
          .OnCommandListConsumed w.cl.m_pipeline,
          .GetPipeline w.cl.m_pipeline_state,
          .AcquireNextImage w.cl.m_pipeline_state.swap_chain true,
          .SetSemaphoreRenderFinished w.cl.m_pipeline_state.swap_chain semaphore,
          .vkBeginCommandBuffer cmd_buffer VK_SUCCESS,
          .vkCmdBeginRenderPass cmd_buffer 0 0 0 0,
          .vkCmdBindPipeline cmd_buffer vk_pipeline] } := by
  rw [Begin_after_sync pass_name _ w h,
    Begin_sync_pending _ w fence h hf hbound rfl rfl rfl]
  have key := Begin_ok_Idle pass_name image_index pipeline vk_pipeline
    { cl := { w.cl with m_cmd_state := RHI_Cmd_List_Idle },
      trace := w.trace ++ [.vkWaitForFences fence VK_SUCCESS, .vkResetFences fence VK_SUCCESS,
        .vkResetCommandPool w.cl.m_cmd_pool VK_SUCCESS,
        .OnCommandListConsumed w.cl.m_pipeline] }
    semaphore cmd_buffer rfl hshader hswap hs hc hp hvk
  simpa using key

/-- The draw, `End` and `Submit` of a frame, from the world its `Begin` left. -/
theorem frame_tail (w : World) (cmd_buffer semaphore fence : Ptr)
    (h : w.cl.m_cmd_state = RHI_Cmd_List_Recording)
    (hc : w.cl.m_cmd_buffers[w.cl.m_buffer_index]? = some cmd_buffer)
    (hs : w.cl.m_semaphores_cmd_list_consumed[w.cl.m_buffer_index]? = some semaphore)
    (hf : w.cl.m_fences_in_flight[w.cl.m_buffer_index]? = some fence)
    (hbound : w.cl.m_pipeline ≠ nullptr)
    (hswap : w.cl.m_pipeline_state.swap_chain ≠ nullptr) :
    run_all
      [ .Draw 3 { descriptor_pending_update := nullptr, pipeline_layout := 0 },
        .End { end_command_buffer := VK_SUCCESS, debug_marker := false },
        .Submit { image_index := w.cl.m_buffer_index, semaphore_image_acquired := 0,
                  queue_submit := VK_SUCCESS } ] w = .ok ()
      { cl := { w.cl with m_cmd_state := RHI_Cmd_List_Idle_Sync_Cpu_To_Gpu },
        trace := w.trace ++ [.GetDescriptorPendingUpdate w.cl.m_pipeline,
          .vkCmdDraw cmd_buffer 3 1 0 0,
          .vkCmdEndRenderPass cmd_buffer,
          .vkEndCommandBuffer cmd_buffer VK_SUCCESS,
          .vkQueueSubmit 0 cmd_buffer semaphore fence VK_SUCCESS] } := by
  have hdraw := Draw_Recording 3 { descriptor_pending_update := nullptr, pipeline_layout := 0 }
    w cmd_buffer h hc hbound
  simp only [ne_eq, not_true_eq_false, if_false, List.nil_append, List.cons_append,
    List.singleton_append] at hdraw
  have hend := End_Recording { end_command_buffer := VK_SUCCESS, debug_marker := false }
    { w with trace := w.trace ++ [.GetDescriptorPendingUpdate w.cl.m_pipeline,
        .vkCmdDraw cmd_buffer 3 1 0 0] } cmd_buffer h hc
  simp only [if_true, List.append_nil, List.append_assoc, List.cons_append, List.nil_append,
    Bool.false_eq_true, if_false] at hend
  have hsub := Submit_Ended
    { image_index := w.cl.m_buffer_index, semaphore_image_acquired := 0,
      queue_submit := VK_SUCCESS }
    { cl := { w.cl with m_cmd_state := RHI_Cmd_List_Ended },
      trace := w.trace ++ [.GetDescriptorPendingUpdate w.cl.m_pipeline,
        .vkCmdDraw cmd_buffer 3 1 0 0, .vkCmdEndRenderPass cmd_buffer,
        .vkEndCommandBuffer cmd_buffer VK_SUCCESS] }
    cmd_buffer semaphore fence rfl hswap rfl hc hs hf
  simp only [if_true, List.append_assoc, List.cons_append, List.nil_append] at hsub
  simp only [run_all, Op.run, hdraw, hend, hsub]

/-- A whole frame that starts in `Idle`. -/
theorem frame_from_Idle (image_index : Nat) (pipeline vk_pipeline : Ptr) (w : World)
    (cmd_buffer semaphore fence : Ptr)
    (h : w.cl.m_cmd_state = RHI_Cmd_List_Idle)
    (hshader : w.cl.m_pipeline_state.shader_vertex ≠ nullptr)
    (hswap : w.cl.m_pipeline_state.swap_chain ≠ nullptr)
    (hc : w.cl.m_cmd_buffers[image_index]? = some cmd_buffer)
    (hs : w.cl.m_semaphores_cmd_list_consumed[image_index]? = some semaphore)
    (hf : w.cl.m_fences_in_flight[image_index]? = some fence)
    (hp : pipeline ≠ nullptr) (hvk : vk_pipeline ≠ nullptr) :
    run_all (frame image_index pipeline vk_pipeline) w = .ok ()
      { cl := { w.cl with m_pipeline := pipeline, m_buffer_index := image_index,
                          m_cmd_state := RHI_Cmd_List_Idle_Sync_Cpu_To_Gpu },
        trace := w.trace ++ [.GetPipeline w.cl.m_pipeline_state,
          .AcquireNextImage w.cl.m_pipeline_state.swap_chain true,
          .SetSemaphoreRenderFinished w.cl.m_pipeline_state.swap_chain semaphore,
          .vkBeginCommandBuffer cmd_buffer VK_SUCCESS,
          .vkCmdBeginRenderPass cmd_buffer 0 0 0 0,
          .vkCmdBindPipeline cmd_buffer vk_pipeline,
          .GetDescriptorPendingUpdate pipeline,
          .vkCmdDraw cmd_buffer 3 1 0 0,
          .vkCmdEndRenderPass cmd_buffer,
          .vkEndCommandBuffer cmd_buffer VK_SUCCESS,
          .vkQueueSubmit 0 cmd_buffer semaphore fence VK_SUCCESS] } := by
  have hbegin := Begin_ok_Idle "" image_index pipeline vk_pipeline w semaphore cmd_buffer h
    hshader hswap hs hc hp hvk
  have htail := frame_tail
    { cl := { w.cl with m_pipeline := pipeline, m_buffer_index := image_index,
                        m_cmd_state := RHI_Cmd_List_Recording },
      trace := w.trace ++ [.GetPipeline w.cl.m_pipeline_state,
        .AcquireNextImage w.cl.m_pipeline_state.swap_chain true,
        .SetSemaphoreRenderFinished w.cl.m_pipeline_state.swap_chain semaphore,
        .vkBeginCommandBuffer cmd_buffer VK_SUCCESS,
        .vkCmdBeginRenderPass cmd_buffer 0 0 0 0,
        .vkCmdBindPipeline cmd_buffer vk_pipeline] }
    cmd_buffer semaphore fence rfl hc hs hf hp hswap
  simp only [List.append_assoc, List.cons_append, List.nil_append] at htail
  unfold frame
  rw [run_all]
  simp only [Op.run, hbegin]
  exact htail

/-- A whole frame that starts in `Idle_Sync_Cpu_To_Gpu`. -/
theorem frame_from_Sync (image_index : Nat) (pipeline vk_pipeline : Ptr) (w : World)
    (waited cmd_buffer semaphore fence : Ptr)
    (h : w.cl.m_cmd_state = RHI_Cmd_List_Idle_Sync_Cpu_To_Gpu)
    (hw : w.cl.m_fences_in_flight[w.cl.m_buffer_index]? = some waited)
    (hbound : w.cl.m_pipeline ≠ nullptr)
    (hshader : w.cl.m_pipeline_state.shader_vertex ≠ nullptr)
    (hswap : w.cl.m_pipeline_state.swap_chain ≠ nullptr)
    (hc : w.cl.m_cmd_buffers[image_index]? = some cmd_buffer)
    (hs : w.cl.m_semaphores_cmd_list_consumed[image_index]? = some semaphore)
    (hf : w.cl.m_fences_in_flight[image_index]? = some fence)
    (hp : pipeline ≠ nullptr) (hvk : vk_pipeline ≠ nullptr) :
    run_all (frame image_index pipeline vk_pipeline) w = .ok ()
      { cl := { w.cl with m_pipeline := pipeline, m_buffer_index := image_index,
                          m_cmd_state := RHI_Cmd_List_Idle_Sync_Cpu_To_Gpu },
        trace := w.trace ++ [.vkWaitForFences waited VK_SUCCESS,
          .vkResetFences waited VK_SUCCESS,
          .vkResetCommandPool w.cl.m_cmd_pool VK_SUCCESS,
          .OnCommandListConsumed w.cl.m_pipeline,
          .GetPipeline w.cl.m_pipeline_state,
          .AcquireNextImage w.cl.m_pipeline_state.swap_chain true,
          .SetSemaphoreRenderFinished w.cl.m_pipeline_state.swap_chain semaphore,
          .vkBeginCommandBuffer cmd_buffer VK_SUCCESS,
          .vkCmdBeginRenderPass cmd_buffer 0 0 0 0,
          .vkCmdBindPipeline cmd_buffer vk_pipeline,
          .GetDescriptorPendingUpdate pipeline,
          .vkCmdDraw cmd_buffer 3 1 0 0,
          .vkCmdEndRenderPass cmd_buffer,
          .vkEndCommandBuffer cmd_buffer VK_SUCCESS,
          .vkQueueSubmit 0 cmd_buffer semaphore fence VK_SUCCESS] } := by
  have hbegin := Begin_ok_Sync "" image_index pipeline vk_pipeline w waited semaphore
    cmd_buffer h hw hbound hshader hswap hs hc hp hvk
  have htail := frame_tail
    { cl := { w.cl with m_pipeline := pipeline, m_buffer_index := image_index,
                        m_cmd_state := RHI_Cmd_List_Recording },
      trace := w.trace ++ [.vkWaitForFences waited VK_SUCCESS,
        .vkResetFences waited VK_SUCCESS,
        .vkResetCommandPool w.cl.m_cmd_pool VK_SUCCESS,
        .OnCommandListConsumed w.cl.m_pipeline,
        .GetPipeline w.cl.m_pipeline_state,
        .AcquireNextImage w.cl.m_pipeline_state.swap_chain true,
        .SetSemaphoreRenderFinished w.cl.m_pipeline_state.swap_chain semaphore,
        .vkBeginCommandBuffer cmd_buffer VK_SUCCESS,
        .vkCmdBeginRenderPass cmd_buffer 0 0 0 0,
        .vkCmdBindPipeline cmd_buffer vk_pipeline] }
    cmd_buffer semaphore fence rfl hc hs hf hp hswap
  simp only [List.append_assoc, List.cons_append, List.nil_append] at htail
  unfold frame
  rw [run_all]
  simp only [Op.run, hbegin]
  exact htail

/-- The world after the first frame of the scenario with two frames in flight. -/
theorem scenario_frame1 (c0 c1 s0 s1 f0 f1 cmd_pool shader swap_chain pipeline vk_pipeline : Ptr)
    (hshader : shader ≠ nullptr) (hswap : swap_chain ≠ nullptr)
    (hp : pipeline ≠ nullptr) (hvk : vk_pipeline ≠ nullptr) :
    run_all (frame 0 pipeline vk_pipeline)
        (two_frames_in_flight c0 c1 s0 s1 f0 f1 cmd_pool shader swap_chain) = .ok ()
      { cl := { (two_frames_in_flight c0 c1 s0 s1 f0 f1 cmd_pool shader swap_chain).cl with
                  m_pipeline := pipeline, m_buffer_index := 0,
                  m_cmd_state := RHI_Cmd_List_Idle_Sync_Cpu_To_Gpu },
        trace := [.GetPipeline { shader_vertex := shader, swap_chain := swap_chain, rest := 0 },
          .AcquireNextImage swap_chain true,
          .SetSemaphoreRenderFinished swap_chain s0,
          .vkBeginCommandBuffer c0 VK_SUCCESS,
          .vkCmdBeginRenderPass c0 0 0 0 0,
          .vkCmdBindPipeline c0 vk_pipeline,
          .GetDescriptorPendingUpdate pipeline,
          .vkCmdDraw c0 3 1 0 0,
          .vkCmdEndRenderPass c0,
          .vkEndCommandBuffer c0 VK_SUCCESS,
          .vkQueueSubmit 0 c0 s0 f0 VK_SUCCESS] } := by
  have := frame_from_Idle 0 pipeline vk_pipeline
    (two_frames_in_flight c0 c1 s0 s1 f0 f1 cmd_pool shader swap_chain) c0 s0 f0 rfl hshader
    hswap rfl rfl rfl hp hvk
  simpa [two_frames_in_flight] using this

theorem Begin_ok_Idle_events (pass_name : String) (image_index : Nat)
    (pipeline vk_pipeline : Ptr) (w : World) (semaphore cmd_buffer : Ptr)
    (h : w.cl.m_cmd_state = RHI_Cmd_List_Idle)
    (hshader : w.cl.m_pipeline_state.shader_vertex ≠ nullptr)
    (hswap : w.cl.m_pipeline_state.swap_chain ≠ nullptr)
    (hs : w.cl.m_semaphores_cmd_list_consumed[image_index]? = some semaphore)
    (hc : w.cl.m_cmd_buffers[image_index]? = some cmd_buffer)
    (hp : pipeline ≠ nullptr) (hvk : vk_pipeline ≠ nullptr) :
    events_of (Begin pass_name (begin_ok image_index pipeline vk_pipeline)) w =
      [.GetPipeline w.cl.m_pipeline_state,
        .AcquireNextImage w.cl.m_pipeline_state.swap_chain true,
        .SetSemaphoreRenderFinished w.cl.m_pipeline_state.swap_chain semaphore,
        .vkBeginCommandBuffer cmd_buffer VK_SUCCESS,
        .vkCmdBeginRenderPass cmd_buffer 0 0 0 0,
        .vkCmdBindPipeline cmd_buffer vk_pipeline] ∧
    (Begin pass_name (begin_ok image_index pipeline vk_pipeline) w).world.cl.m_buffer_index
      = image_index := by
  have := Begin_ok_Idle pass_name image_index pipeline vk_pipeline w semaphore cmd_buffer h
    hshader hswap hs hc hp hvk
  exact ⟨events_of_ok _ w () _ _ this, by rw [this]; rfl⟩

theorem Begin_ok_Sync_events (pass_name : String) (image_index : Nat)
    (pipeline vk_pipeline : Ptr) (w : World) (fence semaphore cmd_buffer : Ptr)
    (h : w.cl.m_cmd_state = RHI_Cmd_List_Idle_Sync_Cpu_To_Gpu)
    (hf : w.cl.m_fences_in_flight[w.cl.m_buffer_index]? = some fence)
    (hbound : w.cl.m_pipeline ≠ nullptr)
    (hshader : w.cl.m_pipeline_state.shader_vertex ≠ nullptr)
    (hswap : w.cl.m_pipeline_state.swap_chain ≠ nullptr)
    (hs : w.cl.m_semaphores_cmd_list_consumed[image_index]? = some semaphore)
    (hc : w.cl.m_cmd_buffers[image_index]? = some cmd_buffer)
    (hp : pipeline ≠ nullptr) (hvk : vk_pipeline ≠ nullptr) :
    events_of (Begin pass_name (begin_ok image_index pipeline vk_pipeline)) w =
      [.vkWaitForFences fence VK_SUCCESS,
        .vkResetFences fence VK_SUCCESS,
        .vkResetCommandPool w.cl.m_cmd_pool VK_SUCCESS,
        .OnCommandListConsumed w.cl.m_pipeline,
        .GetPipeline w.cl.m_pipeline_state,
        .AcquireNextImage w.cl.m_pipeline_state.swap_chain true,
        .SetSemaphoreRenderFinished w.cl.m_pipeline_state.swap_chain semaphore,
        .vkBeginCommandBuffer cmd_buffer VK_SUCCESS,
        .vkCmdBeginRenderPass cmd_buffer 0 0 0 0,
        .vkCmdBindPipeline cmd_buffer vk_pipeline] ∧
    (Begin pass_name (begin_ok image_index pipeline vk_pipeline) w).world.cl.m_buffer_index
      = image_index := by
  have := Begin_ok_Sync pass_name image_index pipeline vk_pipeline w fence semaphore cmd_buffer
    h hf hbound hshader hswap hs hc hp hvk
  exact ⟨events_of_ok _ w () _ _ this, by rw [this]; rfl⟩

/-- The world after the first two frames of the scenario with two frames in flight. -/
theorem scenario_frame2 (c0 c1 s0 s1 f0 f1 cmd_pool shader swap_chain pipeline vk_pipeline : Ptr)
    (hshader : shader ≠ nullptr) (hswap : swap_chain ≠ nullptr)
    (hp : pipeline ≠ nullptr) (hvk : vk_pipeline ≠ nullptr) :
    run_all (frame 0 pipeline vk_pipeline ++ frame 1 pipeline vk_pipeline)
        (two_frames_in_flight c0 c1 s0 s1 f0 f1 cmd_pool shader swap_chain) = .ok ()
      { cl := { (two_frames_in_flight c0 c1 s0 s1 f0 f1 cmd_pool shader swap_chain).cl with
                  m_pipeline := pipeline, m_buffer_index := 1,
                  m_cmd_state := RHI_Cmd_List_Idle_Sync_Cpu_To_Gpu },
        trace := [.GetPipeline { shader_vertex := shader, swap_chain := swap_chain, rest := 0 },
          .AcquireNextImage swap_chain true,
          .SetSemaphoreRenderFinished swap_chain s0,
          .vkBeginCommandBuffer c0 VK_SUCCESS,
          .vkCmdBeginRenderPass c0 0 0 0 0,
          .vkCmdBindPipeline c0 vk_pipeline,
          .GetDescriptorPendingUpdate pipeline,
          .vkCmdDraw c0 3 1 0 0,
          .vkCmdEndRenderPass c0,
          .vkEndCommandBuffer c0 VK_SUCCESS,
          .vkQueueSubmit 0 c0 s0 f0 VK_SUCCESS,
          .vkWaitForFences f0 VK_SUCCESS,
          .vkResetFences f0 VK_SUCCESS,
          .vkResetCommandPool cmd_pool VK_SUCCESS,
          .OnCommandListConsumed pipeline,
          .GetPipeline { shader_vertex := shader, swap_chain := swap_chain, rest := 0 },
          .AcquireNextImage swap_chain true,
          .SetSemaphoreRenderFinished swap_chain s1,
          .vkBeginCommandBuffer c1 VK_SUCCESS,
          .vkCmdBeginRenderPass c1 0 0 0 0,
          .vkCmdBindPipeline c1 vk_pipeline,
          .GetDescriptorPendingUpdate pipeline,
          .vkCmdDraw c1 3 1 0 0,
          .vkCmdEndRenderPass c1,
          .vkEndCommandBuffer c1 VK_SUCCESS,
          .vkQueueSubmit 0 c1 s1 f1 VK_SUCCESS] } := by
  rw [run_all_append, scenario_frame1 c0 c1 s0 s1 f0 f1 cmd_pool shader swap_chain pipeline
    vk_pipeline hshader hswap hp hvk]
  exact frame_from_Sync 1 pipeline vk_pipeline _ f0 c1 s1 f1 rfl rfl hp hshader hswap rfl rfl rfl
    hp hvk

/-- The `Begin` of the first frame of the scenario. -/
theorem scenario_begin1 (c0 c1 s0 s1 f0 f1 cmd_pool shader swap_chain pipeline vk_pipeline : Ptr)
    (hshader : shader ≠ nullptr) (hswap : swap_chain ≠ nullptr)
    (hp : pipeline ≠ nullptr) (hvk : vk_pipeline ≠ nullptr) :
    events_of (Begin "" (begin_ok 0 pipeline vk_pipeline))
        (two_frames_in_flight c0 c1 s0 s1 f0 f1 cmd_pool shader swap_chain) =
      [.GetPipeline { shader_vertex := shader, swap_chain := swap_chain, rest := 0 },
        .AcquireNextImage swap_chain true,
        .SetSemaphoreRenderFinished swap_chain s0,
        .vkBeginCommandBuffer c0 VK_SUCCESS,
        .vkCmdBeginRenderPass c0 0 0 0 0,
        .vkCmdBindPipeline c0 vk_pipeline] ∧
    (Begin "" (begin_ok 0 pipeline vk_pipeline)
        (two_frames_in_flight c0 c1 s0 s1 f0 f1 cmd_pool shader swap_chain)).world.cl.m_buffer_index
      = 0 := by
  exact Begin_ok_Idle_events "" 0 pipeline vk_pipeline _ s0 c0 rfl hshader hswap rfl rfl hp hvk

/-- The `Begin` of the second frame of the scenario. -/
theorem scenario_begin2 (c0 c1 s0 s1 f0 f1 cmd_pool shader swap_chain pipeline vk_pipeline : Ptr)
    (hshader : shader ≠ nullptr) (hswap : swap_chain ≠ nullptr)
    (hp : pipeline ≠ nullptr) (hvk : vk_pipeline ≠ nullptr) :
    events_of (Begin "" (begin_ok 1 pipeline vk_pipeline))
        (run_all (frame 0 pipeline vk_pipeline)
          (two_frames_in_flight c0 c1 s0 s1 f0 f1 cmd_pool shader swap_chain)).world =
      [.vkWaitForFences f0 VK_SUCCESS,
        .vkResetFences f0 VK_SUCCESS,
        .vkResetCommandPool cmd_pool VK_SUCCESS,
        .OnCommandListConsumed pipeline,
        .GetPipeline { shader_vertex := shader, swap_chain := swap_chain, rest := 0 },
        .AcquireNextImage swap_chain true,
        .SetSemaphoreRenderFinished swap_chain s1,
        .vkBeginCommandBuffer c1 VK_SUCCESS,
        .vkCmdBeginRenderPass c1 0 0 0 0,
        .vkCmdBindPipeline c1 vk_pipeline] ∧
    (Begin "" (begin_ok 1 pipeline vk_pipeline)
        (run_all (frame 0 pipeline vk_pipeline)
          (two_frames_in_flight c0 c1 s0 s1 f0 f1 cmd_pool shader swap_chain)).world
      ).world.cl.m_buffer_index = 1 := by
  rw [scenario_frame1 c0 c1 s0 s1 f0 f1 cmd_pool shader swap_chain pipeline vk_pipeline hshader
    hswap hp hvk]
  exact Begin_ok_Sync_events "" 1 pipeline vk_pipeline _ f0 s1 c1 rfl rfl hp hshader hswap rfl rfl
    hp hvk

/-- The `Begin` of the third frame of the scenario. -/
theorem scenario_begin3 (c0 c1 s0 s1 f0 f1 cmd_pool shader swap_chain pipeline vk_pipeline : Ptr)
    (hshader : shader ≠ nullptr) (hswap : swap_chain ≠ nullptr)
    (hp : pipeline ≠ nullptr) (hvk : vk_pipeline ≠ nullptr) :
    events_of (Begin "" (begin_ok 0 pipeline vk_pipeline))
        (run_all (frame 0 pipeline vk_pipeline ++ frame 1 pipeline vk_pipeline)
          (two_frames_in_flight c0 c1 s0 s1 f0 f1 cmd_pool shader swap_chain)).world =
      [.vkWaitForFences f1 VK_SUCCESS,
        .vkResetFences f1 VK_SUCCESS,
        .vkResetCommandPool cmd_pool VK_SUCCESS,
        .OnCommandListConsumed pipeline,
        .GetPipeline { shader_vertex := shader, swap_chain := swap_chain, rest := 0 },
        .AcquireNextImage swap_chain true,
        .SetSemaphoreRenderFinished swap_chain s0,
        .vkBeginCommandBuffer c0 VK_SUCCESS,
        .vkCmdBeginRenderPass c0 0 0 0 0,
        .vkCmdBindPipeline c0 vk_pipeline] ∧
    (Begin "" (begin_ok 0 pipeline vk_pipeline)
        (run_all (frame 0 pipeline vk_pipeline ++ frame 1 pipeline vk_pipeline)
          (two_frames_in_flight c0 c1 s0 s1 f0 f1 cmd_pool shader swap_chain)).world
      ).world.cl.m_buffer_index = 0 := by
  rw [scenario_frame2 c0 c1 s0 s1 f0 f1 cmd_pool shader swap_chain pipeline vk_pipeline hshader
    hswap hp hvk]
  exact Begin_ok_Sync_events "" 0 pipeline vk_pipeline _ f1 s0 c0 rfl rfl hp hshader hswap rfl rfl
    hp hvk

/-- `Begin_record` only appends to the trace. -/
theorem Begin_record_extends (pass_name : String) (env : BeginEnv) (w : World) :
    ∃ evs, (Begin_record pass_name env w).world.trace = w.trace ++ evs := by
  rw [Begin_record_eq]
  by_cases hswap : w.cl.m_pipeline_state.swap_chain = nullptr
  · simp only [hswap, if_true]
    exact ⟨_, rfl⟩
  by_cases hacq : env.acquire_next_image = false
  · simp only [hswap, hacq, if_true, if_false]
    exact ⟨_, rfl⟩
  simp only [hswap, hacq, if_false]
  cases hs : w.cl.m_semaphores_cmd_list_consumed[env.image_index]? with
  | none => exact ⟨_, rfl⟩
  | some semaphore =>
    cases hc : w.cl.m_cmd_buffers[env.image_index]? with
    | none => exact ⟨_, rfl⟩
    | some cmd_buffer =>
      by_cases hb : env.begin_command_buffer = VK_SUCCESS
      swap
      · simp only [ne_eq, hb, not_false_eq_true, if_true]
        exact ⟨_, rfl⟩
      by_cases hcp : env.cache_pipeline = nullptr
      · simp only [ne_eq, hb, not_true_eq_false, hcp, if_true, if_false]
        exact ⟨_, rfl⟩
      by_cases hvk : env.vk_pipeline = nullptr
      · simp only [ne_eq, hb, not_true_eq_false, hcp, hvk, if_true, if_false]
        exact ⟨_, rfl⟩
      simp only [ne_eq, hb, not_true_eq_false, hcp, hvk, if_false]
      exact ⟨_, rfl⟩

/-- From `Idle`, `Begin` only appends to the trace. -/
theorem Begin_Idle_extends (pass_name : String) (env : BeginEnv) (w : World)
    (h : w.cl.m_cmd_state = RHI_Cmd_List_Idle) :
    ∃ evs, (Begin pass_name env w).world.trace = w.trace ++ evs := by
  rw [Begin_Idle pass_name env w h]
  split_ifs
  · exact ⟨[], by simp [Res.world]⟩
  · exact Begin_record_extends pass_name env w

theorem world_run_all_snoc (xs : List Op) (op : Op) (w w1 : World)
    (h : run_all xs w = .ok () w1) :
    (run_all (xs ++ [op]) w).world = (op.run w1).world := by
  rw [run_all_append, h]
  simp only [run_all]
  cases op.run w1 <;> rfl

theorem Begin_ok_Sync_trace (pass_name : String) (image_index : Nat)
    (pipeline vk_pipeline : Ptr) (w : World) (fence semaphore cmd_buffer : Ptr)
    (h : w.cl.m_cmd_state = RHI_Cmd_List_Idle_Sync_Cpu_To_Gpu)
    (hf : w.cl.m_fences_in_flight[w.cl.m_buffer_index]? = some fence)
    (hbound : w.cl.m_pipeline ≠ nullptr)
    (hshader : w.cl.m_pipeline_state.shader_vertex ≠ nullptr)
    (hswap : w.cl.m_pipeline_state.swap_chain ≠ nullptr)
    (hs : w.cl.m_semaphores_cmd_list_consumed[image_index]? = some semaphore)
    (hc : w.cl.m_cmd_buffers[image_index]? = some cmd_buffer)
    (hp : pipeline ≠ nullptr) (hvk : vk_pipeline ≠ nullptr) :
    (Op.run (.Begin pass_name (begin_ok image_index pipeline vk_pipeline)) w).world.trace =
      w.trace ++ [.vkWaitForFences fence VK_SUCCESS,
        .vkResetFences fence VK_SUCCESS,
        .vkResetCommandPool w.cl.m_cmd_pool VK_SUCCESS,
        .OnCommandListConsumed w.cl.m_pipeline,
        .GetPipeline w.cl.m_pipeline_state,
        .AcquireNextImage w.cl.m_pipeline_state.swap_chain true,
        .SetSemaphoreRenderFinished w.cl.m_pipeline_state.swap_chain semaphore,
        .vkBeginCommandBuffer cmd_buffer VK_SUCCESS,
        .vkCmdBeginRenderPass cmd_buffer 0 0 0 0,
        .vkCmdBindPipeline cmd_buffer vk_pipeline] := by
  simp only [Op.run]
  rw [Begin_ok_Sync pass_name image_index pipeline vk_pipeline w fence semaphore cmd_buffer
    h hf hbound hshader hswap hs hc hp hvk]
  rfl

/-- The trace of a frame on slot 0 followed by a `Begin` that reopens slot 0. -/
theorem scenario_reopen (c0 c1 s0 s1 f0 f1 cmd_pool shader swap_chain pipeline vk_pipeline : Ptr)
    (hshader : shader ≠ nullptr) (hswap : swap_chain ≠ nullptr)
    (hp : pipeline ≠ nullptr) (hvk : vk_pipeline ≠ nullptr) :
    (run_all (frame 0 pipeline vk_pipeline ++ [.Begin "" (begin_ok 0 pipeline vk_pipeline)])
        (two_frames_in_flight c0 c1 s0 s1 f0 f1 cmd_pool shader swap_chain)).world.trace =
      [.GetPipeline { shader_vertex := shader, swap_chain := swap_chain, rest := 0 },
        .AcquireNextImage swap_chain true,
        .SetSemaphoreRenderFinished swap_chain s0,
        .vkBeginCommandBuffer c0 VK_SUCCESS,
        .vkCmdBeginRenderPass c0 0 0 0 0,
        .vkCmdBindPipeline c0 vk_pipeline,
        .GetDescriptorPendingUpdate pipeline,
        .vkCmdDraw c0 3 1 0 0,
        .vkCmdEndRenderPass c0,
        .vkEndCommandBuffer c0 VK_SUCCESS,
        .vkQueueSubmit 0 c0 s0 f0 VK_SUCCESS,
        .vkWaitForFences f0 VK_SUCCESS,
        .vkResetFences f0 VK_SUCCESS,
        .vkResetCommandPool cmd_pool VK_SUCCESS,
        .OnCommandListConsumed pipeline,
        .GetPipeline { shader_vertex := shader, swap_chain := swap_chain, rest := 0 },
        .AcquireNextImage swap_chain true,
        .SetSemaphoreRenderFinished swap_chain s0,
        .vkBeginCommandBuffer c0 VK_SUCCESS,
        .vkCmdBeginRenderPass c0 0 0 0 0,
        .vkCmdBindPipeline c0 vk_pipeline] := by
  rw [world_run_all_snoc _ _ _ _ (scenario_frame1 c0 c1 s0 s1 f0 f1 cmd_pool shader swap_chain
    pipeline vk_pipeline hshader hswap hp hvk)]
  exact Begin_ok_Sync_trace "" 0 pipeline vk_pipeline _ f0 s0 c0 rfl rfl hp hshader hswap rfl rfl
    hp hvk

/-! ## Properties of the specification -/

/-- C1: after any sequence of calls on a command list that started in `Idle` with an empty
trace, each of `Draw`, `DrawIndexed`, `SetViewport`, `SetScissorRectangle`, `SetBufferVertex`,
`SetBufferIndex`, `SetConstantBuffer`, `SetSampler` and `SetTexture` succeeds (returns without
an error, having recorded an instruction into the active command buffer or forwarded a binding
to the bound pipeline) if and only if the state is `Recording`; in any other state it logs
"Can't record command" and leaves every data member (state tag, `m_buffer_index`, bound
pipeline) and the rest of the trace as they were. -/
theorem recording_calls_succeed_iff_Recording (w0 : World) (ops : List Op) (w : World) (op : Op)
    (h0 : w0.cl.m_cmd_state = RHI_Cmd_List_Idle) (ht0 : w0.trace = [])
    (hrun : run_all ops w0 = .ok () w) (hop : op.is_recording_call = true) :
    (Succeeded w (op.run w) ↔ w.cl.m_cmd_state = RHI_Cmd_List_Recording) ∧
    (w.cl.m_cmd_state ≠ RHI_Cmd_List_Recording → Refused w (op.run w)) := by
  have hinv : Inv w := by
    have := run_all_inv ops w0 (Inv_initial w0 h0 ht0)
    rwa [hrun] at this
  refine ⟨⟨?_, ?_⟩, recording_call_refused op w hop⟩
  · rintro ⟨evs, hevs, hne, _⟩
    by_contra hst
    have href := recording_call_refused op w hop hst
    rw [Refused, hevs] at href
    simp only [Res.ok.injEq, World.mk.injEq, true_and, List.append_cancel_left_eq] at href
    have := hne (.LOG_ERROR .cant_record) (by simp [href])
    simp [Ev.is_error] at this
  · intro hst
    obtain ⟨hlt, hpl⟩ := hinv.1 (Or.inl hst)
    obtain ⟨cmd_buffer, hc⟩ := getElem?_of_lt _ _ hlt
    obtain ⟨evs, hrun1, hne, ⟨e, he, htarget⟩, _⟩ :=
      recording_call_recorded op w cmd_buffer hop hst hc hpl
    exact ⟨evs, hrun1, hne, e, he, by rw [hc]; exact htarget⟩

/-- C1 at a concrete input: after a `Begin` that opened slot 0, `Draw` succeeds. -/
theorem recording_calls_succeed_iff_Recording_witness :
    (Succeeded (run_all [.Begin "" (begin_ok 0 7 70)]
          (two_frames_in_flight 100 101 200 201 300 301 50 1 2)).world
        (Op.run (.Draw 3 { descriptor_pending_update := nullptr, pipeline_layout := 0 })
          (run_all [.Begin "" (begin_ok 0 7 70)]
            (two_frames_in_flight 100 101 200 201 300 301 50 1 2)).world) ↔
      (run_all [.Begin "" (begin_ok 0 7 70)]
        (two_frames_in_flight 100 101 200 201 300 301 50 1 2)).world.cl.m_cmd_state
        = RHI_Cmd_List_Recording) ∧
    ((run_all [.Begin "" (begin_ok 0 7 70)]
        (two_frames_in_flight 100 101 200 201 300 301 50 1 2)).world.cl.m_cmd_state
        ≠ RHI_Cmd_List_Recording →
      Refused (run_all [.Begin "" (begin_ok 0 7 70)]
          (two_frames_in_flight 100 101 200 201 300 301 50 1 2)).world
        (Op.run (.Draw 3 { descriptor_pending_update := nullptr, pipeline_layout := 0 })
          (run_all [.Begin "" (begin_ok 0 7 70)]
            (two_frames_in_flight 100 101 200 201 300 301 50 1 2)).world)) :=
  recording_calls_succeed_iff_Recording
    (two_frames_in_flight 100 101 200 201 300 301 50 1 2)
    [.Begin "" (begin_ok 0 7 70)] _
    (.Draw 3 { descriptor_pending_update := nullptr, pipeline_layout := 0 })
    rfl rfl
    (by
      simp only [run_all, Op.run]
      rw [Begin_ok_Idle "" 0 7 70 (two_frames_in_flight 100 101 200 201 300 301 50 1 2) 200 100
        rfl (by decide) (by decide) rfl rfl (by decide) (by decide)]
      rfl)
    rfl

/-- C2: `Submit` called in any state other than `Ended` returns false after logging
"RHI_CommandList::End() must be called before calling RHI_CommandList::Submit()", makes no
queue submission and leaves every data member unchanged; in particular from `Recording` the
state stays `Recording` and does not become `Idle_Sync_Cpu_To_Gpu`. -/
theorem Submit_without_End_is_refused (env : SubmitEnv) (w : World)
    (h : w.cl.m_cmd_state ≠ RHI_Cmd_List_Ended) :
    Submit env w = .ok false { w with trace := w.trace ++ [.LOG_ERROR .end_before_submit] } ∧
    events_of (Submit env) w = [.LOG_ERROR .end_before_submit] ∧
    (Submit env w).world.cl = w.cl ∧
    (w.cl.m_cmd_state = RHI_Cmd_List_Recording →
      (Submit env w).world.cl.m_cmd_state = RHI_Cmd_List_Recording ∧
      (Submit env w).world.cl.m_cmd_state ≠ RHI_Cmd_List_Idle_Sync_Cpu_To_Gpu) := by
  have hs := Submit_not_Ended env w h
  refine ⟨hs, events_of_ok _ w false _ _ hs, by rw [hs]; rfl, fun hrec => ?_⟩
  rw [hs]
  simp [Res.world, hrec]

/-- C2 at a concrete input: `Submit` on a command list that is still `Recording`. -/
theorem Submit_without_End_is_refused_witness :
    Submit { image_index := 0, semaphore_image_acquired := 400, queue_submit := VK_SUCCESS }
        (sample_world RHI_Cmd_List_Recording) =
      .ok false { sample_world RHI_Cmd_List_Recording with
        trace := (sample_world RHI_Cmd_List_Recording).trace ++
          [.LOG_ERROR .end_before_submit] } :=
  (Submit_without_End_is_refused
    { image_index := 0, semaphore_image_acquired := 400, queue_submit := VK_SUCCESS }
    (sample_world RHI_Cmd_List_Recording) (by decide)).1

/-- C3: in every trace produced by a sequence of calls on a command list that started in
`Idle` with an empty trace, whatever the swap chain and the device answer: whenever the command
buffer of a slot is opened (`vkBeginCommandBuffer` on that slot's handle), every earlier
submission of that command buffer the device accepted is followed, before the opening, by a
successful `vkWaitForFences` on the fence handed to that submission. -/
theorem slot_reopened_only_after_fence_wait (w0 : World) (ops : List Op)
    (h0 : w0.cl.m_cmd_state = RHI_Cmd_List_Idle) (ht0 : w0.trace = [])
    (cmd_buffer : Ptr) (pre post a b : List Ev) (result : VkResult)
    (wait_semaphore signal_semaphore fence : Ptr)
    (htrace : (run_all ops w0).world.trace =
      pre ++ .vkBeginCommandBuffer cmd_buffer result :: post)
    (hpre : pre =
      a ++ .vkQueueSubmit wait_semaphore cmd_buffer signal_semaphore fence VK_SUCCESS :: b) :
    .vkWaitForFences fence VK_SUCCESS ∈ b := by
  obtain ⟨_, q, hq, _⟩ := run_all_inv ops w0 (Inv_initial w0 h0 ht0)
  exact track_waited _ q hq pre post a b cmd_buffer wait_semaphore cmd_buffer signal_semaphore
    fence result htrace hpre

/-- C3 at a concrete input: a frame on slot 0 followed by a `Begin` that reopens slot 0. -/
theorem slot_reopened_only_after_fence_wait_witness :
    Ev.vkWaitForFences 300 VK_SUCCESS ∈
      [Ev.vkWaitForFences 300 VK_SUCCESS, .vkResetFences 300 VK_SUCCESS,
        .vkResetCommandPool 50 VK_SUCCESS, .OnCommandListConsumed 7,
        .GetPipeline { shader_vertex := 1, swap_chain := 2, rest := 0 },
        .AcquireNextImage 2 true, .SetSemaphoreRenderFinished 2 200] :=
  slot_reopened_only_after_fence_wait
    (two_frames_in_flight 100 101 200 201 300 301 50 1 2)
    (frame 0 7 70 ++ [.Begin "" (begin_ok 0 7 70)])
    rfl rfl 100
    ([.GetPipeline { shader_vertex := 1, swap_chain := 2, rest := 0 },
        .AcquireNextImage 2 true,
        .SetSemaphoreRenderFinished 2 200,
        .vkBeginCommandBuffer 100 VK_SUCCESS,
        .vkCmdBeginRenderPass 100 0 0 0 0,
        .vkCmdBindPipeline 100 70,
        .GetDescriptorPendingUpdate 7,
        .vkCmdDraw 100 3 1 0 0,
        .vkCmdEndRenderPass 100,
        .vkEndCommandBuffer 100 VK_SUCCESS,
        .vkQueueSubmit 0 100 200 300 VK_SUCCESS,
        .vkWaitForFences 300 VK_SUCCESS,
        .vkResetFences 300 VK_SUCCESS,
        .vkResetCommandPool 50 VK_SUCCESS,
        .OnCommandListConsumed 7,
        .GetPipeline { shader_vertex := 1, swap_chain := 2, rest := 0 },
        .AcquireNextImage 2 true,
        .SetSemaphoreRenderFinished 2 200])
    [.vkCmdBeginRenderPass 100 0 0 0 0, .vkCmdBindPipeline 100 70]
    [.GetPipeline { shader_vertex := 1, swap_chain := 2, rest := 0 },
        .AcquireNextImage 2 true,
        .SetSemaphoreRenderFinished 2 200,
        .vkBeginCommandBuffer 100 VK_SUCCESS,
        .vkCmdBeginRenderPass 100 0 0 0 0,
        .vkCmdBindPipeline 100 70,
        .GetDescriptorPendingUpdate 7,
        .vkCmdDraw 100 3 1 0 0,
        .vkCmdEndRenderPass 100,
        .vkEndCommandBuffer 100 VK_SUCCESS]
    _ VK_SUCCESS 0 200 300
    (by
      rw [scenario_reopen 100 101 200 201 300 301 50 1 2 7 70 (by decide) (by decide)
        (by decide) (by decide)]
      rfl)
    rfl

/-- C4, as the code behaves: with two frames in flight and the swap chain assigning the slots
0, 1, 0 to three consecutive frames, each run as `Begin`, draw, `End`, `Submit` with every
device call succeeding: the `Begin` of frame 1 waits on no fence and records on
`m_buffer_index` 0; the `Begin` of frame 2 first waits on and resets the fence of slot 0 (the
one frame 1's submission signals) and then records on `m_buffer_index` 1; the `Begin` of frame 3
first waits on and resets the fence of slot 1 (the one frame 2's submission signals) and then
records on `m_buffer_index` 0. -/
theorem two_frames_in_flight_scenario
    (c0 c1 s0 s1 f0 f1 cmd_pool shader swap_chain pipeline vk_pipeline : Ptr)
    (hshader : shader ≠ nullptr) (hswap : swap_chain ≠ nullptr)
    (hp : pipeline ≠ nullptr) (hvk : vk_pipeline ≠ nullptr) :
    (events_of (Begin "" (begin_ok 0 pipeline vk_pipeline))
        (two_frames_in_flight c0 c1 s0 s1 f0 f1 cmd_pool shader swap_chain) =
      [.GetPipeline { shader_vertex := shader, swap_chain := swap_chain, rest := 0 },
        .AcquireNextImage swap_chain true,
        .SetSemaphoreRenderFinished swap_chain s0,
        .vkBeginCommandBuffer c0 VK_SUCCESS,
        .vkCmdBeginRenderPass c0 0 0 0 0,
        .vkCmdBindPipeline c0 vk_pipeline] ∧
     (Begin "" (begin_ok 0 pipeline vk_pipeline)
        (two_frames_in_flight c0 c1 s0 s1 f0 f1 cmd_pool shader swap_chain)
      ).world.cl.m_buffer_index = 0) ∧
    (events_of (Begin "" (begin_ok 1 pipeline vk_pipeline))
        (run_all (frame 0 pipeline vk_pipeline)
          (two_frames_in_flight c0 c1 s0 s1 f0 f1 cmd_pool shader swap_chain)).world =
      [.vkWaitForFences f0 VK_SUCCESS,
        .vkResetFences f0 VK_SUCCESS,
        .vkResetCommandPool cmd_pool VK_SUCCESS,
        .OnCommandListConsumed pipeline,
        .GetPipeline { shader_vertex := shader, swap_chain := swap_chain, rest := 0 },
        .AcquireNextImage swap_chain true,
        .SetSemaphoreRenderFinished swap_chain s1,
        .vkBeginCommandBuffer c1 VK_SUCCESS,
        .vkCmdBeginRenderPass c1 0 0 0 0,
        .vkCmdBindPipeline c1 vk_pipeline] ∧
     (Begin "" (begin_ok 1 pipeline vk_pipeline)
        (run_all (frame 0 pipeline vk_pipeline)
          (two_frames_in_flight c0 c1 s0 s1 f0 f1 cmd_pool shader swap_chain)).world
      ).world.cl.m_buffer_index = 1) ∧
    (events_of (Begin "" (begin_ok 0 pipeline vk_pipeline))
        (run_all (frame 0 pipeline vk_pipeline ++ frame 1 pipeline vk_pipeline)
          (two_frames_in_flight c0 c1 s0 s1 f0 f1 cmd_pool shader swap_chain)).world =
      [.vkWaitForFences f1 VK_SUCCESS,
        .vkResetFences f1 VK_SUCCESS,
        .vkResetCommandPool cmd_pool VK_SUCCESS,
        .OnCommandListConsumed pipeline,
        .GetPipeline { shader_vertex := shader, swap_chain := swap_chain, rest := 0 },
        .AcquireNextImage swap_chain true,
        .SetSemaphoreRenderFinished swap_chain s0,
        .vkBeginCommandBuffer c0 VK_SUCCESS,
        .vkCmdBeginRenderPass c0 0 0 0 0,
        .vkCmdBindPipeline c0 vk_pipeline] ∧
     (Begin "" (begin_ok 0 pipeline vk_pipeline)
        (run_all (frame 0 pipeline vk_pipeline ++ frame 1 pipeline vk_pipeline)
          (two_frames_in_flight c0 c1 s0 s1 f0 f1 cmd_pool shader swap_chain)).world
      ).world.cl.m_buffer_index = 0) :=
  ⟨scenario_begin1 c0 c1 s0 s1 f0 f1 cmd_pool shader swap_chain pipeline vk_pipeline hshader
      hswap hp hvk,
   scenario_begin2 c0 c1 s0 s1 f0 f1 cmd_pool shader swap_chain pipeline vk_pipeline hshader
      hswap hp hvk,
   scenario_begin3 c0 c1 s0 s1 f0 f1 cmd_pool shader swap_chain pipeline vk_pipeline hshader
      hswap hp hvk⟩

/-- C4 as the code behaves, at concrete handles: the `Begin` of frame 3 starts with a wait on
the fence `301` of slot 1 and records on `m_buffer_index` 0. -/
theorem two_frames_in_flight_scenario_witness :
    events_of (Begin "" (begin_ok 0 7 70))
        (run_all (frame 0 7 70 ++ frame 1 7 70)
          (two_frames_in_flight 100 101 200 201 300 301 50 1 2)).world =
      [.vkWaitForFences 301 VK_SUCCESS,
        .vkResetFences 301 VK_SUCCESS,
        .vkResetCommandPool 50 VK_SUCCESS,
        .OnCommandListConsumed 7,
        .GetPipeline { shader_vertex := 1, swap_chain := 2, rest := 0 },
        .AcquireNextImage 2 true,
        .SetSemaphoreRenderFinished 2 200,
        .vkBeginCommandBuffer 100 VK_SUCCESS,
        .vkCmdBeginRenderPass 100 0 0 0 0,
        .vkCmdBindPipeline 100 70] ∧
     (Begin "" (begin_ok 0 7 70)
        (run_all (frame 0 7 70 ++ frame 1 7 70)
          (two_frames_in_flight 100 101 200 201 300 301 50 1 2)).world
      ).world.cl.m_buffer_index = 0 :=
  (two_frames_in_flight_scenario 100 101 200 201 300 301 50 1 2 7 70 (by decide) (by decide)
    (by decide) (by decide)).2.2

/-- C4 as stated fails: with the slots holding the fences `300` and `301`, the `Begin` of
frame 2 does wait on a fence (the fence `300` of slot 0), and the `Begin` of frame 3 does not
wait on the fence `300` that frame 1's submission signals. -/
theorem two_frames_in_flight_as_stated_fails :
    Ev.vkWaitForFences 300 VK_SUCCESS ∈
      events_of (Begin "" (begin_ok 1 7 70))
        (run_all (frame 0 7 70)
          (two_frames_in_flight 100 101 200 201 300 301 50 1 2)).world ∧
    Ev.vkWaitForFences 300 VK_SUCCESS ∉
      events_of (Begin "" (begin_ok 0 7 70))
        (run_all (frame 0 7 70 ++ frame 1 7 70)
          (two_frames_in_flight 100 101 200 201 300 301 50 1 2)).world := by
  rw [(scenario_begin2 100 101 200 201 300 301 50 1 2 7 70 (by decide) (by decide)
      (by decide) (by decide)).1,
    (scenario_begin3 100 101 200 201 300 301 50 1 2 7 70 (by decide) (by decide)
      (by decide) (by decide)).1]
  simp

/-- C5: `Submit` called in `Ended`, with a swap chain whose image index equals
`m_buffer_index`, the active slot holding its command buffer, semaphore and fence, and the
device accepting the submission, makes exactly one call, a `vkQueueSubmit` that names the
command buffer, the signal semaphore and the fence of the slot `m_buffer_index`; it waits on
no fence, returns true and moves the state to `Idle_Sync_Cpu_To_Gpu`, every other data member
unchanged. -/
theorem Submit_in_Ended_submits_once (env : SubmitEnv) (w : World)
    (cmd_buffer semaphore fence : Ptr)
    (h : w.cl.m_cmd_state = RHI_Cmd_List_Ended)
    (hswap : w.cl.m_pipeline_state.swap_chain ≠ nullptr)
    (hsync : w.cl.m_buffer_index = env.image_index)
    (hc : w.cl.m_cmd_buffers[w.cl.m_buffer_index]? = some cmd_buffer)
    (hs : w.cl.m_semaphores_cmd_list_consumed[w.cl.m_buffer_index]? = some semaphore)
    (hf : w.cl.m_fences_in_flight[w.cl.m_buffer_index]? = some fence)
    (haccept : env.queue_submit = VK_SUCCESS) :
    Submit env w = .ok true
      { cl := { w.cl with m_cmd_state := RHI_Cmd_List_Idle_Sync_Cpu_To_Gpu },
        trace := w.trace ++
          [.vkQueueSubmit env.semaphore_image_acquired cmd_buffer semaphore fence VK_SUCCESS] } ∧
    events_of (Submit env) w =
      [.vkQueueSubmit env.semaphore_image_acquired cmd_buffer semaphore fence VK_SUCCESS] := by
  have hsub := Submit_Ended env w cmd_buffer semaphore fence h hswap hsync hc hs hf
  simp only [haccept, if_true] at hsub
  exact ⟨hsub, events_of_ok _ w true _ _ hsub⟩

/-- C5 at a concrete input: slot 0 of a command list in `Ended`. -/
theorem Submit_in_Ended_submits_once_witness :
    events_of
        (Submit { image_index := 0, semaphore_image_acquired := 400, queue_submit := VK_SUCCESS })
        (sample_world RHI_Cmd_List_Ended) =
      [.vkQueueSubmit 400 100 200 300 VK_SUCCESS] :=
  (Submit_in_Ended_submits_once
    { image_index := 0, semaphore_image_acquired := 400, queue_submit := VK_SUCCESS }
    (sample_world RHI_Cmd_List_Ended) 100 200 300 rfl (by decide) rfl rfl rfl rfl rfl).2

/-- C6: when the device rejects the queue submission (`vkQueueSubmit` answers a code other
than `VK_SUCCESS`), `Submit` called in `Ended` logs the code and returns false, the state
stays `Ended` (it does not become `Idle_Sync_Cpu_To_Gpu`) with every data member unchanged,
and a `Begin` called next waits on no fence. -/
theorem Submit_rejected_stays_Ended (env : SubmitEnv) (w : World)
    (cmd_buffer semaphore fence : Ptr)
    (h : w.cl.m_cmd_state = RHI_Cmd_List_Ended)
    (hswap : w.cl.m_pipeline_state.swap_chain ≠ nullptr)
    (hsync : w.cl.m_buffer_index = env.image_index)
    (hc : w.cl.m_cmd_buffers[w.cl.m_buffer_index]? = some cmd_buffer)
    (hs : w.cl.m_semaphores_cmd_list_consumed[w.cl.m_buffer_index]? = some semaphore)
    (hf : w.cl.m_fences_in_flight[w.cl.m_buffer_index]? = some fence)
    (hreject : env.queue_submit ≠ VK_SUCCESS) :
    Submit env w = .ok false
      { w with trace := w.trace ++
          [.vkQueueSubmit env.semaphore_image_acquired cmd_buffer semaphore fence
              env.queue_submit,
            .LOG_ERROR (.vk_result env.queue_submit)] } ∧
    (Submit env w).world.cl.m_cmd_state = RHI_Cmd_List_Ended ∧
    (Submit env w).world.cl.m_cmd_state ≠ RHI_Cmd_List_Idle_Sync_Cpu_To_Gpu ∧
    ∀ (pass_name : String) (next : BeginEnv) (waited : Ptr) (result : VkResult),
      Ev.vkWaitForFences waited result ∉
        events_of (Begin pass_name next) (Submit env w).world := by
  have hsub := Submit_Ended env w cmd_buffer semaphore fence h hswap hsync hc hs hf
  simp only [hreject, if_false] at hsub
  refine ⟨hsub, ?_, ?_, ?_⟩
  · rw [hsub]
    exact h
  · rw [hsub]
    simp [Res.world, h]
  · intro pass_name next waited result
    rw [hsub]
    simp only [Res.world]
    have hb := Begin_busy pass_name next
      { w with trace := w.trace ++
          [.vkQueueSubmit env.semaphore_image_acquired cmd_buffer semaphore fence
              env.queue_submit,
            .LOG_ERROR (.vk_result env.queue_submit)] } (Or.inr h)
    rw [events_of_ok _ _ () _ _ hb]
    simp

/-- C6 at a concrete input: the device answers `VK_ERROR_DEVICE_LOST` (-4). -/
theorem Submit_rejected_stays_Ended_witness :
    (Submit { image_index := 0, semaphore_image_acquired := 400, queue_submit := -4 }
        (sample_world RHI_Cmd_List_Ended)).world.cl.m_cmd_state = RHI_Cmd_List_Ended :=
  (Submit_rejected_stays_Ended
    { image_index := 0, semaphore_image_acquired := 400, queue_submit := -4 }
    (sample_world RHI_Cmd_List_Ended) 100 200 300 rfl (by decide) rfl rfl rfl rfl
    (by decide)).2.1

/-- C7, as the code behaves: `End` called in `Recording`, the active slot holding its command
buffer, records `vkCmdEndRenderPass` into that command buffer and calls `vkEndCommandBuffer`
on it; when the device answers `VK_SUCCESS` the state becomes `Ended`, otherwise the code is
logged and the state stays `Recording`. No other data member changes. -/
theorem End_in_Recording (env : EndEnv) (w : World) (cmd_buffer : Ptr)
    (h : w.cl.m_cmd_state = RHI_Cmd_List_Recording)
    (hc : w.cl.m_cmd_buffers[w.cl.m_buffer_index]? = some cmd_buffer) :
    End env w = .ok ()
      { cl := if env.end_command_buffer = VK_SUCCESS then
                { w.cl with m_cmd_state := RHI_Cmd_List_Ended } else w.cl,
        trace := w.trace ++ [.vkCmdEndRenderPass cmd_buffer,
          .vkEndCommandBuffer cmd_buffer env.end_command_buffer] ++
          (if env.end_command_buffer = VK_SUCCESS then []
           else [.LOG_ERROR (.vk_result env.end_command_buffer)]) ++
          (if env.debug_marker then [.vkCmdDebugMarkerEnd cmd_buffer] else []) } ∧
    (env.end_command_buffer = VK_SUCCESS →
      (End env w).world.cl.m_cmd_state = RHI_Cmd_List_Ended) ∧
    (env.end_command_buffer ≠ VK_SUCCESS →
      (End env w).world.cl.m_cmd_state = RHI_Cmd_List_Recording) := by
  have hend := End_Recording env w cmd_buffer h hc
  refine ⟨hend, fun hok => ?_, fun hbad => ?_⟩
  · rw [hend]
    simp [Res.world, hok]
  · rw [hend]
    simp [Res.world, hbad, h]

/-- C7 as the code behaves, at a concrete input: the device accepts the finalization. -/
theorem End_in_Recording_witness :
    (End { end_command_buffer := VK_SUCCESS, debug_marker := false }
        (sample_world RHI_Cmd_List_Recording)).world.cl.m_cmd_state = RHI_Cmd_List_Ended :=
  (End_in_Recording { end_command_buffer := VK_SUCCESS, debug_marker := false }
    (sample_world RHI_Cmd_List_Recording) 100 rfl rfl).2.1 rfl

/-- C7 as stated fails: when `vkEndCommandBuffer` answers `VK_ERROR_DEVICE_LOST` (-4), `End`
called in `Recording` leaves the state `Recording`, not `Ended`. -/
theorem End_may_leave_Recording :
    (sample_world RHI_Cmd_List_Recording).cl.m_cmd_state = RHI_Cmd_List_Recording ∧
    (End { end_command_buffer := -4, debug_marker := false }
        (sample_world RHI_Cmd_List_Recording)).world.cl.m_cmd_state
      = RHI_Cmd_List_Recording ∧
    (End { end_command_buffer := -4, debug_marker := false }
        (sample_world RHI_Cmd_List_Recording)).world.cl.m_cmd_state
      ≠ RHI_Cmd_List_Ended := by
  rw [End_Recording { end_command_buffer := -4, debug_marker := false }
    (sample_world RHI_Cmd_List_Recording) 100 rfl rfl]
  decide

/-- C8: `Begin` called in `Recording` or `Ended` logs "Previous command list is still being
used", and `End` called in `Idle`, `Idle_Sync_Cpu_To_Gpu` or `Ended` logs "Can't record
command"; either call then returns with every data member (state tag, `m_buffer_index`, bound
pipeline) unchanged and without any other call, so no command buffer is touched. -/
theorem Begin_End_out_of_order_ignored (pass_name : String) (env : BeginEnv) (end_env : EndEnv)
    (w : World) :
    (w.cl.m_cmd_state = RHI_Cmd_List_Recording ∨ w.cl.m_cmd_state = RHI_Cmd_List_Ended →
      Begin pass_name env w =
        .ok () { w with trace := w.trace ++ [.LOG_ERROR .previous_still_used] }) ∧
    (w.cl.m_cmd_state = RHI_Cmd_List_Idle ∨
        w.cl.m_cmd_state = RHI_Cmd_List_Idle_Sync_Cpu_To_Gpu ∨
        w.cl.m_cmd_state = RHI_Cmd_List_Ended →
      End end_env w = .ok () { w with trace := w.trace ++ [.LOG_ERROR .cant_record] }) := by
  refine ⟨Begin_busy pass_name env w, fun h => End_not_Recording end_env w ?_⟩
  rcases h with h | h | h <;> simp [h]

/-- C8 at concrete inputs: `Begin` on a command list in `Ended`, `End` on one in `Idle`. -/
theorem Begin_End_out_of_order_ignored_witness :
    Begin "" (begin_ok 0 7 70) (sample_world RHI_Cmd_List_Ended) =
      .ok () { sample_world RHI_Cmd_List_Ended with
        trace := (sample_world RHI_Cmd_List_Ended).trace ++
          [.LOG_ERROR .previous_still_used] } ∧
    End { end_command_buffer := VK_SUCCESS, debug_marker := false }
        (sample_world RHI_Cmd_List_Idle) =
      .ok () { sample_world RHI_Cmd_List_Idle with
        trace := (sample_world RHI_Cmd_List_Idle).trace ++ [.LOG_ERROR .cant_record] } :=
  ⟨(Begin_End_out_of_order_ignored "" (begin_ok 0 7 70)
      { end_command_buffer := VK_SUCCESS, debug_marker := false }
      (sample_world RHI_Cmd_List_Ended)).1 (Or.inr rfl),
   (Begin_End_out_of_order_ignored "" (begin_ok 0 7 70)
      { end_command_buffer := VK_SUCCESS, debug_marker := false }
      (sample_world RHI_Cmd_List_Idle)).2 (Or.inl rfl)⟩

/-- C9: `Begin` called in `Idle` while the pipeline state names no vertex shader returns at
once: the world is the one before the call (state `Idle`, same `m_buffer_index`, same bound
pipeline) and no call was made, so the pipeline cache is not queried, no image is acquired and
no instruction is recorded. -/
theorem Begin_without_vertex_shader_is_noop (pass_name : String) (env : BeginEnv) (w : World)
    (h : w.cl.m_cmd_state = RHI_Cmd_List_Idle)
    (hshader : w.cl.m_pipeline_state.shader_vertex = nullptr) :
    Begin pass_name env w = .ok () w ∧ events_of (Begin pass_name env) w = [] := by
  have hb : Begin pass_name env w = .ok () w := by
    rw [Begin_Idle pass_name env w h]
    simp [hshader]
  refine ⟨hb, ?_⟩
  simp [events_of, hb, Res.world]

/-- C9 at a concrete input: a fresh command list whose pipeline state has no vertex shader. -/
theorem Begin_without_vertex_shader_is_noop_witness :
    Begin "" (begin_ok 0 7 70) (two_frames_in_flight 100 101 200 201 300 301 50 0 2) =
      .ok () (two_frames_in_flight 100 101 200 201 300 301 50 0 2) :=
  (Begin_without_vertex_shader_is_noop "" (begin_ok 0 7 70)
    (two_frames_in_flight 100 101 200 201 300 301 50 0 2) rfl rfl).1

/-- C10: `Begin` called in `Idle_Sync_Cpu_To_Gpu`, with the active slot holding its fence, a
pipeline bound and the device answering `VK_SUCCESS` to the three calls, first waits on the
fence `m_fences_in_flight[m_buffer_index]` and resets it, then resets the command pool the
slot's command buffer comes from, then tells the bound pipeline that the command list was
consumed, then sets the state to `Idle`; the rest of `Begin` (the vertex-shader check, the
pipeline-cache lookup, the image acquisition) runs after that, from that `Idle` world. -/
theorem Begin_syncs_first (pass_name : String) (env : BeginEnv) (w : World) (fence : Ptr)
    (h : w.cl.m_cmd_state = RHI_Cmd_List_Idle_Sync_Cpu_To_Gpu)
    (hf : w.cl.m_fences_in_flight[w.cl.m_buffer_index]? = some fence)
    (hp : w.cl.m_pipeline ≠ nullptr)
    (hwait : env.wait_for_fences = VK_SUCCESS) (hreset : env.reset_fences = VK_SUCCESS)
    (hpool : env.reset_command_pool = VK_SUCCESS) :
    Begin pass_name env w =
      Begin pass_name env
        { cl := { w.cl with m_cmd_state := RHI_Cmd_List_Idle },
          trace := w.trace ++ [.vkWaitForFences fence VK_SUCCESS,
            .vkResetFences fence VK_SUCCESS,
            .vkResetCommandPool w.cl.m_cmd_pool VK_SUCCESS,
            .OnCommandListConsumed w.cl.m_pipeline] } ∧
    events_of (Begin pass_name env) w =
      [.vkWaitForFences fence VK_SUCCESS,
        .vkResetFences fence VK_SUCCESS,
        .vkResetCommandPool w.cl.m_cmd_pool VK_SUCCESS,
        .OnCommandListConsumed w.cl.m_pipeline] ++
      events_of (Begin pass_name env)
        { cl := { w.cl with m_cmd_state := RHI_Cmd_List_Idle },
          trace := w.trace ++ [.vkWaitForFences fence VK_SUCCESS,
            .vkResetFences fence VK_SUCCESS,
            .vkResetCommandPool w.cl.m_cmd_pool VK_SUCCESS,
            .OnCommandListConsumed w.cl.m_pipeline] } := by
  have heq : Begin pass_name env w =
      Begin pass_name env
        { cl := { w.cl with m_cmd_state := RHI_Cmd_List_Idle },
          trace := w.trace ++ [.vkWaitForFences fence VK_SUCCESS,
            .vkResetFences fence VK_SUCCESS,
            .vkResetCommandPool w.cl.m_cmd_pool VK_SUCCESS,
            .OnCommandListConsumed w.cl.m_pipeline] } := by
    rw [Begin_after_sync pass_name env w h,
      Begin_sync_pending env w fence h hf hp hwait hreset hpool]
  refine ⟨heq, ?_⟩
  obtain ⟨evs, hevs⟩ := Begin_Idle_extends pass_name env
    { cl := { w.cl with m_cmd_state := RHI_Cmd_List_Idle },
      trace := w.trace ++ [.vkWaitForFences fence VK_SUCCESS,
        .vkResetFences fence VK_SUCCESS,
        .vkResetCommandPool w.cl.m_cmd_pool VK_SUCCESS,
        .OnCommandListConsumed w.cl.m_pipeline] } rfl
  simp only [events_of, heq, hevs]
  simp

/-- C10 at a concrete input: the `Begin` that follows a submission on slot 0 starts with the
wait on the fence `300` of slot 0. -/
theorem Begin_syncs_first_witness :
    Begin "" (begin_ok 1 7 70) (sample_world RHI_Cmd_List_Idle_Sync_Cpu_To_Gpu) =
      Begin "" (begin_ok 1 7 70)
        { cl := { (sample_world RHI_Cmd_List_Idle_Sync_Cpu_To_Gpu).cl with
                    m_cmd_state := RHI_Cmd_List_Idle },
          trace := (sample_world RHI_Cmd_List_Idle_Sync_Cpu_To_Gpu).trace ++
            [.vkWaitForFences 300 VK_SUCCESS,
              .vkResetFences 300 VK_SUCCESS,
              .vkResetCommandPool
                (sample_world RHI_Cmd_List_Idle_Sync_Cpu_To_Gpu).cl.m_cmd_pool VK_SUCCESS,
              .OnCommandListConsumed
                (sample_world RHI_Cmd_List_Idle_Sync_Cpu_To_Gpu).cl.m_pipeline] } :=
  (Begin_syncs_first "" (begin_ok 1 7 70) (sample_world RHI_Cmd_List_Idle_Sync_Cpu_To_Gpu) 300
    rfl rfl (by decide) rfl rfl rfl).1

/-! ## A Begin that passes validation -/

/-- The result of a `Begin` from `Idle` that passes every check. -/
theorem Begin_valid (pass_name : String) (env : BeginEnv) (w : World)
    (semaphore cmd_buffer : Ptr)
    (h : w.cl.m_cmd_state = RHI_Cmd_List_Idle)
    (hshader : w.cl.m_pipeline_state.shader_vertex ≠ nullptr)
    (hswap : w.cl.m_pipeline_state.swap_chain ≠ nullptr)
    (hacq : env.acquire_next_image = true)
    (hs : w.cl.m_semaphores_cmd_list_consumed[env.image_index]? = some semaphore)
    (hc : w.cl.m_cmd_buffers[env.image_index]? = some cmd_buffer)
    (hbegin : env.begin_command_buffer = VK_SUCCESS)
    (hcache : env.cache_pipeline ≠ nullptr) (hvk : env.vk_pipeline ≠ nullptr) :
    Begin pass_name env w = .ok ()
      { cl := { w.cl with m_pipeline := env.cache_pipeline,
                          m_buffer_index := env.image_index,
                          m_cmd_state := RHI_Cmd_List_Recording },
        trace := w.trace ++ ([.GetPipeline w.cl.m_pipeline_state,
          .AcquireNextImage w.cl.m_pipeline_state.swap_chain true,
          .SetSemaphoreRenderFinished w.cl.m_pipeline_state.swap_chain semaphore,
          .vkBeginCommandBuffer cmd_buffer VK_SUCCESS,
          .vkCmdBeginRenderPass cmd_buffer env.render_pass env.frame_buffer env.width
            env.height,
          .vkCmdBindPipeline cmd_buffer env.vk_pipeline] ++
          if env.debug_marker then [.vkCmdDebugMarkerBegin cmd_buffer pass_name] else []) } := by
  rw [Begin_Idle pass_name env w h, Begin_record_eq]
  simp [hshader, hswap, hacq, hs, hc, hbegin, hcache, hvk]

/-- C11, as the code behaves: a `Begin` from `Idle` that passes validation (vertex shader
present, swap chain present and image acquired, the assigned slot holding a semaphore and a
command buffer, `vkBeginCommandBuffer` succeeding, the cache handing out a pipeline with a
native handle) looks the pipeline up in the cache with the current description, sets
`m_buffer_index` to the image index of the swap chain, records into that slot's command buffer
`vkBeginCommandBuffer`, `vkCmdBeginRenderPass` (render pass, framebuffer and extent of the swap
chain, one clear value) and `vkCmdBindPipeline`, in this order, followed by a
`vkCmdDebugMarkerBegin` carrying the pass name when the build defines `DEBUG` and debug markers
are active, and ends in `Recording`. -/
theorem Begin_records_pass_begin (pass_name : String) (env : BeginEnv) (w : World)
    (semaphore cmd_buffer : Ptr)
    (h : w.cl.m_cmd_state = RHI_Cmd_List_Idle)
    (hshader : w.cl.m_pipeline_state.shader_vertex ≠ nullptr)
    (hswap : w.cl.m_pipeline_state.swap_chain ≠ nullptr)
    (hacq : env.acquire_next_image = true)
    (hs : w.cl.m_semaphores_cmd_list_consumed[env.image_index]? = some semaphore)
    (hc : w.cl.m_cmd_buffers[env.image_index]? = some cmd_buffer)
    (hbegin : env.begin_command_buffer = VK_SUCCESS)
    (hcache : env.cache_pipeline ≠ nullptr) (hvk : env.vk_pipeline ≠ nullptr) :
    (∃ rest, events_of (Begin pass_name env) w = .GetPipeline w.cl.m_pipeline_state :: rest) ∧
    (Begin pass_name env w).world.cl.m_pipeline = env.cache_pipeline ∧
    (Begin pass_name env w).world.cl.m_buffer_index = env.image_index ∧
    instructions (events_of (Begin pass_name env) w) =
      [.vkBeginCommandBuffer cmd_buffer VK_SUCCESS,
        .vkCmdBeginRenderPass cmd_buffer env.render_pass env.frame_buffer env.width env.height,
        .vkCmdBindPipeline cmd_buffer env.vk_pipeline] ++
      (if env.debug_marker then [.vkCmdDebugMarkerBegin cmd_buffer pass_name] else []) ∧
    (Begin pass_name env w).world.cl.m_cmd_state = RHI_Cmd_List_Recording := by
  have hb := Begin_valid pass_name env w semaphore cmd_buffer h hshader hswap hacq hs hc hbegin
    hcache hvk
  have hev := events_of_ok _ w () _ _ hb
  refine ⟨⟨_, by rw [hev]; rfl⟩, by rw [hb]; rfl, by rw [hb]; rfl, ?_, by rw [hb]; rfl⟩
  rw [hev]
  by_cases hd : env.debug_marker = true <;> simp [instructions, Ev.recorded_into, hd]

/-- C11 as the code behaves, at a concrete input: a release build opens slot 1. -/
theorem Begin_records_pass_begin_witness :
    instructions (events_of (Begin "" (begin_ok 1 7 70)) (sample_world RHI_Cmd_List_Idle)) =
      [.vkBeginCommandBuffer 101 VK_SUCCESS,
        .vkCmdBeginRenderPass 101 0 0 0 0,
        .vkCmdBindPipeline 101 70] ++
      (if (begin_ok 1 7 70).debug_marker then [.vkCmdDebugMarkerBegin 101 ""] else []) :=
  (Begin_records_pass_begin "" (begin_ok 1 7 70) (sample_world RHI_Cmd_List_Idle) 201 101
    rfl (by decide) (by decide) rfl rfl rfl rfl (by decide) (by decide)).2.2.2.1

/-- C11 as stated fails: in a debug build with active debug markers, a `Begin` that passes
validation records four instructions into the command buffer `100` of slot 0, the fourth being
the debug marker, not exactly the three named. -/
theorem Begin_debug_build_records_marker :
    instructions (events_of
        (Begin "pass" { begin_ok 0 7 70 with debug_marker := true })
        (sample_world RHI_Cmd_List_Idle)) =
      [.vkBeginCommandBuffer 100 VK_SUCCESS,
        .vkCmdBeginRenderPass 100 0 0 0 0,
        .vkCmdBindPipeline 100 70,
        .vkCmdDebugMarkerBegin 100 "pass"] ∧
    instructions (events_of
        (Begin "pass" { begin_ok 0 7 70 with debug_marker := true })
        (sample_world RHI_Cmd_List_Idle)) ≠
      [.vkBeginCommandBuffer 100 VK_SUCCESS,
        .vkCmdBeginRenderPass 100 0 0 0 0,
        .vkCmdBindPipeline 100 70] := by
  have hb := Begin_valid "pass" { begin_ok 0 7 70 with debug_marker := true }
    (sample_world RHI_Cmd_List_Idle) 200 100 rfl (by decide) (by decide) rfl rfl rfl rfl
    (by decide) (by decide)
  rw [events_of_ok _ _ () _ _ hb]
  simp [instructions, Ev.recorded_into, begin_ok]

/-- C12: `Submit` called in `Ended` on a command list whose `m_buffer_index` differs from the
image index the swap chain reports fails the assertion before any other call: the run stops
with the world as it was, so no `vkQueueSubmit` is made and the state is still `Ended`, not
`Idle_Sync_Cpu_To_Gpu`. -/
theorem Submit_out_of_sync_asserts (env : SubmitEnv) (w : World)
    (h : w.cl.m_cmd_state = RHI_Cmd_List_Ended)
    (hswap : w.cl.m_pipeline_state.swap_chain ≠ nullptr)
    (hsync : w.cl.m_buffer_index ≠ env.image_index) :
    Submit env w = .fault .assertion_failed w ∧
    events_of (Submit env) w = [] ∧
    (Submit env w).world.cl.m_cmd_state = RHI_Cmd_List_Ended ∧
    (Submit env w).world.cl.m_cmd_state ≠ RHI_Cmd_List_Idle_Sync_Cpu_To_Gpu := by
  have hs : Submit env w = .fault .assertion_failed w := by
    simp [Submit, Exec.seq, members, h, deref, hswap, SPARTAN_ASSERT, hsync]
  refine ⟨hs, by simp [events_of, hs, Res.world], by rw [hs]; exact h, ?_⟩
  rw [hs]
  simp [Res.world, h]

/-- C12 at a concrete input: the command list is on slot 0, the swap chain reports image 1. -/
theorem Submit_out_of_sync_asserts_witness :
    Submit { image_index := 1, semaphore_image_acquired := 400, queue_submit := VK_SUCCESS }
        (sample_world RHI_Cmd_List_Ended) =
      .fault .assertion_failed (sample_world RHI_Cmd_List_Ended) :=
  (Submit_out_of_sync_asserts
    { image_index := 1, semaphore_image_acquired := 400, queue_submit := VK_SUCCESS }
    (sample_world RHI_Cmd_List_Ended) rfl (by decide) (by decide)).1

/-! ## Draws and bindings -/

/-- A world reached through the interface satisfies the invariant. -/
theorem Inv_of_run (w0 : World) (ops : List Op) (w : World)
    (h0 : w0.cl.m_cmd_state = RHI_Cmd_List_Idle) (ht0 : w0.trace = [])
    (hrun : run_all ops w0 = .ok () w) : Inv w := by
  have := run_all_inv ops w0 (Inv_initial w0 h0 ht0)
  rwa [hrun] at this

/-- In `Recording`, a world reached through the interface has a command buffer in its active
slot and a pipeline bound. -/
theorem Recording_slot (w0 : World) (ops : List Op) (w : World)
    (h0 : w0.cl.m_cmd_state = RHI_Cmd_List_Idle) (ht0 : w0.trace = [])
    (hrun : run_all ops w0 = .ok () w) (h : w.cl.m_cmd_state = RHI_Cmd_List_Recording) :
    (∃ cmd_buffer, w.cl.m_cmd_buffers[w.cl.m_buffer_index]? = some cmd_buffer) ∧
    w.cl.m_pipeline ≠ nullptr := by
  obtain ⟨hlt, hpl⟩ := (Inv_of_run w0 ops w h0 ht0 hrun).1 (Or.inl h)
  exact ⟨getElem?_of_lt _ _ hlt, hpl⟩

theorem instructions_append (xs ys : List Ev) :
    instructions (xs ++ ys) = instructions xs ++ instructions ys := by
  simp [instructions]

/-- C13: in `Recording`, in any world reached by a sequence of calls from `Idle`, the
instructions `Draw` and `DrawIndexed` record into the active command buffer are: the bind of
the pending descriptor set at set 0 followed by the draw when the bound pipeline reports a
pending descriptor set, the draw alone when it reports none. The draw is `vkCmdDraw` with
(vertex_count, 1, 0, 0), respectively `vkCmdDrawIndexed` with (index_count, 1, index_offset,
vertex_offset, 0), and the state stays `Recording`. -/
theorem Draw_flushes_pending_descriptor_set (w0 : World) (ops : List Op) (w : World)
    (vertex_count index_count index_offset vertex_offset : Nat) (env : DrawEnv)
    (h0 : w0.cl.m_cmd_state = RHI_Cmd_List_Idle) (ht0 : w0.trace = [])
    (hrun : run_all ops w0 = .ok () w) (h : w.cl.m_cmd_state = RHI_Cmd_List_Recording) :
    ∃ cmd_buffer, w.cl.m_cmd_buffers[w.cl.m_buffer_index]? = some cmd_buffer ∧
      instructions (events_of (Draw vertex_count env) w) =
        (if env.descriptor_pending_update ≠ nullptr then
          [.vkCmdBindDescriptorSets cmd_buffer env.pipeline_layout 0
            env.descriptor_pending_update]
         else []) ++ [.vkCmdDraw cmd_buffer vertex_count 1 0 0] ∧
      instructions (events_of (DrawIndexed index_count index_offset vertex_offset env) w) =
        (if env.descriptor_pending_update ≠ nullptr then
          [.vkCmdBindDescriptorSets cmd_buffer env.pipeline_layout 0
            env.descriptor_pending_update]
         else []) ++
        [.vkCmdDrawIndexed cmd_buffer index_count 1 index_offset vertex_offset 0] ∧
      (Draw vertex_count env w).world.cl.m_cmd_state = RHI_Cmd_List_Recording ∧
      (DrawIndexed index_count index_offset vertex_offset env w).world.cl.m_cmd_state =
        RHI_Cmd_List_Recording := by
  obtain ⟨⟨cmd_buffer, hc⟩, hp⟩ := Recording_slot w0 ops w h0 ht0 hrun h
  have hd := Draw_Recording vertex_count env w cmd_buffer h hc hp
  have hi := DrawIndexed_Recording index_count index_offset vertex_offset env w cmd_buffer
    h hc hp
  refine ⟨cmd_buffer, hc, ?_, ?_, by rw [hd]; exact h, by rw [hi]; exact h⟩
  · rw [events_of_ok _ w () _ _ hd]
    by_cases hpend : env.descriptor_pending_update = nullptr <;>
      simp [instructions, Ev.recorded_into, hpend]
  · rw [events_of_ok _ w () _ _ hi]
    by_cases hpend : env.descriptor_pending_update = nullptr <;>
      simp [instructions, Ev.recorded_into, hpend]

/-- The `Begin` of a first pass on slot 0 leads to `first_pass_world`. -/
theorem first_pass_open :
    run_all [.Begin "" (begin_ok 0 7 70)]
        (two_frames_in_flight 100 101 200 201 300 301 50 1 2) = .ok () first_pass_world := by
  simp only [run_all, Op.run]
  rw [Begin_ok_Idle "" 0 7 70 (two_frames_in_flight 100 101 200 201 300 301 50 1 2) 200 100
    rfl (by decide) (by decide) rfl rfl (by decide) (by decide)]
  rfl

/-- C13 at a concrete input: a draw with the descriptor set `9` pending records the bind and
then the draw into the command buffer `100`. -/
theorem Draw_flushes_pending_descriptor_set_witness :
    instructions (events_of
        (Draw 3 { descriptor_pending_update := 9, pipeline_layout := 60 }) first_pass_world) =
      [.vkCmdBindDescriptorSets 100 60 0 9, .vkCmdDraw 100 3 1 0 0] := by
  obtain ⟨cmd_buffer, hc, hd, _⟩ := Draw_flushes_pending_descriptor_set
    (two_frames_in_flight 100 101 200 201 300 301 50 1 2) [.Begin "" (begin_ok 0 7 70)]
    first_pass_world 3 6 0 0 { descriptor_pending_update := 9, pipeline_layout := 60 }
    rfl rfl first_pass_open rfl
  have hcb : cmd_buffer = 100 := by
    have : first_pass_world.cl.m_cmd_buffers[first_pass_world.cl.m_buffer_index]? = some 100 :=
      rfl
    rw [this] at hc
    exact (Option.some.inj hc).symm
  rw [hd, hcb]
  rfl

theorem table_dirty_append (pipeline : Ptr) (dirty : Bool) (t u : List Ev) :
    table_dirty pipeline dirty (t ++ u) =
      table_dirty pipeline (table_dirty pipeline dirty t) u := by
  induction t generalizing dirty with
  | nil => rfl
  | cons e t ih =>
    simp only [List.cons_append, table_dirty]
    exact ih _

/-- Two bindings of the same texture to the same slot, in `Recording`. -/
theorem SetTexture_twice (slot texture black_texture : Ptr) (w : World)
    (h : w.cl.m_cmd_state = RHI_Cmd_List_Recording) (hp : w.cl.m_pipeline ≠ nullptr) :
    run_all [.SetTexture slot texture black_texture, .SetTexture slot texture black_texture]
        w = .ok ()
      { w with trace := w.trace ++
          [.Pipeline_SetTexture w.cl.m_pipeline slot
              (if texture = nullptr then black_texture else texture),
            .Pipeline_SetTexture w.cl.m_pipeline slot
              (if texture = nullptr then black_texture else texture)] } := by
  have h1 := SetTexture_Recording slot texture black_texture w h hp
  have h2 := SetTexture_Recording slot texture black_texture
    { w with trace := w.trace ++ [.Pipeline_SetTexture w.cl.m_pipeline slot
        (if texture = nullptr then black_texture else texture)] } h hp
  simp only [List.append_assoc, List.cons_append, List.nil_append] at h2
  simp only [run_all, Op.run, h1, h2]

/-- C14: in `Recording`, in any world reached by a sequence of calls from `Idle`, each of
`SetConstantBuffer`, `SetSampler` and `SetTexture` returns with the data members as they were
after exactly one call, the call that hands the slot and the resource to the bound pipeline
(`m_pipeline->SetConstantBuffer`, `m_pipeline->SetSampler`, `m_pipeline->SetTexture`), a
pipeline that is not null; so they record no instruction into a command buffer. When the same
texture is bound to the same slot twice and one draw follows, the bound pipeline answering the
draw as section 4.3 describes, the two bindings record nothing and the draw records exactly one
`vkCmdBindDescriptorSets`, followed by the `vkCmdDraw`. -/
theorem bindings_are_lazy (w0 : World) (ops : List Op) (w : World)
    (slot scope constant_buffer sampler texture black_texture vertex_count : Nat)
    (env : DrawEnv)
    (h0 : w0.cl.m_cmd_state = RHI_Cmd_List_Idle) (ht0 : w0.trace = [])
    (hrun : run_all ops w0 = .ok () w) (h : w.cl.m_cmd_state = RHI_Cmd_List_Recording)
    (hspec : Pipeline_as_specified env
      (run_all [.SetTexture slot texture black_texture, .SetTexture slot texture black_texture]
        w).world) :
    w.cl.m_pipeline ≠ nullptr ∧
    SetConstantBuffer slot scope constant_buffer w = .ok ()
      { w with trace := w.trace ++
          [.Pipeline_SetConstantBuffer w.cl.m_pipeline slot constant_buffer] } ∧
    SetSampler slot sampler w = .ok ()
      { w with trace := w.trace ++ [.Pipeline_SetSampler w.cl.m_pipeline slot sampler] } ∧
    SetTexture slot texture black_texture w = .ok ()
      { w with trace := w.trace ++ [.Pipeline_SetTexture w.cl.m_pipeline slot
          (if texture = nullptr then black_texture else texture)] } ∧
    instructions (events_of (SetConstantBuffer slot scope constant_buffer) w) = [] ∧
    instructions (events_of (SetSampler slot sampler) w) = [] ∧
    instructions (events_of (SetTexture slot texture black_texture) w) = [] ∧
    instructions (events_of
      (run_all [.SetTexture slot texture black_texture, .SetTexture slot texture black_texture])
      w) = [] ∧
    ∃ cmd_buffer, w.cl.m_cmd_buffers[w.cl.m_buffer_index]? = some cmd_buffer ∧
      instructions (events_of
        (run_all [.SetTexture slot texture black_texture,
          .SetTexture slot texture black_texture, .Draw vertex_count env]) w) =
        [.vkCmdBindDescriptorSets cmd_buffer env.pipeline_layout 0
            env.descriptor_pending_update,
          .vkCmdDraw cmd_buffer vertex_count 1 0 0] ∧
      ((events_of
        (run_all [.SetTexture slot texture black_texture,
          .SetTexture slot texture black_texture, .Draw vertex_count env]) w).filter
        Ev.is_descriptor_bind).length = 1 := by
  obtain ⟨⟨cmd_buffer, hc⟩, hp⟩ := Recording_slot w0 ops w h0 ht0 hrun h
  have hcb := SetConstantBuffer_Recording slot scope constant_buffer w h hp
  have hsa := SetSampler_Recording slot sampler w h hp
  have hte := SetTexture_Recording slot texture black_texture w h hp
  have htw := SetTexture_twice slot texture black_texture w h hp
  rw [htw] at hspec
  have hpend : env.descriptor_pending_update ≠ nullptr := by
    rw [Pipeline_as_specified] at hspec
    apply hspec.mpr
    simp only [Res.world, table_dirty_append]
    simp [table_dirty, Ev.table_dirty]
  have hdraw := Draw_Recording vertex_count env
    { w with trace := w.trace ++
        [.Pipeline_SetTexture w.cl.m_pipeline slot
            (if texture = nullptr then black_texture else texture),
          .Pipeline_SetTexture w.cl.m_pipeline slot
            (if texture = nullptr then black_texture else texture)] } cmd_buffer h hc hp
  simp only [hpend, ne_eq, not_false_eq_true, if_true, List.append_assoc, List.cons_append,
    List.nil_append] at hdraw
  have hall : run_all [.SetTexture slot texture black_texture,
      .SetTexture slot texture black_texture, .Draw vertex_count env] w = .ok ()
      { w with trace := w.trace ++
        [.Pipeline_SetTexture w.cl.m_pipeline slot
            (if texture = nullptr then black_texture else texture),
          .Pipeline_SetTexture w.cl.m_pipeline slot
            (if texture = nullptr then black_texture else texture),
          .GetDescriptorPendingUpdate w.cl.m_pipeline,
          .vkCmdBindDescriptorSets cmd_buffer env.pipeline_layout 0
            env.descriptor_pending_update,
          .vkCmdDraw cmd_buffer vertex_count 1 0 0] } := by
    have := run_all_append
      [.SetTexture slot texture black_texture, .SetTexture slot texture black_texture]
      [.Draw vertex_count env] w
    simp only [List.cons_append, List.nil_append, htw] at this
    rw [this]
    simp only [run_all, Op.run, hdraw]
  refine ⟨hp, hcb, hsa, hte, ?_, ?_, ?_, ?_, cmd_buffer, hc, ?_, ?_⟩
  · rw [events_of_ok _ w () _ _ hcb]
    simp [instructions, Ev.recorded_into]
  · rw [events_of_ok _ w () _ _ hsa]
    simp [instructions, Ev.recorded_into]
  · rw [events_of_ok _ w () _ _ hte]
    simp [instructions, Ev.recorded_into]
  · rw [events_of_ok _ w () _ _ htw]
    simp [instructions, Ev.recorded_into]
  · rw [events_of_ok _ w () _ _ hall]
    simp [instructions, Ev.recorded_into]
  · rw [events_of_ok _ w () _ _ hall]
    simp [Ev.is_descriptor_bind]

/-- C14 at a concrete input: in the first pass, with the pipeline `7` bound, the sampler `4`
set at slot 0 makes the one call `m_pipeline->SetSampler(0, 4)`; and the texture `5` bound
twice to slot 0, then a draw to which the pipeline hands the descriptor set `9`, record one
bind of a descriptor set. -/
theorem bindings_are_lazy_witness :
    SetSampler 0 4 first_pass_world = .ok ()
      { first_pass_world with
        trace := first_pass_world.trace ++ [.Pipeline_SetSampler 7 0 4] } ∧
    ((events_of
        (run_all [.SetTexture 0 5 6, .SetTexture 0 5 6,
          .Draw 3 { descriptor_pending_update := 9, pipeline_layout := 60 }])
        first_pass_world).filter Ev.is_descriptor_bind).length = 1 := by
  obtain ⟨_, _, hsa, _, _, _, _, _, _, _, _, hone⟩ := bindings_are_lazy
    (two_frames_in_flight 100 101 200 201 300 301 50 1 2) [.Begin "" (begin_ok 0 7 70)]
    first_pass_world 0 0 0 4 5 6 3 { descriptor_pending_update := 9, pipeline_layout := 60 }
    rfl rfl first_pass_open rfl
    (by
      rw [SetTexture_twice 0 5 6 first_pass_world rfl (by decide)]
      simp [Pipeline_as_specified, Res.world, first_pass_world, table_dirty_append, table_dirty,
        Ev.table_dirty])
  exact ⟨hsa, hone⟩

/-- C15: `SetTexture` with a null texture is `SetTexture` with the black texture of the
renderer, in every world. In `Recording` with a pipeline bound the call returns, its only call
hands the black texture for that slot to the bound pipeline, which is not a null texture when
the renderer has its black texture, and a `Draw` that follows records its draw instruction and
stays in `Recording`. -/
theorem SetTexture_null_is_black (slot black_texture vertex_count : Nat) (env : DrawEnv)
    (w : World) (cmd_buffer : Ptr)
    (h : w.cl.m_cmd_state = RHI_Cmd_List_Recording)
    (hc : w.cl.m_cmd_buffers[w.cl.m_buffer_index]? = some cmd_buffer)
    (hp : w.cl.m_pipeline ≠ nullptr) (hblack : black_texture ≠ nullptr) :
    (∀ w1 : World, SetTexture slot nullptr black_texture w1 =
      SetTexture slot black_texture black_texture w1) ∧
    SetTexture slot nullptr black_texture w = .ok ()
      { w with trace := w.trace ++ [.Pipeline_SetTexture w.cl.m_pipeline slot black_texture] } ∧
    (∀ pipeline texture, Ev.Pipeline_SetTexture pipeline slot texture ∈
        events_of (SetTexture slot nullptr black_texture) w →
      texture = black_texture ∧ texture ≠ nullptr) ∧
    (∃ evs, Draw vertex_count env (SetTexture slot nullptr black_texture w).world = .ok ()
        { cl := w.cl,
          trace := w.trace ++ [.Pipeline_SetTexture w.cl.m_pipeline slot black_texture] ++
            evs ++ [.vkCmdDraw cmd_buffer vertex_count 1 0 0] } ∧
      ∀ e ∈ evs, e.is_error = false) := by
  have hs := SetTexture_Recording slot nullptr black_texture w h hp
  simp only [if_true] at hs
  refine ⟨fun w1 => ?_, hs, ?_, ?_⟩
  · by_cases hb : black_texture = nullptr <;> simp [SetTexture, hb]
  · intro pipeline texture hmem
    rw [events_of_ok _ w () _ _ hs] at hmem
    simp only [List.mem_singleton, Ev.Pipeline_SetTexture.injEq] at hmem
    exact ⟨hmem.2.2, hmem.2.2 ▸ hblack⟩
  · rw [hs]
    have hd := Draw_Recording vertex_count env
      { w with trace := w.trace ++ [.Pipeline_SetTexture w.cl.m_pipeline slot black_texture] }
      cmd_buffer h hc hp
    refine ⟨.GetDescriptorPendingUpdate w.cl.m_pipeline ::
      (if env.descriptor_pending_update ≠ nullptr then
        [.vkCmdBindDescriptorSets cmd_buffer env.pipeline_layout 0
          env.descriptor_pending_update]
       else []), ?_, ?_⟩
    · simp only [Res.world, hd]
      simp
    · intro e he
      by_cases hpend : env.descriptor_pending_update = nullptr
      · simp only [hpend, ne_eq, not_true_eq_false, if_false, List.mem_singleton] at he
        simp [he, Ev.is_error]
      · simp only [hpend, ne_eq, not_false_eq_true, if_true, List.mem_cons,
          List.mem_singleton, List.not_mem_nil, or_false] at he
        rcases he with he | he <;> simp [he, Ev.is_error]

/-- C15 at a concrete input: a null texture bound to slot 3 while the black texture is `6`. -/
theorem SetTexture_null_is_black_witness :
    SetTexture 3 nullptr 6 first_pass_world = .ok ()
      { first_pass_world with
        trace := first_pass_world.trace ++ [.Pipeline_SetTexture 7 3 6] } :=
  (SetTexture_null_is_black 3 6 3 { descriptor_pending_update := nullptr, pipeline_layout := 0 }
    first_pass_world 100 rfl rfl (by decide) (by decide)).2.1

/-! ## Immediate instructions and the empty setters -/

/-- Each pipeline-state setter returns the world it was given. -/
theorem Pipeline_setter_run (setter : Pipeline_setter) (w : World) :
    setter.run w = .ok () w := by
  cases setter <;> rfl

/-- A call that appends the single call `e` whatever the trace, made twice, appends `e`
twice. -/
theorem run_twice (op : Op) (e : Ev) (w : World)
    (hop : ∀ trace : List Ev, op.run { cl := w.cl, trace := trace } =
      .ok () { cl := w.cl, trace := trace ++ [e] }) :
    run_all [op, op] w = .ok () { w with trace := w.trace ++ [e, e] } := by
  have h1 := hop w.trace
  have h2 := hop (w.trace ++ [e])
  simp only [List.append_assoc, List.cons_append, List.nil_append] at h2
  simp only [run_all, h1, h2]

/-- C16, as the code behaves: in `Recording`, the active slot holding its command buffer, each
call of `SetBufferVertex`, `SetBufferIndex`, `SetViewport` and `SetScissorRectangle` records
exactly one instruction into that command buffer (for `SetBufferIndex` with the index type
`VK_INDEX_TYPE_UINT16` when the buffer is 16-bit and `VK_INDEX_TYPE_UINT32` otherwise), and a
repeated call records its instruction again; `SetPrimitiveTopology` records nothing and makes
no call. -/
theorem immediate_state_is_recorded_per_call (w : World) (cmd_buffer : Ptr)
    (vertex_buffer : RHI_VertexBuffer) (index_buffer : RHI_IndexBuffer)
    (viewport : RHI_Viewport) (scissor_rectangle : Rectangle) (primitive_topology : Nat)
    (h : w.cl.m_cmd_state = RHI_Cmd_List_Recording)
    (hc : w.cl.m_cmd_buffers[w.cl.m_buffer_index]? = some cmd_buffer) :
    (events_of (SetBufferVertex vertex_buffer) w =
        [.vkCmdBindVertexBuffers cmd_buffer vertex_buffer.resource 0] ∧
      events_of (run_all [.SetBufferVertex vertex_buffer, .SetBufferVertex vertex_buffer]) w =
        [.vkCmdBindVertexBuffers cmd_buffer vertex_buffer.resource 0,
          .vkCmdBindVertexBuffers cmd_buffer vertex_buffer.resource 0]) ∧
    (events_of (SetBufferIndex index_buffer) w =
        [.vkCmdBindIndexBuffer cmd_buffer index_buffer.resource 0
          (if index_buffer.is_16bit then .VK_INDEX_TYPE_UINT16 else .VK_INDEX_TYPE_UINT32)] ∧
      events_of (run_all [.SetBufferIndex index_buffer, .SetBufferIndex index_buffer]) w =
        [.vkCmdBindIndexBuffer cmd_buffer index_buffer.resource 0
          (if index_buffer.is_16bit then .VK_INDEX_TYPE_UINT16 else .VK_INDEX_TYPE_UINT32),
         .vkCmdBindIndexBuffer cmd_buffer index_buffer.resource 0
          (if index_buffer.is_16bit then .VK_INDEX_TYPE_UINT16 else .VK_INDEX_TYPE_UINT32)]) ∧
    (events_of (SetViewport viewport) w = [.vkCmdSetViewport cmd_buffer viewport] ∧
      events_of (run_all [.SetViewport viewport, .SetViewport viewport]) w =
        [.vkCmdSetViewport cmd_buffer viewport, .vkCmdSetViewport cmd_buffer viewport]) ∧
    (events_of (SetScissorRectangle scissor_rectangle) w =
        [.vkCmdSetScissor cmd_buffer scissor_rectangle] ∧
      events_of (run_all [.SetScissorRectangle scissor_rectangle,
          .SetScissorRectangle scissor_rectangle]) w =
        [.vkCmdSetScissor cmd_buffer scissor_rectangle,
          .vkCmdSetScissor cmd_buffer scissor_rectangle]) ∧
    SetPrimitiveTopology primitive_topology w = .ok () w ∧
    events_of (SetPrimitiveTopology primitive_topology) w = [] := by
  refine ⟨⟨?_, ?_⟩, ⟨?_, ?_⟩, ⟨?_, ?_⟩, ⟨?_, ?_⟩, rfl, ?_⟩
  · exact events_of_ok _ w () _ _ (SetBufferVertex_Recording vertex_buffer w cmd_buffer h hc)
  · exact events_of_ok _ w () _ _ (run_twice (.SetBufferVertex vertex_buffer) _ w fun trace =>
      SetBufferVertex_Recording vertex_buffer { cl := w.cl, trace := trace } cmd_buffer h hc)
  · exact events_of_ok _ w () _ _ (SetBufferIndex_Recording index_buffer w cmd_buffer h hc)
  · exact events_of_ok _ w () _ _ (run_twice (.SetBufferIndex index_buffer) _ w fun trace =>
      SetBufferIndex_Recording index_buffer { cl := w.cl, trace := trace } cmd_buffer h hc)
  · exact events_of_ok _ w () _ _ (SetViewport_Recording viewport w cmd_buffer h hc)
  · exact events_of_ok _ w () _ _ (run_twice (.SetViewport viewport) _ w fun trace =>
      SetViewport_Recording viewport { cl := w.cl, trace := trace } cmd_buffer h hc)
  · exact events_of_ok _ w () _ _
      (SetScissorRectangle_Recording scissor_rectangle w cmd_buffer h hc)
  · exact events_of_ok _ w () _ _ (run_twice (.SetScissorRectangle scissor_rectangle) _ w fun trace =>
      SetScissorRectangle_Recording scissor_rectangle { cl := w.cl, trace := trace } cmd_buffer h hc)
  · simp [events_of, SetPrimitiveTopology, Res.world]

/-- C16 as the code behaves, at a concrete input: a 16-bit index buffer bound in the first
pass. -/
theorem immediate_state_is_recorded_per_call_witness :
    events_of (SetBufferIndex { resource := 8, is_16bit := true }) first_pass_world =
      [.vkCmdBindIndexBuffer 100 8 0
        (if ({ resource := 8, is_16bit := true } : RHI_IndexBuffer).is_16bit
          then .VK_INDEX_TYPE_UINT16 else .VK_INDEX_TYPE_UINT32)] :=
  (immediate_state_is_recorded_per_call first_pass_world 100 { resource := 9 }
    { resource := 8, is_16bit := true }
    { x := 0, y := 0, width := 0, height := 0, depth_min := 0, depth_max := 0 }
    { x := 0, y := 0, width := 0, height := 0 } 0 rfl rfl).2.1.1

/-- C16 as stated fails: in `Recording`, `SetPrimitiveTopology` makes no call at all, so it
records no instruction into the active command buffer, not exactly one. -/
theorem SetPrimitiveTopology_records_nothing :
    first_pass_world.cl.m_cmd_state = RHI_Cmd_List_Recording ∧
    events_of (SetPrimitiveTopology 0) first_pass_world = [] ∧
    (instructions (events_of (SetPrimitiveTopology 0) first_pass_world)).length ≠ 1 := by
  have h : events_of (SetPrimitiveTopology 0) first_pass_world = [] := by
    simp [events_of, SetPrimitiveTopology, Res.world]
  refine ⟨rfl, h, ?_⟩
  rw [h]
  simp [instructions]

/-- C17, as the code behaves: the pipeline-state setters `SetPrimitiveTopology`,
`SetInputLayout`, `SetDepthStencilState`, `SetRasterizerState`, `SetBlendState`,
`SetShaderVertex`, `SetShaderPixel`, `SetRenderTargets`, `ClearRenderTarget` and
`ClearDepthStencil` have an empty body: in every state, `Recording` or not, each returns the
world it was given, having made no call, so it reports no error and records nothing. -/
theorem pipeline_setters_are_empty (setter : Pipeline_setter) (w : World) :
    setter.run w = .ok () w ∧ events_of setter.run w = [] := by
  have h := Pipeline_setter_run setter w
  exact ⟨h, by simp [events_of, h, Res.world]⟩

/-- C17 as stated fails: called in `Idle`, `SetPrimitiveTopology` makes no call, so no error
is reported. -/
theorem SetPrimitiveTopology_in_Idle_reports_nothing :
    (sample_world RHI_Cmd_List_Idle).cl.m_cmd_state ≠ RHI_Cmd_List_Recording ∧
    events_of (Pipeline_setter.run (.SetPrimitiveTopology 0))
      (sample_world RHI_Cmd_List_Idle) = [] ∧
    Ev.LOG_ERROR .cant_record ∉
      events_of (Pipeline_setter.run (.SetPrimitiveTopology 0))
        (sample_world RHI_Cmd_List_Idle) := by
  have h : events_of (Pipeline_setter.run (.SetPrimitiveTopology 0))
      (sample_world RHI_Cmd_List_Idle) = [] := by
    simp [events_of, Pipeline_setter_run, Res.world]
  refine ⟨by decide, h, ?_⟩
  rw [h]
  simp

/-! ## Repeated cycles -/

/-- The `End` and `Submit` of a cycle, from the world its `Begin` left. -/
theorem cycle_tail (w : World) (cmd_buffer semaphore fence : Ptr)
    (h : w.cl.m_cmd_state = RHI_Cmd_List_Recording)
    (hc : w.cl.m_cmd_buffers[w.cl.m_buffer_index]? = some cmd_buffer)
    (hs : w.cl.m_semaphores_cmd_list_consumed[w.cl.m_buffer_index]? = some semaphore)
    (hf : w.cl.m_fences_in_flight[w.cl.m_buffer_index]? = some fence)
    (hswap : w.cl.m_pipeline_state.swap_chain ≠ nullptr) :
    run_all
      [ .End { end_command_buffer := VK_SUCCESS, debug_marker := false },
        .Submit { image_index := w.cl.m_buffer_index, semaphore_image_acquired := 0,
                  queue_submit := VK_SUCCESS } ] w = .ok ()
      { cl := { w.cl with m_cmd_state := RHI_Cmd_List_Idle_Sync_Cpu_To_Gpu },
        trace := w.trace ++ [.vkCmdEndRenderPass cmd_buffer,
          .vkEndCommandBuffer cmd_buffer VK_SUCCESS,
          .vkQueueSubmit 0 cmd_buffer semaphore fence VK_SUCCESS] } := by
  have hend := End_Recording { end_command_buffer := VK_SUCCESS, debug_marker := false }
    w cmd_buffer h hc
  simp only [if_true, List.append_nil, List.append_assoc, List.cons_append, List.nil_append,
    Bool.false_eq_true, if_false] at hend
  have hsub := Submit_Ended
    { image_index := w.cl.m_buffer_index, semaphore_image_acquired := 0,
      queue_submit := VK_SUCCESS }
    { cl := { w.cl with m_cmd_state := RHI_Cmd_List_Ended },
      trace := w.trace ++ [.vkCmdEndRenderPass cmd_buffer,
        .vkEndCommandBuffer cmd_buffer VK_SUCCESS] }
    cmd_buffer semaphore fence rfl hswap rfl hc hs hf
  simp only [if_true, List.append_assoc, List.cons_append, List.nil_append] at hsub
  simp only [run_all, Op.run, hend, hsub]

/-- One cycle, from `Idle` or from `Idle_Sync_Cpu_To_Gpu`, on a command list whose three
collections hold `N` handles each. -/
theorem cycle_run (image_index : Nat) (pipeline vk_pipeline : Ptr) (w : World) (N : Nat)
    (hcmd : w.cl.m_cmd_buffers.length = N)
    (hsem : w.cl.m_semaphores_cmd_list_consumed.length = N)
    (hfen : w.cl.m_fences_in_flight.length = N)
    (hshader : w.cl.m_pipeline_state.shader_vertex ≠ nullptr)
    (hswap : w.cl.m_pipeline_state.swap_chain ≠ nullptr)
    (hp : pipeline ≠ nullptr) (hvk : vk_pipeline ≠ nullptr) (hi : image_index < N)
    (hst : w.cl.m_cmd_state = RHI_Cmd_List_Idle ∨
      (w.cl.m_cmd_state = RHI_Cmd_List_Idle_Sync_Cpu_To_Gpu ∧ w.cl.m_buffer_index < N ∧
        w.cl.m_pipeline ≠ nullptr)) :
    ∃ evs, run_all (cycle image_index pipeline vk_pipeline) w = .ok ()
      { cl := { w.cl with m_pipeline := pipeline, m_buffer_index := image_index,
                          m_cmd_state := RHI_Cmd_List_Idle_Sync_Cpu_To_Gpu },
        trace := w.trace ++ evs } := by
  obtain ⟨cmd_buffer, hc⟩ := getElem?_of_lt w.cl.m_cmd_buffers image_index (hcmd ▸ hi)
  obtain ⟨semaphore, hs⟩ :=
    getElem?_of_lt w.cl.m_semaphores_cmd_list_consumed image_index (hsem ▸ hi)
  obtain ⟨fence, hf⟩ := getElem?_of_lt w.cl.m_fences_in_flight image_index (hfen ▸ hi)
  rcases hst with h | ⟨h, hidx, hbound⟩
  · have hbegin := Begin_ok_Idle "" image_index pipeline vk_pipeline w semaphore cmd_buffer h
      hshader hswap hs hc hp hvk
    have htail := cycle_tail
      { cl := { w.cl with m_pipeline := pipeline, m_buffer_index := image_index,
                          m_cmd_state := RHI_Cmd_List_Recording },
        trace := w.trace ++ [.GetPipeline w.cl.m_pipeline_state,
          .AcquireNextImage w.cl.m_pipeline_state.swap_chain true,
          .SetSemaphoreRenderFinished w.cl.m_pipeline_state.swap_chain semaphore,
          .vkBeginCommandBuffer cmd_buffer VK_SUCCESS,
          .vkCmdBeginRenderPass cmd_buffer 0 0 0 0,
          .vkCmdBindPipeline cmd_buffer vk_pipeline] }
      cmd_buffer semaphore fence rfl hc hs hf hswap
    simp only [List.append_assoc] at htail
    refine ⟨?_, ?_⟩
    rotate_left
    · unfold cycle
      rw [run_all]
      simp only [Op.run, hbegin]
      exact htail
  · obtain ⟨waited, hw⟩ := getElem?_of_lt w.cl.m_fences_in_flight w.cl.m_buffer_index
      (hfen ▸ hidx)
    have hbegin := Begin_ok_Sync "" image_index pipeline vk_pipeline w waited semaphore
      cmd_buffer h hw hbound hshader hswap hs hc hp hvk
    have htail := cycle_tail
      { cl := { w.cl with m_pipeline := pipeline, m_buffer_index := image_index,
                          m_cmd_state := RHI_Cmd_List_Recording },
        trace := w.trace ++ [.vkWaitForFences waited VK_SUCCESS,
          .vkResetFences waited VK_SUCCESS,
          .vkResetCommandPool w.cl.m_cmd_pool VK_SUCCESS,
          .OnCommandListConsumed w.cl.m_pipeline,
          .GetPipeline w.cl.m_pipeline_state,
          .AcquireNextImage w.cl.m_pipeline_state.swap_chain true,
          .SetSemaphoreRenderFinished w.cl.m_pipeline_state.swap_chain semaphore,
          .vkBeginCommandBuffer cmd_buffer VK_SUCCESS,
          .vkCmdBeginRenderPass cmd_buffer 0 0 0 0,
          .vkCmdBindPipeline cmd_buffer vk_pipeline] }
      cmd_buffer semaphore fence rfl hc hs hf hswap
    simp only [List.append_assoc] at htail
    refine ⟨?_, ?_⟩
    rotate_left
    · unfold cycle
      rw [run_all]
      simp only [Op.run, hbegin]
      exact htail

/-- Any number of cycles: the run returns, the collections and the pipeline state are as
before, and after at least one cycle the state is `Idle_Sync_Cpu_To_Gpu` with a slot below `N`
active and a pipeline bound. -/
theorem cycles_run (pipeline vk_pipeline : Ptr) (N : Nat) (slots : List Nat) (w : World)
    (hcmd : w.cl.m_cmd_buffers.length = N)
    (hsem : w.cl.m_semaphores_cmd_list_consumed.length = N)
    (hfen : w.cl.m_fences_in_flight.length = N)
    (hshader : w.cl.m_pipeline_state.shader_vertex ≠ nullptr)
    (hswap : w.cl.m_pipeline_state.swap_chain ≠ nullptr)
    (hp : pipeline ≠ nullptr) (hvk : vk_pipeline ≠ nullptr)
    (hslots : ∀ i ∈ slots, i < N)
    (hst : w.cl.m_cmd_state = RHI_Cmd_List_Idle ∨
      (w.cl.m_cmd_state = RHI_Cmd_List_Idle_Sync_Cpu_To_Gpu ∧ w.cl.m_buffer_index < N ∧
        w.cl.m_pipeline ≠ nullptr)) :
    ∃ w1, run_all (cycles pipeline vk_pipeline slots) w = .ok () w1 ∧
      w1.cl.m_cmd_buffers = w.cl.m_cmd_buffers ∧
      w1.cl.m_semaphores_cmd_list_consumed = w.cl.m_semaphores_cmd_list_consumed ∧
      w1.cl.m_fences_in_flight = w.cl.m_fences_in_flight ∧
      w1.cl.m_pipeline_state = w.cl.m_pipeline_state ∧
      (slots = [] → w1 = w) ∧
      (slots ≠ [] → w1.cl.m_cmd_state = RHI_Cmd_List_Idle_Sync_Cpu_To_Gpu ∧
        w1.cl.m_buffer_index < N ∧ w1.cl.m_pipeline ≠ nullptr) := by
  induction slots generalizing w with
  | nil => exact ⟨w, rfl, rfl, rfl, rfl, rfl, fun _ => rfl, fun hne => absurd rfl hne⟩
  | cons i rest ih =>
    have hi : i < N := hslots i (by simp)
    obtain ⟨evs, hcyc⟩ := cycle_run i pipeline vk_pipeline w N hcmd hsem hfen hshader hswap hp
      hvk hi hst
    obtain ⟨w1, hrun, h1, h2, h3, h4, h5, h6⟩ := ih
      { cl := { w.cl with m_pipeline := pipeline, m_buffer_index := i,
                          m_cmd_state := RHI_Cmd_List_Idle_Sync_Cpu_To_Gpu },
        trace := w.trace ++ evs }
      hcmd hsem hfen hshader hswap (fun j hj => hslots j (by simp [hj]))
      (Or.inr ⟨rfl, hi, hp⟩)
    refine ⟨w1, ?_, h1, h2, h3, h4, fun hnil => by simp at hnil, fun _ => ?_⟩
    · simp only [cycles]
      rw [run_all_append, hcyc]
      exact hrun
    · by_cases hrest : rest = []
      · rw [h5 hrest]
        exact ⟨rfl, hi, hp⟩
      · exact h6 hrest

/-- C18: on a command list in `Idle` whose collections of command buffers, semaphores and
fences hold `N` handles each and whose pipeline state names a vertex shader and a swap chain,
any number of consecutive `Begin`, `End`, `Submit` cycles in which every device call succeeds
and the swap chain assigns slots below `N` returns with the three collections exactly as they
were (same length, same entries); after at least one cycle the state is
`Idle_Sync_Cpu_To_Gpu`, and a `Begin` on any slot below `N` is accepted: it ends in
`Recording`. As the list of slots is arbitrary, this holds after each cycle of a longer
run. -/
theorem cycles_keep_the_slots (pipeline vk_pipeline : Ptr) (N : Nat) (slots : List Nat)
    (w0 : World)
    (h0 : w0.cl.m_cmd_state = RHI_Cmd_List_Idle)
    (hcmd : w0.cl.m_cmd_buffers.length = N)
    (hsem : w0.cl.m_semaphores_cmd_list_consumed.length = N)
    (hfen : w0.cl.m_fences_in_flight.length = N)
    (hshader : w0.cl.m_pipeline_state.shader_vertex ≠ nullptr)
    (hswap : w0.cl.m_pipeline_state.swap_chain ≠ nullptr)
    (hp : pipeline ≠ nullptr) (hvk : vk_pipeline ≠ nullptr)
    (hslots : ∀ i ∈ slots, i < N) :
    ∃ w, run_all (cycles pipeline vk_pipeline slots) w0 = .ok () w ∧
      w.cl.m_cmd_buffers = w0.cl.m_cmd_buffers ∧
      w.cl.m_semaphores_cmd_list_consumed = w0.cl.m_semaphores_cmd_list_consumed ∧
      w.cl.m_fences_in_flight = w0.cl.m_fences_in_flight ∧
      (slots ≠ [] → w.cl.m_cmd_state = RHI_Cmd_List_Idle_Sync_Cpu_To_Gpu) ∧
      ∀ j, j < N →
        (Begin "" (begin_ok j pipeline vk_pipeline) w).world.cl.m_cmd_state =
          RHI_Cmd_List_Recording := by
  obtain ⟨w, hrun, h1, h2, h3, h4, h5, h6⟩ := cycles_run pipeline vk_pipeline N slots w0 hcmd
    hsem hfen hshader hswap hp hvk hslots (Or.inl h0)
  refine ⟨w, hrun, h1, h2, h3, fun hne => (h6 hne).1, fun j hj => ?_⟩
  obtain ⟨cmd_buffer, hc⟩ := getElem?_of_lt w.cl.m_cmd_buffers j (by rw [h1, hcmd]; exact hj)
  obtain ⟨semaphore, hs⟩ := getElem?_of_lt w.cl.m_semaphores_cmd_list_consumed j
    (by rw [h2, hsem]; exact hj)
  have hshader1 : w.cl.m_pipeline_state.shader_vertex ≠ nullptr := by rw [h4]; exact hshader
  have hswap1 : w.cl.m_pipeline_state.swap_chain ≠ nullptr := by rw [h4]; exact hswap
  by_cases hnil : slots = []
  · have hw : w = w0 := h5 hnil
    subst hw
    rw [Begin_ok_Idle "" j pipeline vk_pipeline w semaphore cmd_buffer h0 hshader1 hswap1 hs hc
      hp hvk]
    rfl
  · obtain ⟨hst, hidx, hbound⟩ := h6 hnil
    obtain ⟨waited, hw⟩ := getElem?_of_lt w.cl.m_fences_in_flight w.cl.m_buffer_index
      (by rw [h3, hfen]; exact hidx)
    rw [Begin_ok_Sync "" j pipeline vk_pipeline w waited semaphore cmd_buffer hst hw hbound
      hshader1 hswap1 hs hc hp hvk]
    rfl

/-- C18 at a concrete input: three cycles on the slots 0, 1, 0 of a command list with two
frames in flight. -/
theorem cycles_keep_the_slots_witness :
    ∃ w, run_all (cycles 7 70 [0, 1, 0])
        (two_frames_in_flight 100 101 200 201 300 301 50 1 2) = .ok () w ∧
      w.cl.m_cmd_buffers = [100, 101] ∧
      w.cl.m_semaphores_cmd_list_consumed = [200, 201] ∧
      w.cl.m_fences_in_flight = [300, 301] ∧
      w.cl.m_cmd_state = RHI_Cmd_List_Idle_Sync_Cpu_To_Gpu := by
  obtain ⟨w, hrun, h1, h2, h3, h4, _⟩ := cycles_keep_the_slots 7 70 2 [0, 1, 0]
    (two_frames_in_flight 100 101 200 201 300 301 50 1 2) rfl rfl rfl rfl (by decide)
    (by decide) (by decide) (by decide) (by decide)
  exact ⟨w, hrun, h1, h2, h3, h4 (by decide)⟩

/-! ## Construction of the slots -/

/-- One iteration of the loop of the constructor in which the three device calls succeed. -/
theorem construct_slot_ok (i : Nat) (env : SlotEnv) (w : World)
    (hi : i < w.cl.m_cmd_buffers.length)
    (halloc : env.allocate_command_buffers = VK_SUCCESS)
    (hsem : env.create_semaphore = VK_SUCCESS) (hfence : env.create_fence = VK_SUCCESS) :
    construct_slot i env w =
      .ok ()
        { cl := { w.cl with
            m_cmd_buffers := w.cl.m_cmd_buffers.set i env.cmd_buffer
            m_semaphores_cmd_list_consumed := w.cl.m_semaphores_cmd_list_consumed ++ [env.semaphore]
            m_fences_in_flight := w.cl.m_fences_in_flight ++ [env.fence] }
          trace := w.trace ++
            [ .vkAllocateCommandBuffers w.cl.m_cmd_pool VK_SUCCESS,
              .vkCreateSemaphore VK_SUCCESS, .vkCreateFence VK_SUCCESS ] } := by
  obtain ⟨p, hp⟩ := getElem?_of_lt w.cl.m_cmd_buffers i hi
  simp [construct_slot, Exec.seq, members, at_index, hp, Vulkan_Common.create_buffer, emit,
    Vulkan_Common.check_result, halloc, hsem, hfence, assign, Vulkan_Common.semaphore_create,
    Vulkan_Common.fence_create, SPARTAN_ASSERT]

/-- The loop of the constructor over the slots `k, ..., k + m - 1` when every device call
succeeds: the slots before `k` are kept, and each further slot gets its own three handles at
its own index. -/
theorem construct_slots_ok (slot : Nat → SlotEnv) (m : Nat) :
    ∀ (k : Nat) (w : World) (done : List Ptr),
      w.cl.m_cmd_buffers = done ++ List.replicate m nullptr →
      done.length = k →
      (∀ i, k ≤ i → i < k + m → (slot i).allocate_command_buffers = VK_SUCCESS ∧
        (slot i).create_semaphore = VK_SUCCESS ∧ (slot i).create_fence = VK_SUCCESS) →
      ∃ evs, construct_slots slot (List.range' k m) w =
        .ok ()
          { cl := { w.cl with
              m_cmd_buffers := done ++ (List.range' k m).map fun i => (slot i).cmd_buffer
              m_semaphores_cmd_list_consumed := w.cl.m_semaphores_cmd_list_consumed ++
                (List.range' k m).map fun i => (slot i).semaphore
              m_fences_in_flight := w.cl.m_fences_in_flight ++
                (List.range' k m).map fun i => (slot i).fence }
            trace := w.trace ++ evs } := by
  induction m with
  | zero =>
      intro k w done hb _ _
      refine ⟨[], ?_⟩
      simp only [List.replicate, List.append_nil] at hb
      simp only [List.range', construct_slots, exec_pure, List.map_nil, List.append_nil, ← hb]
  | succ m ih =>
      intro k w done hb hk hok
      obtain ⟨halloc, hsem, hfence⟩ := hok k (Nat.le_refl k) (by omega)
      have hi : k < w.cl.m_cmd_buffers.length := by
        rw [hb]; simp only [List.length_append, List.length_replicate]; omega
      have hset : w.cl.m_cmd_buffers.set k (slot k).cmd_buffer =
          (done ++ [(slot k).cmd_buffer]) ++ List.replicate m nullptr := by
        rw [hb, ← hk]
        simp [List.replicate_succ, List.set_append_right]
      obtain ⟨evs, hrest⟩ := ih (k + 1)
        { cl := { w.cl with
            m_cmd_buffers := w.cl.m_cmd_buffers.set k (slot k).cmd_buffer
            m_semaphores_cmd_list_consumed :=
              w.cl.m_semaphores_cmd_list_consumed ++ [(slot k).semaphore]
            m_fences_in_flight := w.cl.m_fences_in_flight ++ [(slot k).fence] }
          trace := w.trace ++
            [ .vkAllocateCommandBuffers w.cl.m_cmd_pool VK_SUCCESS,
              .vkCreateSemaphore VK_SUCCESS, .vkCreateFence VK_SUCCESS ] }
        (done ++ [(slot k).cmd_buffer]) hset
        (by simp only [List.length_append, List.length_singleton, hk])
        (fun i h1 h2 => hok i (by omega) (by omega))
      refine ⟨[ .vkAllocateCommandBuffers w.cl.m_cmd_pool VK_SUCCESS,
        .vkCreateSemaphore VK_SUCCESS, .vkCreateFence VK_SUCCESS ] ++ evs, ?_⟩
      simp only [List.range', construct_slots, exec_bind, Exec.seq,
        construct_slot_ok k (slot k) w hi halloc hsem hfence, hrest]
      simp [List.append_assoc]

/-- The constructor when every allocation and creation succeeds: it returns with
`max_frames_in_flight` entries in each of the three collections, and index `i` of each holds
the handle the device returned in the iteration for slot `i`. -/
theorem construct_all_succeed (env : ConstructEnv)
    (hok : ∀ i, i < env.max_frames_in_flight →
      (env.slot i).allocate_command_buffers = VK_SUCCESS ∧
      (env.slot i).create_semaphore = VK_SUCCESS ∧ (env.slot i).create_fence = VK_SUCCESS) :
    ∃ evs, construct env before_construction =
      .ok ()
        { cl := { initial with
            m_cmd_pool := env.cmd_pool
            m_cmd_buffers :=
              (List.range env.max_frames_in_flight).map fun i => (env.slot i).cmd_buffer
            m_semaphores_cmd_list_consumed :=
              (List.range env.max_frames_in_flight).map fun i => (env.slot i).semaphore
            m_fences_in_flight :=
              (List.range env.max_frames_in_flight).map fun i => (env.slot i).fence }
          trace := evs } := by
  have hslots : ∀ trace : List Ev, ∃ evs,
      construct_slots env.slot (List.range env.max_frames_in_flight)
        { cl := { initial with
            m_cmd_pool := env.cmd_pool
            m_cmd_buffers := List.replicate env.max_frames_in_flight nullptr }
          trace := trace } =
      .ok ()
        { cl := { initial with
            m_cmd_pool := env.cmd_pool
            m_cmd_buffers :=
              (List.range env.max_frames_in_flight).map fun i => (env.slot i).cmd_buffer
            m_semaphores_cmd_list_consumed :=
              (List.range env.max_frames_in_flight).map fun i => (env.slot i).semaphore
            m_fences_in_flight :=
              (List.range env.max_frames_in_flight).map fun i => (env.slot i).fence }
          trace := trace ++ evs } := by
    intro trace
    obtain ⟨evs, h⟩ := construct_slots_ok env.slot env.max_frames_in_flight 0
      { cl := { initial with
          m_cmd_pool := env.cmd_pool
          m_cmd_buffers := List.replicate env.max_frames_in_flight nullptr }
        trace := trace }
      [] (by simp) rfl (fun i _ h2 => hok i (by omega))
    refine ⟨evs, ?_⟩
    rw [List.range_eq_range', h]
    simp [initial]
  by_cases hpool : env.create_command_pool = VK_SUCCESS
  · obtain ⟨evs, h⟩ := hslots ([] ++ [.vkCreateCommandPool env.create_command_pool])
    refine ⟨[] ++ [.vkCreateCommandPool env.create_command_pool] ++ evs, ?_⟩
    simp only [construct, exec_bind, Exec.seq, Vulkan_Common.create_pool, emit,
      Vulkan_Common.check_result, hpool, if_true, exec_pure, assign, before_construction]
    simp only [hpool] at h
    exact h
  · obtain ⟨evs, h⟩ := hslots ([] ++ [.vkCreateCommandPool env.create_command_pool] ++
      [.LOG_ERROR (.vk_result env.create_command_pool)])
    refine ⟨[] ++ [.vkCreateCommandPool env.create_command_pool] ++
      [.LOG_ERROR (.vk_result env.create_command_pool)] ++ evs, ?_⟩
    simp only [construct, exec_bind, Exec.seq, Vulkan_Common.create_pool, emit,
      Vulkan_Common.check_result, hpool, if_false, exec_pure, assign, before_construction,
      LOG_ERROR]
    exact h

/-- C19, at the input that breaks it: with two frames in flight and the allocation of the
command buffer of slot 0 failing, the constructor returns with two command-buffer entries
(slot 0 still null), but only one semaphore and one fence; the semaphore and the fence created
for the command buffer of slot 1 are stored at index 0, and index 1 holds neither. -/
theorem construct_misaligns_after_failed_allocation :
    construct slot0_allocation_fails before_construction =
      .ok ()
        { cl :=
            { m_pipeline_state := { shader_vertex := nullptr, swap_chain := nullptr, rest := 0 }
              m_cmd_buffers := [nullptr, 101]
              m_semaphores_cmd_list_consumed := [201]
              m_fences_in_flight := [301]
              m_pipeline := nullptr
              m_cmd_pool := 50
              m_buffer_index := 0
              m_cmd_state := RHI_Cmd_List_Idle }
          trace :=
            [ .vkCreateCommandPool VK_SUCCESS,
              .vkAllocateCommandBuffers 50 (-1),
              .LOG_ERROR (.vk_result (-1)),
              .vkAllocateCommandBuffers 50 VK_SUCCESS,
              .vkCreateSemaphore VK_SUCCESS,
              .vkCreateFence VK_SUCCESS ] } := by
  rfl

/-! ## Layout transitions of a texture -/

/-- The check "already set" finds no mip when every tag it reads is `new_layout`. -/
theorem SetLayout_first_unset_all_set (m_layout : List RHI_Image_Layout)
    (new_layout : RHI_Image_Layout) (count : Nat) :
    ∀ mip_index : Nat,
      (∀ j, mip_index ≤ j → j < mip_index + count → m_layout[j]? = some new_layout) →
      RHI_Texture.SetLayout_first_unset m_layout new_layout mip_index count = .ok none := by
  induction count with
  | zero => intro mip_index _; rfl
  | succ count ih =>
      intro mip_index h
      have h0 := h mip_index (Nat.le_refl _) (by omega)
      simp only [RHI_Texture.SetLayout_first_unset, h0, ne_eq, not_true_eq_false, if_false]
      exact ih (mip_index + 1) (fun j h1 h2 => h j (by omega) (by omega))

theorem uint32_sub_zero_le (a : Nat) : uint32_sub a 0 ≤ a := by
  simp only [uint32_sub, to_uint32]
  omega

/-- C20: for every texture, target layout, command list (or none) and request of one of the
three shapes (all mips; a given mip, ranged; a given mip, not ranged): when every mip of the
requested range already holds `new_layout`, `SetLayout` ends with the world it was given, so
that it has emitted no instruction, changed no per-mip tag and left the barrier counter as it
was. It returns, unless one of its two assertions stops the run first. -/
theorem SetLayout_to_current_layout_is_noop
    (GetResource_CommandBuffer : RHI_CommandList → Ptr) (new_layout : RHI_Image_Layout)
    (cmd_list : Option RHI_CommandList) (mip : Int) (ranged : Bool) (w : Texture_World)
    (hshape : mip = -1 → ranged = true)
    (hset : ∀ i, in_requested_range w.texture mip ranged i = true →
      w.texture.m_layout[i]? = some new_layout) :
    RHI_Texture.SetLayout GetResource_CommandBuffer new_layout cmd_list mip ranged w = .ok w ∨
    RHI_Texture.SetLayout GetResource_CommandBuffer new_layout cmd_list mip ranged w =
      .fault .assertion_failed w := by
  by_cases hmip : mip = -1
  · have hr := hshape hmip
    subst hmip
    subst hr
    left
    have hle := uint32_sub_zero_le w.texture.m_mip_count
    have hall := SetLayout_first_unset_all_set w.texture.m_layout new_layout
      (w.texture.m_mip_count - 0) 0
      (fun j _ h2 => hset j (by
        simp only [in_requested_range, if_true, decide_eq_true_eq]; omega))
    rw [Nat.sub_zero] at hall
    simp [RHI_Texture.SetLayout, hle, hall]
  · by_cases hviews : w.texture.HasPerMipViews = true
    · by_cases hassert : uint32_sub w.texture.m_mip_count (to_uint32 mip) ≤ w.texture.m_mip_count
      · left
        cases ranged with
        | false =>
            have h0 := hset (to_uint32 mip) (by simp [in_requested_range, hmip])
            simp [RHI_Texture.SetLayout, hmip, hviews, hassert, h0]
        | true =>
            have hall := SetLayout_first_unset_all_set w.texture.m_layout new_layout
              (uint32_sub w.texture.m_mip_count (to_uint32 mip) - to_uint32 mip) (to_uint32 mip)
              (fun j h1 h2 => hset j (by
                simp only [in_requested_range, hmip, if_false, if_true, decide_eq_true_eq]
                omega))
            simp [RHI_Texture.SetLayout, hmip, hviews, hassert, hall]
      · right
        simp [RHI_Texture.SetLayout, hmip, hviews, hassert]
    · right
      simp [RHI_Texture.SetLayout, hmip, hviews]

/-- C20 at a concrete input: the four mips of `sampled_texture` hold
`Shader_Read_Only_Optimal`, and a request for mip 1 and the mips after it returns at once. -/
theorem SetLayout_to_current_layout_is_noop_witness :
    (∀ i, in_requested_range sampled_texture.texture 1 true i = true →
      sampled_texture.texture.m_layout[i]? = some .Shader_Read_Only_Optimal) ∧
    RHI_Texture.SetLayout active_cmd_buffer .Shader_Read_Only_Optimal
      (some first_pass_world.cl) 1 true sampled_texture = .ok sampled_texture := by
  have hset : ∀ i, in_requested_range sampled_texture.texture 1 true i = true →
      sampled_texture.texture.m_layout[i]? = some .Shader_Read_Only_Optimal := by
    intro i hi
    have h4 : i < 4 := by
      simp only [in_requested_range, sampled_texture] at hi
      simp at hi
      exact hi.2
    have hget : (List.replicate 4 RHI_Image_Layout.Shader_Read_Only_Optimal)[i]? =
        some .Shader_Read_Only_Optimal := by
      rw [List.getElem?_replicate]; simp [h4]
    exact hget
  exact ⟨hset, (SetLayout_to_current_layout_is_noop active_cmd_buffer
    .Shader_Read_Only_Optimal (some first_pass_world.cl) 1 true sampled_texture (by decide)
    hset).resolve_right (by decide)⟩

/-! ## The transition of `SetLayout` -/

/-- The update loop within the array: it returns, the tags of its range set, the others
kept. -/
theorem SetLayout_update_ok (new_layout : RHI_Image_Layout) (count : Nat) :
    ∀ (i : Nat) (w : Texture_World), i + count ≤ w.texture.m_layout.length →
      ∃ tags, RHI_Texture.SetLayout_update new_layout i count w =
          .ok { w with texture := { w.texture with m_layout := tags } } ∧
        tags.length = w.texture.m_layout.length ∧
        ∀ j, tags[j]? =
          if i ≤ j ∧ j < i + count then some new_layout else w.texture.m_layout[j]? := by
  induction count with
  | zero =>
      intro i w _
      refine ⟨w.texture.m_layout, rfl, rfl, fun j => ?_⟩
      have : ¬ (i ≤ j ∧ j < i + 0) := by omega
      simp only [this, if_false]
  | succ count ih =>
      intro i w h
      have hi : i < w.texture.m_layout.length := by omega
      obtain ⟨tags, hrun, hlen, htags⟩ := ih (i + 1)
        { w with texture :=
            { w.texture with m_layout := w.texture.m_layout.set i new_layout } }
        (by simp only [List.length_set]; omega)
      refine ⟨tags, ?_, ?_, fun j => ?_⟩
      · simp only [RHI_Texture.SetLayout_update, hi, if_true]
        exact hrun
      · simpa only [List.length_set] using hlen
      · rw [htags j]
        by_cases hj : j = i
        · subst hj
          have h1 : ¬ (j + 1 ≤ j ∧ j < j + 1 + count) := by omega
          have h2 : j ≤ j ∧ j < j + (count + 1) := by omega
          simp only [h1, h2, if_false, if_true]
          simp [List.getElem?_set, hi]
        · by_cases hr : i + 1 ≤ j ∧ j < i + 1 + count
          · have h2 : i ≤ j ∧ j < i + (count + 1) := by omega
            simp only [hr, h2, and_self, if_true]
          · have h2 : ¬ (i ≤ j ∧ j < i + (count + 1)) := by omega
            simp only [hr, h2, if_false]
            simp [List.getElem?_set, Ne.symm hj]

/-- The update loop in general: it returns or stops at an index out of range, and it changes
nothing but tags, whose number stays. -/
theorem SetLayout_update_frame (new_layout : RHI_Image_Layout) (count : Nat) :
    ∀ (i : Nat) (w : Texture_World),
      ∃ tags, tags.length = w.texture.m_layout.length ∧
        (RHI_Texture.SetLayout_update new_layout i count w =
            .ok { w with texture := { w.texture with m_layout := tags } } ∨
          RHI_Texture.SetLayout_update new_layout i count w =
            .fault .index_out_of_range
              { w with texture := { w.texture with m_layout := tags } }) := by
  induction count with
  | zero => intro i w; exact ⟨w.texture.m_layout, rfl, Or.inl rfl⟩
  | succ count ih =>
      intro i w
      by_cases hi : i < w.texture.m_layout.length
      · obtain ⟨tags, hlen, hrun⟩ := ih (i + 1)
          { w with texture :=
              { w.texture with m_layout := w.texture.m_layout.set i new_layout } }
        refine ⟨tags, by simpa only [List.length_set] using hlen, ?_⟩
        simp only [RHI_Texture.SetLayout_update, hi, if_true]
        exact hrun
      · refine ⟨w.texture.m_layout, rfl, Or.inr ?_⟩
        simp only [RHI_Texture.SetLayout_update, hi, if_false]

/-- What the check "already set" has found when it names a mip: that mip is the first of its
range whose tag is not `new_layout`. -/
theorem SetLayout_first_unset_some (m_layout : List RHI_Image_Layout)
    (new_layout : RHI_Image_Layout) (count : Nat) :
    ∀ (mip_index found : Nat),
      RHI_Texture.SetLayout_first_unset m_layout new_layout mip_index count =
        .ok (some found) →
      mip_index ≤ found ∧ found < mip_index + count ∧
      (∃ layout, m_layout[found]? = some layout ∧ layout ≠ new_layout) ∧
      ∀ j, mip_index ≤ j → j < found → m_layout[j]? = some new_layout := by
  induction count with
  | zero => intro mip_index found h; simp [RHI_Texture.SetLayout_first_unset] at h
  | succ count ih =>
      intro mip_index found h
      simp only [RHI_Texture.SetLayout_first_unset] at h
      cases hget : m_layout[mip_index]? with
      | none => simp [hget] at h
      | some layout =>
          simp only [hget] at h
          by_cases hl : layout = new_layout
          · simp only [hl, ne_eq, not_true_eq_false, if_false] at h
            obtain ⟨h1, h2, h3, h4⟩ := ih (mip_index + 1) found h
            refine ⟨by omega, by omega, h3, fun j hj1 hj2 => ?_⟩
            by_cases hj : j = mip_index
            · rw [hj, hget, hl]
            · exact h4 j (by omega) hj2
          · simp only [ne_eq, hl, not_false_eq_true, if_true] at h
            have hf : mip_index = found := by
              injection h with h
              injection h
            subst hf
            exact ⟨Nat.le_refl _, by omega, ⟨layout, hget, hl⟩, fun j h1 h2 => by omega⟩

/-- The check "already set" stops only at an index out of range. -/
theorem SetLayout_first_unset_error (m_layout : List RHI_Image_Layout)
    (new_layout : RHI_Image_Layout) (count : Nat) :
    ∀ (mip_index : Nat) (f : Fault),
      RHI_Texture.SetLayout_first_unset m_layout new_layout mip_index count = .error f →
      f = .index_out_of_range := by
  induction count with
  | zero => intro mip_index f h; simp [RHI_Texture.SetLayout_first_unset] at h
  | succ count ih =>
      intro mip_index f h
      simp only [RHI_Texture.SetLayout_first_unset] at h
      cases hget : m_layout[mip_index]? with
      | none =>
          simp only [hget] at h
          injection h with h
          exact h.symm
      | some layout =>
          simp only [hget] at h
          by_cases hl : layout = new_layout
          · simp only [hl, ne_eq, not_true_eq_false, if_false] at h
            exact ih (mip_index + 1) f h
          · simp [hl] at h

/-- The world a transition leaves: the tags `tags`, the barrier recorded into the command
buffer of `cmd_list` when there is one, and the counter raised with it. -/
theorem SetLayout_transition_shape (GetResource_CommandBuffer : RHI_CommandList → Ptr)
    (new_layout : RHI_Image_Layout) (cmd_list : Option RHI_CommandList)
    (mip_start mip_range : Nat) (w : Texture_World) (layout_old : RHI_Image_Layout)
    (hold : w.texture.m_layout[mip_start]? = some layout_old) :
    ∃ tags, tags.length = w.texture.m_layout.length ∧
      (RHI_Texture.SetLayout_transition GetResource_CommandBuffer new_layout cmd_list
          mip_start mip_range w =
        .ok
          { texture := { w.texture with m_layout := tags }
            trace := w.trace ++
              (match cmd_list with
               | some c =>
                   [.set_layout (GetResource_CommandBuffer c) mip_start mip_range
                     w.texture.m_array_length layout_old new_layout]
               | none => [])
            m_rhi_pipeline_barriers :=
              w.m_rhi_pipeline_barriers + (if cmd_list.isSome then 1 else 0) } ∨
       RHI_Texture.SetLayout_transition GetResource_CommandBuffer new_layout cmd_list
          mip_start mip_range w =
        .fault .index_out_of_range
          { texture := { w.texture with m_layout := tags }
            trace := w.trace ++
              (match cmd_list with
               | some c =>
                   [.set_layout (GetResource_CommandBuffer c) mip_start mip_range
                     w.texture.m_array_length layout_old new_layout]
               | none => [])
            m_rhi_pipeline_barriers :=
              w.m_rhi_pipeline_barriers + (if cmd_list.isSome then 1 else 0) }) := by
  cases cmd_list with
  | none =>
      obtain ⟨tags, hlen, hrun⟩ := SetLayout_update_frame new_layout
        (uint32_add mip_start mip_range - mip_start) mip_start w
      refine ⟨tags, hlen, ?_⟩
      simp only [RHI_Texture.SetLayout_transition, List.append_nil, Option.isSome_none,
        Bool.false_eq_true, if_false, Nat.add_zero]
      exact hrun
  | some c =>
      obtain ⟨tags, hlen, hrun⟩ := SetLayout_update_frame new_layout
        (uint32_add mip_start mip_range - mip_start) mip_start
        { w with
          trace := w.trace ++
            [.set_layout (GetResource_CommandBuffer c) mip_start mip_range
              w.texture.m_array_length layout_old new_layout]
          m_rhi_pipeline_barriers := w.m_rhi_pipeline_barriers + 1 }
      refine ⟨tags, hlen, ?_⟩
      simp only [RHI_Texture.SetLayout_transition, hold, Option.isSome_some, if_true]
      exact hrun

/-- Every way `SetLayout` ends: with the world it was given (it returned from the check
"already set", or an assertion or a read out of range stopped it), or after a transition from
a mip `mip_start` whose tag `layout_old` was not `new_layout`. -/
theorem SetLayout_shape (GetResource_CommandBuffer : RHI_CommandList → Ptr)
    (new_layout : RHI_Image_Layout) (cmd_list : Option RHI_CommandList) (mip : Int)
    (ranged : Bool) (w : Texture_World) :
    RHI_Texture.SetLayout GetResource_CommandBuffer new_layout cmd_list mip ranged w = .ok w ∨
    (mip ≠ -1 ∧
      RHI_Texture.SetLayout GetResource_CommandBuffer new_layout cmd_list mip ranged w =
        .fault .assertion_failed w) ∨
    RHI_Texture.SetLayout GetResource_CommandBuffer new_layout cmd_list mip ranged w =
      .fault .index_out_of_range w ∨
    ∃ mip_start mip_range layout_old,
      w.texture.m_layout[mip_start]? = some layout_old ∧ layout_old ≠ new_layout ∧
      RHI_Texture.SetLayout GetResource_CommandBuffer new_layout cmd_list mip ranged w =
        RHI_Texture.SetLayout_transition GetResource_CommandBuffer new_layout cmd_list
          mip_start mip_range w := by
  by_cases hmip : mip = -1
  · subst hmip
    have hle : uint32_sub w.texture.m_mip_count 0 ≤ w.texture.m_mip_count :=
      uint32_sub_zero_le _
    cases hscan : RHI_Texture.SetLayout_first_unset w.texture.m_layout new_layout 0
        ((if ranged = true then w.texture.m_mip_count else 1) - 0) with
    | error f =>
        have hf := SetLayout_first_unset_error _ _ _ _ _ hscan
        subst hf
        right; right; left
        simp only [Nat.sub_zero] at hscan
        simp [RHI_Texture.SetLayout, hle, hscan]
    | ok found =>
        cases found with
        | none =>
            left
            simp only [Nat.sub_zero] at hscan
            simp [RHI_Texture.SetLayout, hle, hscan]
        | some mip_index =>
            obtain ⟨_, _, ⟨layout, hl, hne⟩, _⟩ := SetLayout_first_unset_some _ _ _ _ _ hscan
            right; right; right
            simp only [Nat.sub_zero] at hscan
            refine ⟨mip_index,
              if ranged = true then w.texture.m_mip_count
              else uint32_sub w.texture.m_mip_count mip_index, layout, hl, hne, ?_⟩
            simp [RHI_Texture.SetLayout, hle, hscan]
  · by_cases hviews : w.texture.HasPerMipViews = true
    · by_cases hassert :
          uint32_sub w.texture.m_mip_count (to_uint32 mip) ≤ w.texture.m_mip_count
      · cases ranged with
        | false =>
            cases hget : w.texture.m_layout[to_uint32 mip]? with
            | none =>
                right; right; left
                simp [RHI_Texture.SetLayout, hmip, hviews, hassert, hget]
            | some layout =>
                by_cases hl : layout = new_layout
                · left
                  simp [RHI_Texture.SetLayout, hmip, hviews, hassert, hget, hl]
                · right; right; right
                  refine ⟨to_uint32 mip, 1, layout, hget, hl, ?_⟩
                  simp [RHI_Texture.SetLayout, hmip, hviews, hassert, hget, hl]
        | true =>
            cases hscan : RHI_Texture.SetLayout_first_unset w.texture.m_layout new_layout
                (to_uint32 mip)
                (uint32_sub w.texture.m_mip_count (to_uint32 mip) - to_uint32 mip) with
            | error f =>
                have hf := SetLayout_first_unset_error _ _ _ _ _ hscan
                subst hf
                right; right; left
                simp [RHI_Texture.SetLayout, hmip, hviews, hassert, hscan]
            | ok found =>
                cases found with
                | none =>
                    left
                    simp [RHI_Texture.SetLayout, hmip, hviews, hassert, hscan]
                | some mip_index =>
                    obtain ⟨_, _, ⟨layout, hl, hne⟩, _⟩ :=
                      SetLayout_first_unset_some _ _ _ _ _ hscan
                    right; right; right
                    refine ⟨mip_index, uint32_sub w.texture.m_mip_count mip_index, layout, hl,
                      hne, ?_⟩
                    simp [RHI_Texture.SetLayout, hmip, hviews, hassert, hscan]
      · right; left
        refine ⟨hmip, ?_⟩
        simp [RHI_Texture.SetLayout, hmip, hviews, hassert]
    · right; left
      refine ⟨hmip, ?_⟩
      simp [RHI_Texture.SetLayout, hmip, hviews]

/-- A request for all mips of a texture whose mip 0 does not hold `new_layout`: one transition
from mip 0 over `m_mip_count` mips, after which these mips hold `new_layout`. -/
theorem SetLayout_all_mips_from_first (GetResource_CommandBuffer : RHI_CommandList → Ptr)
    (new_layout : RHI_Image_Layout) (cmd_list : Option RHI_CommandList) (w : Texture_World)
    (layout_old : RHI_Image_Layout)
    (hk : w.texture.m_mip_count < 4294967296)
    (hpos : 0 < w.texture.m_mip_count)
    (hcap : w.texture.m_mip_count ≤ w.texture.m_layout.length)
    (hold : w.texture.m_layout[0]? = some layout_old) (hne : layout_old ≠ new_layout) :
    ∃ tags, RHI_Texture.SetLayout GetResource_CommandBuffer new_layout cmd_list (-1) true w =
        .ok
          { texture := { w.texture with m_layout := tags }
            trace := w.trace ++
              (match cmd_list with
               | some c =>
                   [.set_layout (GetResource_CommandBuffer c) 0 w.texture.m_mip_count
                     w.texture.m_array_length layout_old new_layout]
               | none => [])
            m_rhi_pipeline_barriers :=
              w.m_rhi_pipeline_barriers + (if cmd_list.isSome then 1 else 0) } ∧
      tags.length = w.texture.m_layout.length ∧
      ∀ j, tags[j]? =
        if j < w.texture.m_mip_count then some new_layout else w.texture.m_layout[j]? := by
  obtain ⟨k, hk1⟩ : ∃ k, w.texture.m_mip_count = k + 1 := ⟨w.texture.m_mip_count - 1, by omega⟩
  have hle : uint32_sub w.texture.m_mip_count 0 ≤ w.texture.m_mip_count :=
    uint32_sub_zero_le _
  have hscan : RHI_Texture.SetLayout_first_unset w.texture.m_layout new_layout 0
      w.texture.m_mip_count = .ok (some 0) := by
    rw [hk1]
    simp only [RHI_Texture.SetLayout_first_unset, hold, ne_eq, hne, not_false_eq_true, if_true]
  have hadd : uint32_add 0 w.texture.m_mip_count - 0 = w.texture.m_mip_count := by
    simp only [uint32_add, to_uint32]
    omega
  have hrun : RHI_Texture.SetLayout GetResource_CommandBuffer new_layout cmd_list (-1) true w =
      RHI_Texture.SetLayout_transition GetResource_CommandBuffer new_layout cmd_list 0
        w.texture.m_mip_count w := by
    simp [RHI_Texture.SetLayout, hle, hscan]
  rw [hrun]
  cases cmd_list with
  | none =>
      obtain ⟨tags, hupd, hlen, htags⟩ := SetLayout_update_ok new_layout
        w.texture.m_mip_count 0 w (by omega)
      refine ⟨tags, ?_, hlen, fun j => ?_⟩
      · simp only [RHI_Texture.SetLayout_transition, hadd, List.append_nil,
          Option.isSome_none, Bool.false_eq_true, if_false, Nat.add_zero]
        exact hupd
      · rw [htags j]
        simp
  | some c =>
      obtain ⟨tags, hupd, hlen, htags⟩ := SetLayout_update_ok new_layout
        w.texture.m_mip_count 0
        { w with
          trace := w.trace ++
            [.set_layout (GetResource_CommandBuffer c) 0 w.texture.m_mip_count
              w.texture.m_array_length layout_old new_layout]
          m_rhi_pipeline_barriers := w.m_rhi_pipeline_barriers + 1 } (by simp only; omega)
      refine ⟨tags, ?_, hlen, fun j => ?_⟩
      · simp only [RHI_Texture.SetLayout_transition, hadd, hold, Option.isSome_some, if_true]
        exact hupd
      · rw [htags j]
        simp

/-! ## Properties of `SetLayout` -/

/-- C21, as the code behaves: for a texture with `k` mips of which exactly the mips `[0, b)`,
`0 < b ≤ k`, differ from `new_layout`, `SetLayout(new_layout, cmd_list)` over all mips returns
having recorded exactly one transition into the command buffer of the command list; that
transition has base mip 0 and `k` levels, so that it covers the mips `[0, b)` and also the mips
`[b, k)` that already hold `new_layout`. The counter is raised by one and the `k` mips hold
`new_layout` afterwards. -/
theorem SetLayout_all_mips_one_transition
    (GetResource_CommandBuffer : RHI_CommandList → Ptr) (new_layout : RHI_Image_Layout)
    (c : RHI_CommandList) (w : Texture_World) (b : Nat) (layout_old : RHI_Image_Layout)
    (hk : w.texture.m_mip_count < 4294967296)
    (hcap : w.texture.m_mip_count ≤ w.texture.m_layout.length)
    (hb : 0 < b) (hbk : b ≤ w.texture.m_mip_count)
    (hold : w.texture.m_layout[0]? = some layout_old)
    (hdiff : ∀ j, j < b → ∃ layout, w.texture.m_layout[j]? = some layout ∧ layout ≠ new_layout)
    (_hsame : ∀ j, b ≤ j → j < w.texture.m_mip_count →
      w.texture.m_layout[j]? = some new_layout) :
    ∃ tags, RHI_Texture.SetLayout GetResource_CommandBuffer new_layout (some c) (-1) true w =
        .ok
          { texture := { w.texture with m_layout := tags }
            trace := w.trace ++
              [.set_layout (GetResource_CommandBuffer c) 0 w.texture.m_mip_count
                w.texture.m_array_length layout_old new_layout]
            m_rhi_pipeline_barriers := w.m_rhi_pipeline_barriers + 1 } ∧
      tags.length = w.texture.m_layout.length ∧
      ∀ j, tags[j]? =
        if j < w.texture.m_mip_count then some new_layout else w.texture.m_layout[j]? := by
  have hne : layout_old ≠ new_layout := by
    obtain ⟨layout, h1, h2⟩ := hdiff 0 hb
    rw [hold] at h1
    injection h1 with h1
    rw [h1]
    exact h2
  obtain ⟨tags, hrun, hlen, htags⟩ := SetLayout_all_mips_from_first GetResource_CommandBuffer
    new_layout (some c) w layout_old hk (by omega) hcap hold hne
  exact ⟨tags, hrun, hlen, htags⟩

/-- C21 as the code behaves, at a concrete input: of two mips the first differs; the one
transition recorded has base mip 0 and two levels. -/
theorem SetLayout_all_mips_one_transition_witness :
    ∃ tags, RHI_Texture.SetLayout active_cmd_buffer .General (some first_pass_world.cl) (-1)
        true (texture_with [.Shader_Read_Only_Optimal, .General]) =
        .ok
          { texture := { (texture_with [.Shader_Read_Only_Optimal, .General]).texture with
              m_layout := tags }
            trace := [.set_layout 100 0 2 1 .Shader_Read_Only_Optimal .General]
            m_rhi_pipeline_barriers := 1 } ∧
      tags.length = 2 ∧
      ∀ j, tags[j]? =
        if j < 2 then some .General
        else (texture_with [.Shader_Read_Only_Optimal, .General]).texture.m_layout[j]? :=
  SetLayout_all_mips_one_transition active_cmd_buffer .General first_pass_world.cl
    (texture_with [.Shader_Read_Only_Optimal, .General]) 1 .Shader_Read_Only_Optimal
    (by decide) (by decide) (by decide) (by decide) rfl
    (fun j hj => by
      have h0 : j = 0 := by omega
      subst h0
      exact ⟨.Shader_Read_Only_Optimal, rfl, by decide⟩)
    (fun j h1 h2 => by
      have h2 : j < 2 := h2
      have h0 : j = 1 := by omega
      subst h0
      rfl)

/-- C21 as stated fails: of the two mips of the texture exactly the mips `[0, 1)` differ from
`General`, and the transition recorded covers two levels from mip 0, not one. -/
theorem SetLayout_covers_mips_already_set :
    (RHI_Texture.SetLayout active_cmd_buffer .General (some first_pass_world.cl) (-1) true
        (texture_with [.Shader_Read_Only_Optimal, .General])).world.trace =
      [.set_layout 100 0 2 1 .Shader_Read_Only_Optimal .General] ∧
    (RHI_Texture.SetLayout active_cmd_buffer .General (some first_pass_world.cl) (-1) true
        (texture_with [.Shader_Read_Only_Optimal, .General])).world.trace ≠
      [.set_layout 100 0 (1 - 0) 1 .Shader_Read_Only_Optimal .General] := by
  constructor
  · rfl
  · decide

/-- C22, at an input that breaks it: a ranged request for mip 2 of a texture of four mips that
all hold `Shader_Read_Only_Optimal` passes both assertions and returns with nothing done; the
mips 2 and 3 of the requested range still hold `Shader_Read_Only_Optimal`, not `General`. -/
theorem SetLayout_ranged_request_skipped :
    in_requested_range sampled_texture.texture 2 true 2 = true ∧
    sampled_texture.texture.m_layout[2]? = some .Shader_Read_Only_Optimal ∧
    RHI_Texture.SetLayout active_cmd_buffer .General (some first_pass_world.cl) 2 true
      sampled_texture = .ok sampled_texture := by
  refine ⟨by decide, rfl, by rfl⟩

/-- C27, at an input that breaks it: of two mips the second differs from `General`; the request
for all mips passes both assertions, records a transition with base mip 1 and two levels, that
is the mips `[1, 3)` of a texture of two mips, and its update loop writes the tag of mip 1 and
then reaches index 2, past the two tags. -/
theorem SetLayout_range_past_the_mips :
    RHI_Texture.SetLayout active_cmd_buffer .General (some first_pass_world.cl) (-1) true
        (texture_with [.General, .Shader_Read_Only_Optimal]) =
      .fault .index_out_of_range
        { texture := { (texture_with [.General, .Shader_Read_Only_Optimal]).texture with
            m_layout := [.General, .General] }
          trace := [.set_layout 100 1 2 1 .Shader_Read_Only_Optimal .General]
          m_rhi_pipeline_barriers := 1 } := by
  rfl

/-- C23: on a texture without per-mip views, `SetLayout` with a given mip (`mip ≠ -1`) stops
at the assertion on `HasPerMipViews()` with the world as it was: no tag has been written and no
instruction recorded. With `mip = -1` that assertion is not evaluated: whatever
`HasPerMipViews()` answers, no assertion stops the call. -/
theorem SetLayout_without_per_mip_views
    (GetResource_CommandBuffer : RHI_CommandList → Ptr) (new_layout : RHI_Image_Layout)
    (cmd_list : Option RHI_CommandList) (mip : Int) (ranged : Bool) (w : Texture_World)
    (hviews : w.texture.HasPerMipViews = false) :
    (mip ≠ -1 →
      RHI_Texture.SetLayout GetResource_CommandBuffer new_layout cmd_list mip ranged w =
        .fault .assertion_failed w) ∧
    ∀ w1, RHI_Texture.SetLayout GetResource_CommandBuffer new_layout cmd_list (-1) ranged w ≠
      .fault .assertion_failed w1 := by
  constructor
  · intro hmip
    simp [RHI_Texture.SetLayout, hmip, hviews]
  · intro w1 h
    rcases SetLayout_shape GetResource_CommandBuffer new_layout cmd_list (-1) ranged w with
      h1 | ⟨h1, _⟩ | h1 | ⟨mip_start, mip_range, layout_old, hold, _, h1⟩
    · rw [h1] at h; cases h
    · exact h1 rfl
    · rw [h1] at h; cases h
    · rw [h1] at h
      obtain ⟨tags, _, h2 | h2⟩ := SetLayout_transition_shape GetResource_CommandBuffer
        new_layout cmd_list mip_start mip_range w layout_old hold
      · rw [h2] at h; cases h
      · rw [h2] at h; cases h

/-- C23 at a concrete input: a request for mip 1 of a texture without per-mip views. -/
theorem SetLayout_without_per_mip_views_witness :
    RHI_Texture.SetLayout active_cmd_buffer .General (some first_pass_world.cl) 1 true
        { sampled_texture with
          texture := { sampled_texture.texture with HasPerMipViews := false } } =
      .fault .assertion_failed
        { sampled_texture with
          texture := { sampled_texture.texture with HasPerMipViews := false } } :=
  (SetLayout_without_per_mip_views active_cmd_buffer .General (some first_pass_world.cl) 1 true
    { sampled_texture with texture := { sampled_texture.texture with HasPerMipViews := false } }
    rfl).1 (by decide)

/-- C29, as the code behaves: whenever `SetLayout` records a barrier, it records one, and the
old layout it declares is the tag of the first mip of the range of the barrier as it was before
the call, a tag that is not `new_layout`; the tags of the other mips of the range are not
read. -/
theorem SetLayout_declares_tag_of_first_mip
    (GetResource_CommandBuffer : RHI_CommandList → Ptr) (new_layout : RHI_Image_Layout)
    (cmd_list : Option RHI_CommandList) (mip : Int) (ranged : Bool) (w : Texture_World) :
    (RHI_Texture.SetLayout GetResource_CommandBuffer new_layout cmd_list mip ranged
      w).world.trace = w.trace ∨
    ∃ c mip_start mip_range layout_old,
      cmd_list = some c ∧
      w.texture.m_layout[mip_start]? = some layout_old ∧ layout_old ≠ new_layout ∧
      (RHI_Texture.SetLayout GetResource_CommandBuffer new_layout cmd_list mip ranged
        w).world.trace =
        w.trace ++ [.set_layout (GetResource_CommandBuffer c) mip_start mip_range
          w.texture.m_array_length layout_old new_layout] := by
  rcases SetLayout_shape GetResource_CommandBuffer new_layout cmd_list mip ranged w with
    h1 | ⟨_, h1⟩ | h1 | ⟨mip_start, mip_range, layout, hl, hne, h1⟩
  · left; rw [h1]; rfl
  · left; rw [h1]; rfl
  · left; rw [h1]; rfl
  · obtain ⟨tags, _, h2⟩ := SetLayout_transition_shape GetResource_CommandBuffer
      new_layout cmd_list mip_start mip_range w layout hl
    cases cmd_list with
    | none =>
        left
        rw [h1]
        rcases h2 with h2 | h2
        · rw [h2]; simp [Texture_Res.world]
        · rw [h2]; simp [Texture_Res.world]
    | some c =>
        right
        refine ⟨c, mip_start, mip_range, layout, rfl, hl, hne, ?_⟩
        rw [h1]
        rcases h2 with h2 | h2
        · rw [h2]; rfl
        · rw [h2]; rfl

/-- C29 as stated fails: the two mips hold `Preinitialized` and `Transfer_Dst_Optimal`; the
barrier of a request for all mips covers both and declares `Preinitialized` as the old layout,
which is not the tag of mip 1. -/
theorem SetLayout_declares_one_old_layout :
    (RHI_Texture.SetLayout active_cmd_buffer .Shader_Read_Only_Optimal
        (some first_pass_world.cl) (-1) true
        (texture_with [.Preinitialized, .Transfer_Dst_Optimal])).world.trace =
      [.set_layout 100 0 2 1 .Preinitialized .Shader_Read_Only_Optimal] ∧
    (texture_with [.Preinitialized, .Transfer_Dst_Optimal]).texture.m_layout[1]? ≠
      some .Preinitialized := by
  refine ⟨by rfl, by decide⟩

/-! ## Creation of a texture -/

@[simp]
theorem texture_exec_bind {α β : Type} (x : Texture_Exec α) (f : α → Texture_Exec β)
    (w : Texture_World) : (x >>= f) w = Texture_Exec.seq x f w := rfl

@[simp]
theorem texture_exec_pure {α : Type} (a : α) (w : Texture_World) :
    (pure a : Texture_Exec α) w = .ok a w := rfl

/-- A sequence of two pieces of code that each change nothing of the texture but tags changes
nothing but tags. -/
theorem Texture_Exec.seq_tags {α β : Type} (x : Texture_Exec α) (f : α → Texture_Exec β)
    (hx : ∀ w, ∃ tags, (x w).world.texture = { w.texture with m_layout := tags })
    (hf : ∀ a w, ∃ tags, (f a w).world.texture = { w.texture with m_layout := tags }) :
    ∀ w, ∃ tags, (Texture_Exec.seq x f w).world.texture =
      { w.texture with m_layout := tags } := by
  intro w
  obtain ⟨tags, h⟩ := hx w
  unfold Texture_Exec.seq
  cases hxw : x w with
  | ok a w1 =>
      rw [hxw] at h
      simp only [Texture_Out.world] at h
      obtain ⟨tags1, h1⟩ := hf a w1
      refine ⟨tags1, ?_⟩
      simp only [h1, h]
  | fault e w1 =>
      rw [hxw] at h
      exact ⟨tags, h⟩

/-- A sequence of two pieces of code that each keep the texture keeps the texture. -/
theorem Texture_Exec.seq_keeps {α β : Type} (x : Texture_Exec α) (f : α → Texture_Exec β)
    (hx : ∀ w, (x w).world.texture = w.texture)
    (hf : ∀ a w, (f a w).world.texture = w.texture) :
    ∀ w, (Texture_Exec.seq x f w).world.texture = w.texture := by
  intro w
  have h := hx w
  unfold Texture_Exec.seq
  cases hxw : x w with
  | ok a w1 =>
      rw [hxw] at h
      simp only [Texture_Out.world] at h
      simp only [hf a w1, h]
  | fault e w1 =>
      rw [hxw] at h
      exact h

theorem emit_keeps (e : Texture_Ev) (w : Texture_World) :
    (RHI_Texture.emit e w).world.texture = w.texture := rfl

theorem pure_keeps {α : Type} (a : α) (w : Texture_World) :
    ((pure a : Texture_Exec α) w).world.texture = w.texture := rfl

/-- The loop over the per-mip views keeps the texture. -/
theorem CreateResourceGpu_views_srv_mip_keeps (answer : Nat → Bool) (array_length : Nat)
    (mips : List Nat) :
    ∀ w, (RHI_Texture.CreateResourceGpu_views_srv_mip answer array_length mips w).world.texture
      = w.texture := by
  induction mips with
  | nil => intro w; rfl
  | cons i rest ih =>
      intro w
      simp only [RHI_Texture.CreateResourceGpu_views_srv_mip, texture_exec_bind]
      repeat' first
        | rfl
        | exact ih _
        | split

/-- The loop over the render target views keeps the texture. -/
theorem CreateResourceGpu_views_render_target_keeps (env : CreateEnv) (texture : RHI_Texture)
    (slices : List Nat) :
    ∀ w, (RHI_Texture.CreateResourceGpu_views_render_target env texture slices w).world.texture
      = w.texture := by
  induction slices with
  | nil => intro w; rfl
  | cons i rest ih =>
      intro w
      simp only [RHI_Texture.CreateResourceGpu_views_render_target, texture_exec_bind]
      repeat' first
        | rfl
        | exact ih _
        | exact emit_keeps _ _
        | intro _
        | split
        | refine Texture_Exec.seq_keeps _ _ ?_ ?_ _

/-- The block "Create image views" keeps the texture. -/
theorem CreateResourceGpu_views_keeps (env : CreateEnv) :
    ∀ w, (RHI_Texture.CreateResourceGpu_views env w).world.texture = w.texture := by
  intro w
  simp only [RHI_Texture.CreateResourceGpu_views, texture_exec_bind]
  repeat' first
    | rfl
    | exact emit_keeps _ _
    | exact CreateResourceGpu_views_srv_mip_keeps _ _ _ _
    | exact CreateResourceGpu_views_render_target_keeps _ _ _ _
    | intro _
    | split
    | refine Texture_Exec.seq_keeps _ _ ?_ ?_ _

/-- An update loop that returns has stayed within the array. -/
theorem SetLayout_update_returns (new_layout : RHI_Image_Layout) (count : Nat) :
    ∀ (i : Nat) (w w1 : Texture_World),
      RHI_Texture.SetLayout_update new_layout i count w = .ok w1 →
      count = 0 ∨ i + count ≤ w.texture.m_layout.length := by
  induction count with
  | zero => intro i w w1 _; exact Or.inl rfl
  | succ count ih =>
      intro i w w1 h
      right
      by_cases hi : i < w.texture.m_layout.length
      · simp only [RHI_Texture.SetLayout_update, hi, if_true] at h
        rcases ih (i + 1) _ w1 h with h0 | h1
        · omega
        · simp only [List.length_set] at h1
          omega
      · simp [RHI_Texture.SetLayout_update, hi] at h

/-- The block "Transition to target layout", when a command buffer was handed out and the
function goes on to return true: every mip holds the target layout, and nothing but tags has
changed in the texture. -/
theorem CreateResourceGpu_transition_true (env : CreateEnv) (w w1 : Texture_World)
    (hcmd : env.cmd_buffer ≠ nullptr)
    (h : RHI_Texture.CreateResourceGpu_transition env w = .ok true w1) :
    ∀ i, i < w.texture.m_mip_count →
      w1.texture.m_layout[i]? = some (RHI_Texture.GetAppropriateLayout w.texture) := by
  simp only [RHI_Texture.CreateResourceGpu_transition, texture_exec_bind, Texture_Exec.seq,
    RHI_Texture.emit, RHI_Texture.members, RHI_Texture.GetLayout, hcmd, ne_eq,
    not_false_eq_true, if_true] at h
  cases hget : w.texture.m_layout[0]? with
  | none => simp [hget] at h
  | some layout_old =>
      cases hend : env.command_buffer_immediate_end with
      | false => simp [hget, hend, Texture_Exec.seq, RHI_Texture.emit] at h
      | true =>
          simp only [hget, hend, Bool.not_true, Bool.false_eq_true, if_false,
            texture_exec_bind, Texture_Exec.seq, Texture_Exec.of_res] at h
          generalize hupd : RHI_Texture.SetLayout_update
            (RHI_Texture.GetAppropriateLayout w.texture) 0 w.texture.m_mip_count _ = r at h
          cases r with
          | fault f w2 => simp at h
          | ok w2 =>
              simp only at h
              have hkeep := CreateResourceGpu_views_keeps env w2
              rw [h] at hkeep
              simp only [Texture_Out.world] at hkeep
              intro i hi
              rcases SetLayout_update_returns _ _ _ _ _ hupd with h0 | hcap
              · omega
              · obtain ⟨tags, hok, _, htags⟩ := SetLayout_update_ok
                  (RHI_Texture.GetAppropriateLayout w.texture) w.texture.m_mip_count 0 _ hcap
                rw [hupd] at hok
                injection hok with hok
                rw [hkeep, hok]
                simp only [htags i]
                simp [hi]

/-- `SetLayout` changes nothing of the texture but tags. -/
theorem SetLayout_tags (GetResource_CommandBuffer : RHI_CommandList → Ptr)
    (new_layout : RHI_Image_Layout) (cmd_list : Option RHI_CommandList) (mip : Int)
    (ranged : Bool) (w : Texture_World) :
    ∃ tags, (RHI_Texture.SetLayout GetResource_CommandBuffer new_layout cmd_list mip ranged
      w).world.texture = { w.texture with m_layout := tags } := by
  rcases SetLayout_shape GetResource_CommandBuffer new_layout cmd_list mip ranged w with
    h1 | ⟨_, h1⟩ | h1 | ⟨mip_start, mip_range, layout, hl, _, h1⟩
  · exact ⟨w.texture.m_layout, by rw [h1]; rfl⟩
  · exact ⟨w.texture.m_layout, by rw [h1]; rfl⟩
  · exact ⟨w.texture.m_layout, by rw [h1]; rfl⟩
  · obtain ⟨tags, _, h2 | h2⟩ := SetLayout_transition_shape GetResource_CommandBuffer
      new_layout cmd_list mip_start mip_range w layout hl
    · exact ⟨tags, by rw [h1, h2]; rfl⟩
    · exact ⟨tags, by rw [h1, h2]; rfl⟩

/-- A piece of code that keeps the texture changes nothing but tags. -/
theorem tags_of_keeps {α : Type} (x : Texture_Exec α) (w : Texture_World)
    (h : (x w).world.texture = w.texture) :
    ∃ tags, (x w).world.texture = { w.texture with m_layout := tags } :=
  ⟨w.texture.m_layout, h⟩

theorem GetLayout_keeps (mip : Nat) (w : Texture_World) :
    (RHI_Texture.GetLayout mip w).world.texture = w.texture := by
  unfold RHI_Texture.GetLayout
  cases w.texture.m_layout[mip]? <;> rfl

theorem of_res_world (f : Texture_World → Texture_Res) (w : Texture_World) :
    (Texture_Exec.of_res f w).world = (f w).world := by
  unfold Texture_Exec.of_res
  cases f w <;> rfl

/-- The function `stage` changes nothing of the texture but tags. -/
theorem stage_tags (env : StageEnv) (HasData : Bool) :
    ∀ w, ∃ tags, (RHI_Texture.stage env HasData w).world.texture =
      { w.texture with m_layout := tags } := by
  intro w
  simp only [RHI_Texture.stage, RHI_Texture.copy_to_staging_buffer, texture_exec_bind]
  repeat' first
    | exact tags_of_keeps _ _ rfl
    | exact tags_of_keeps _ _ (GetLayout_keeps _ _)
    | (rw [of_res_world]; exact SetLayout_tags _ _ _ _ _ _)
    | intro _
    | split
    | refine Texture_Exec.seq_tags _ _ ?_ ?_ _

/-- The part of `CreateResourceGpu` after the block "Transition to target layout" was entered
with a command buffer: when the function returns true, every mip holds the layout
`GetAppropriateLayout` gives for the texture. -/
theorem CreateResourceGpu_true (env : CreateEnv) (w w1 : Texture_World)
    (hcmd : env.cmd_buffer ≠ nullptr)
    (h : RHI_Texture.CreateResourceGpu env w = .ok true w1) :
    ∀ i, i < w.texture.m_mip_count →
      w1.texture.m_layout[i]? = some (RHI_Texture.GetAppropriateLayout w.texture) := by
  by_cases h1 : env.m_rhi_device = nullptr
  · simp [RHI_Texture.CreateResourceGpu, RHI_Texture.SP_ASSERT, Texture_Exec.seq, h1] at h
  by_cases h2 : env.device = nullptr
  · simp [RHI_Texture.CreateResourceGpu, RHI_Texture.SP_ASSERT, Texture_Exec.seq, h1, h2] at h
  cases h3 : env.image_create with
  | false =>
      simp [RHI_Texture.CreateResourceGpu, RHI_Texture.SP_ASSERT, Texture_Exec.seq, h1, h2, h3,
        RHI_Texture.emit] at h
  | true =>
      simp only [RHI_Texture.CreateResourceGpu, RHI_Texture.SP_ASSERT, texture_exec_bind,
        Texture_Exec.seq, h1, h2, h3, RHI_Texture.emit, ne_eq, not_false_eq_true,
        decide_True, if_true, Bool.not_true, Bool.false_eq_true, if_false] at h
      cases h4 : env.HasData with
      | false =>
          simp only [h4, Bool.false_eq_true, if_false, texture_exec_bind, Texture_Exec.seq,
            texture_exec_pure, Bool.not_true] at h
          exact CreateResourceGpu_transition_true env
            { texture := w.texture
              m_rhi_pipeline_barriers := w.m_rhi_pipeline_barriers
              trace := w.trace ++ [.image_create true] } w1 hcmd h
      | true =>
          simp only [h4, if_true, texture_exec_bind, Texture_Exec.seq] at h
          obtain ⟨tags, hstage⟩ := stage_tags env.stage true
            { texture := w.texture
              m_rhi_pipeline_barriers := w.m_rhi_pipeline_barriers
              trace := w.trace ++ [.image_create true] }
          generalize RHI_Texture.stage env.stage true _ = r at h hstage
          cases r with
          | fault f w0 => simp at h
          | ok staged w0 =>
              cases staged with
              | false => simp [Texture_Exec.seq, RHI_Texture.emit] at h
              | true =>
                  simp only [Bool.not_true, Bool.false_eq_true, if_false] at h
                  simp only [Texture_Out.world] at hstage
                  have hall := CreateResourceGpu_transition_true env w0 w1 hcmd h
                  rw [hstage] at hall
                  exact hall

/-- C25, as the code behaves: the layout `GetAppropriateLayout` gives is determined by the
usage flags alone, shader-readable before read/write storage before color render target before
depth-stencil render target, `Preinitialized` when none is set; and whenever
`CreateResourceGpu` returns true after `command_buffer_immediate::begin` has handed out a
command buffer for the transition, every mip below `m_mip_count` holds that layout. -/
theorem CreateResourceGpu_target_layout (env : CreateEnv) (w w1 : Texture_World)
    (hcmd : env.cmd_buffer ≠ nullptr)
    (h : RHI_Texture.CreateResourceGpu env w = .ok true w1) :
    RHI_Texture.GetAppropriateLayout w.texture =
      (if w.texture.IsSrv then .Shader_Read_Only_Optimal
       else if w.texture.IsUav then .General
       else if w.texture.IsRenderTargetColor then .Color_Attachment_Optimal
       else if w.texture.IsRenderTargetDepthStencil then .Depth_Stencil_Attachment_Optimal
       else .Preinitialized) ∧
    ∀ i, i < w.texture.m_mip_count →
      w1.texture.m_layout[i]? = some (RHI_Texture.GetAppropriateLayout w.texture) := by
  refine ⟨?_, CreateResourceGpu_true env w w1 hcmd h⟩
  unfold RHI_Texture.GetAppropriateLayout
  cases w.texture.IsSrv <;> cases w.texture.IsUav <;> cases w.texture.IsRenderTargetColor <;>
    cases w.texture.IsRenderTargetDepthStencil <;> rfl

/-- C25 as the code behaves, at a concrete input: the creation of `declared_texture`, which is
shader-readable, with the command buffer `500` returns true, and its four mips hold
`Shader_Read_Only_Optimal`. -/
theorem CreateResourceGpu_target_layout_witness :
    RHI_Texture.CreateResourceGpu (create_ok 500) declared_texture =
      .ok true
        { texture := { declared_texture.texture with
            m_layout := List.replicate 4 .Shader_Read_Only_Optimal }
          m_rhi_pipeline_barriers := 0
          trace :=
            [ .image_create true, .command_buffer_immediate_begin 500,
              .set_layout 500 0 4 1 (.other 0) .Shader_Read_Only_Optimal,
              .command_buffer_immediate_end true,
              .view_create 0 1 0 4 true, .view_create 0 1 0 1 true, .view_create 0 1 1 1 true,
              .view_create 0 1 2 1 true, .view_create 0 1 3 1 true, .set_debug_name ] } ∧
    ∀ i, i < 4 →
      (List.replicate 4 RHI_Image_Layout.Shader_Read_Only_Optimal)[i]? =
        some .Shader_Read_Only_Optimal :=
  ⟨by decide!, (CreateResourceGpu_target_layout (create_ok 500) declared_texture
    { texture := { declared_texture.texture with
        m_layout := List.replicate 4 .Shader_Read_Only_Optimal }
      m_rhi_pipeline_barriers := 0
      trace :=
        [ .image_create true, .command_buffer_immediate_begin 500,
          .set_layout 500 0 4 1 (.other 0) .Shader_Read_Only_Optimal,
          .command_buffer_immediate_end true,
          .view_create 0 1 0 4 true, .view_create 0 1 0 1 true, .view_create 0 1 1 1 true,
          .view_create 0 1 2 1 true, .view_create 0 1 3 1 true, .set_debug_name ] }
    (by decide) (by decide!)).2⟩

/-- C25 as stated fails: when `command_buffer_immediate::begin` hands out no command buffer,
the creation of `declared_texture` skips the transition and still returns true, and mip 0 holds
the layout it had, not `Shader_Read_Only_Optimal`. -/
theorem CreateResourceGpu_true_without_transition :
    RHI_Texture.CreateResourceGpu (create_ok nullptr) declared_texture =
      .ok true
        { declared_texture with
          trace :=
            [ .image_create true, .command_buffer_immediate_begin nullptr,
              .view_create 0 1 0 4 true, .view_create 0 1 0 1 true, .view_create 0 1 1 1 true,
              .view_create 0 1 2 1 true, .view_create 0 1 3 1 true, .set_debug_name ] } ∧
    RHI_Texture.GetAppropriateLayout declared_texture.texture = .Shader_Read_Only_Optimal ∧
    declared_texture.texture.m_layout[0]? ≠
      some (RHI_Texture.GetAppropriateLayout declared_texture.texture) :=
  ⟨by decide!, by decide, by decide⟩

/-! ## A `Begin` that stops at an invalid pipeline -/

/-- C28, at an input that breaks it: a `Begin` from `Idle` on slot 0 with the pipeline `7`
bound, to which the cache hands the pipeline `8` whose native handle is null and the swap chain
assigns slot 1. The call returns in `Idle`, not in `Recording`, after it has opened the command
buffer `101` of slot 1 and recorded `vkCmdBeginRenderPass` into it, with `m_buffer_index` moved
to 1 and `m_pipeline` to `8`. -/
theorem Begin_invalid_pipeline_leaves_buffer_open :
    Begin "" (begin_ok 1 8 nullptr) (sample_world RHI_Cmd_List_Idle) =
      .ok ()
        { cl := { (sample_world RHI_Cmd_List_Idle).cl with
            m_pipeline := 8
            m_buffer_index := 1 }
          trace :=
            [ .GetPipeline { shader_vertex := 1, swap_chain := 2, rest := 0 },
              .AcquireNextImage 2 true,
              .SetSemaphoreRenderFinished 2 201,
              .vkBeginCommandBuffer 101 VK_SUCCESS,
              .vkCmdBeginRenderPass 101 0 0 0 0,
              .LOG_ERROR .invalid_pipeline ] } ∧
    (sample_world RHI_Cmd_List_Idle).cl.m_cmd_state ≠ RHI_Cmd_List_Recording ∧
    (sample_world RHI_Cmd_List_Idle).cl.m_buffer_index ≠ 1 ∧
    (sample_world RHI_Cmd_List_Idle).cl.m_pipeline ≠ 8 := by
  refine ⟨by decide!, by decide, by decide, by decide⟩

/-! ## The gearbox -/

/-- One call of `update` on a gear between 1 and 6: the read of `gear_ratios` is in bounds, the
call returns, the gear has moved by at most one step and is still between 1 and 6. -/
theorem gearbox_update_step (fl : Float_ops) (speed_mps : Nat) (g : gearbox)
    (h1 : 1 ≤ g.current_gear) (h6 : g.current_gear ≤ 6) :
    ∃ g1, gearbox.update fl speed_mps g = .ok g1 ∧
      1 ≤ g1.current_gear ∧ g1.current_gear ≤ 6 ∧
      (g1.current_gear = g.current_gear ∨ g1.current_gear = g.current_gear + 1 ∨
        g1.current_gear = g.current_gear - 1) := by
  obtain ⟨n, hn, hn6⟩ : ∃ n : Nat, g.current_gear = (n : Int) + 1 ∧ n < 6 :=
    ⟨(g.current_gear - 1).toNat, by omega, by omega⟩
  have hidx : ¬ (g.current_gear - 1 < 0) := by omega
  have htonat : (g.current_gear - 1).toNat = n := by omega
  obtain ⟨ratio, hratio⟩ : ∃ ratio, tuning.gear_ratios[n]? = some ratio := by
    have : n < tuning.gear_ratios.length := hn6
    exact ⟨tuning.gear_ratios[n], List.getElem?_eq_getElem this⟩
  have hread : gearbox.gear_ratio_at (g.current_gear - 1) = .ok ratio := by
    simp only [gearbox.gear_ratio_at, hidx, if_false, htonat, hratio]
  have hsize : to_size_t g.current_gear < tuning.gear_ratios.length ↔ g.current_gear < 6 := by
    have hl : tuning.gear_ratios.length = 6 := rfl
    rw [hl]
    simp only [to_size_t]
    omega
  simp only [gearbox.update, hread]
  by_cases hup : (fl.gt
      (fl.mul
        (fl.mul (fl.mul speed_mps (fl.mul ratio tuning.final_drive_ratio))
          (fl.div 0x3f800000 (fl.mul (fl.mul tuning.wheel_radius PI) 0x40000000)))
        0x42700000) tuning.engine_max_rpm &&
      decide (to_size_t g.current_gear < tuning.gear_ratios.length)) = true
  · have hlt : g.current_gear < 6 := by
      simp only [Bool.and_eq_true, decide_eq_true_eq] at hup
      exact hsize.mp hup.2
    refine ⟨_, by simp only [bind, Except.bind, hup, if_true]; rfl, ?_, ?_, ?_⟩
    · show 1 ≤ g.current_gear + 1; omega
    · show g.current_gear + 1 ≤ 6; omega
    · right; left; rfl
  · by_cases hdown : (fl.lt
        (fl.mul
          (fl.mul (fl.mul speed_mps (fl.mul ratio tuning.final_drive_ratio))
            (fl.div 0x3f800000 (fl.mul (fl.mul tuning.wheel_radius PI) 0x40000000)))
          0x42700000) tuning.engine_idle_rpm && decide (g.current_gear > 1)) = true
    · have hgt : g.current_gear > 1 := by
        simp only [Bool.and_eq_true, decide_eq_true_eq] at hdown
        exact hdown.2
      refine ⟨_, by simp only [bind, Except.bind, hup, hdown, if_true, if_false]; rfl,
        ?_, ?_, ?_⟩
      · show 1 ≤ g.current_gear - 1; omega
      · show g.current_gear - 1 ≤ 6; omega
      · right; right; rfl
    · refine ⟨_, by simp only [bind, Except.bind, hup, hdown, if_false]; rfl, ?_, ?_, ?_⟩
      · exact h1
      · exact h6
      · left; rfl

/-- With the gear between 1 and 6, the read `gear_ratios[current_gear - 1]` is in bounds. -/
theorem gear_ratio_in_bounds (current_gear : Int) (h1 : 1 ≤ current_gear)
    (h6 : current_gear ≤ 6) :
    ∃ ratio, gearbox.gear_ratio_at (current_gear - 1) = .ok ratio := by
  have hidx : ¬ (current_gear - 1 < 0) := by omega
  have hlen : (current_gear - 1).toNat < tuning.gear_ratios.length := by
    have hl : tuning.gear_ratios.length = 6 := rfl
    omega
  refine ⟨tuning.gear_ratios[(current_gear - 1).toNat], ?_⟩
  simp only [gearbox.gear_ratio_at, hidx, if_false, List.getElem?_eq_getElem hlen]

/-- Any number of calls of `update` from a gear between 1 and 6 returns with the gear between
1 and 6. -/
theorem gearbox_updates_in_range (fl : Float_ops) (speeds : List Nat) :
    ∀ g : gearbox, 1 ≤ g.current_gear → g.current_gear ≤ 6 →
      ∃ g1, gearbox.updates fl speeds g = .ok g1 ∧
        1 ≤ g1.current_gear ∧ g1.current_gear ≤ 6 := by
  induction speeds with
  | nil => intro g h1 h6; exact ⟨g, rfl, h1, h6⟩
  | cons speed_mps rest ih =>
      intro g h1 h6
      obtain ⟨g1, hstep, h11, h16, _⟩ := gearbox_update_step fl speed_mps g h1 h6
      obtain ⟨g2, hrest, h21, h26⟩ := ih g1 h11 h16
      refine ⟨g2, ?_, h21, h26⟩
      simp only [gearbox.updates, hstep]
      exact hrest

/-- C30: for every way the `float` operations round and compare and for every sequence of
speeds, the calls of `gearbox::update` from the initial gear 1 all return, and the gear they
leave is between 1 and 6, the number of entries of `gear_ratios`; so the read
`gear_ratios[current_gear - 1]` of a following `get_torque` and of a following `update` is in
bounds, and that `update` moves the gear by at most one step, again to a gear between 1
and 6. -/
theorem gearbox_gear_in_range (fl : Float_ops) (speeds : List Nat)
    (speed_mps throttle_input : Nat) :
    tuning.gear_ratios.length = 6 ∧
    ∃ g g1 torque,
      gearbox.updates fl speeds gearbox.initial = .ok g ∧
      1 ≤ g.current_gear ∧ g.current_gear ≤ 6 ∧
      gearbox.get_torque fl throttle_input g = .ok torque ∧
      gearbox.update fl speed_mps g = .ok g1 ∧
      1 ≤ g1.current_gear ∧ g1.current_gear ≤ 6 ∧
      (g1.current_gear = g.current_gear ∨ g1.current_gear = g.current_gear + 1 ∨
        g1.current_gear = g.current_gear - 1) := by
  refine ⟨rfl, ?_⟩
  obtain ⟨g, hrun, h1, h6⟩ := gearbox_updates_in_range fl speeds gearbox.initial
    (by decide) (by decide)
  obtain ⟨g1, hstep, h11, h16, hmove⟩ := gearbox_update_step fl speed_mps g h1 h6
  obtain ⟨ratio, hratio⟩ := gear_ratio_in_bounds g.current_gear h1 h6
  refine ⟨g, g1,
    fl.mul (fl.mul tuning.torque_max throttle_input) (fl.mul ratio tuning.final_drive_ratio),
    hrun, h1, h6, ?_, hstep, h11, h16, hmove⟩
  simp only [gearbox.get_torque, hratio]
  rfl

end Spartan
